import Mathlib

set_option maxRecDepth 8000

/-!
# libuavcan transport layer and allocation-server log traversal

A shallow embedding of

* `uavcan/transport/crc.hpp` (`TransferCRC`),
* `uavcan/transport/transfer.hpp`, `uc_transfer.cpp` (`TransferID`),
* `uavcan/transport/frame.hpp` (`Frame`),
* `uc_transfer_sender.cpp` (`TransferSender::send`),
* `uavcan/protocol/dynamic_node_id_allocation_server.hpp`
  (`RaftCore::traverseLogFromEndUntil`).

Conventions. `uint8_t`, `uint16_t` and `unsigned` values are natural numbers,
reduced modulo `2^8`, `2^16`, `2^32` wherever the C++ code converts to the type;
`int` values are integers, and a conversion from `unsigned` to `int` is the
two's complement reading `toInt`.  A `(pointer, length)` pair of bytes is a list.
Process-wide static members (`TransferID::BitLen`, `TransferID::Max`, ...) are
passed explicitly as a record of statics.
-/


namespace uavcan

/-! ## Machine integers -/

/-- Conversion of an `unsigned` (32 bit) value to `int`: two's complement. -/
def toInt (n : Nat) : Int :=
  if n % 2 ^ 32 < 2 ^ 31 then ((n % 2 ^ 32 : Nat) : Int) else ((n % 2 ^ 32 : Nat) : Int) - 2 ^ 32

/-- Conversion of an `int` to `unsigned` (32 bit). -/
def toUnsigned (i : Int) : Nat := (i % 2 ^ 32).toNat

/-- Subtraction `a - b` of two `unsigned` (32 bit) values. -/
def usub (a b : Nat) : Nat := (a % 2 ^ 32 + 2 ^ 32 - b % 2 ^ 32) % 2 ^ 32

/-! ## crc.hpp : CRC-16-CCITT -/

/-- The class `TransferCRC`: the only data member is `uint16_t value_`. -/
structure TransferCRC where
  value_ : Nat
deriving DecidableEq, Repr

namespace TransferCRC

/-- Default constructor `TransferCRC() : value_(0xFFFFU)`. -/
def init : TransferCRC := ⟨0xFFFF⟩

/-- Body of the loop `for (uint8_t bit = 8; bit > 0; --bit)` of the bit-serial `add`. -/
def bitStep (v : Nat) : Nat :=
  if v &&& 0x8000 ≠ 0 then (((v <<< 1) % 65536) ^^^ 0x1021) % 65536 else (v <<< 1) % 65536

/-- The `UAVCAN_TINY` variant of `void add(uint8_t byte)`. -/
def addTiny (c : TransferCRC) (byte : Nat) : TransferCRC :=
  ⟨bitStep^[8] (c.value_ ^^^ ((byte <<< 8) % 65536))⟩

/-- Modelled from the spec: the 256-entry lookup table `TransferCRC::Table` of CRC-16-CCITT
(polynomial 0x1021), whose definition lives in `uc_crc.cpp`; entry `i` is the remainder of
the byte `i`, which is what the bit-serial procedure yields from state zero. -/
def Table (i : Nat) : Nat := bitStep^[8] ((i <<< 8) % 65536)

/-- The table-driven (default build) variant of `void add(uint8_t byte)`. -/
def add (c : TransferCRC) (byte : Nat) : TransferCRC :=
  ⟨((((c.value_ <<< 8) ^^^ Table ((((c.value_ >>> 8) ^^^ byte) % 65536) &&& 0xFF)) % 65536) &&& 0xFFFF)
      % 65536⟩

/-- The overload `void add(const uint8_t* bytes, unsigned len)`: `while (len--) add(*bytes++)`. -/
def addBytes (c : TransferCRC) (bytes : List Nat) : TransferCRC := bytes.foldl add c

/-- The overload `add(bytes, len)` in a `UAVCAN_TINY` build. -/
def addBytesTiny (c : TransferCRC) (bytes : List Nat) : TransferCRC := bytes.foldl addTiny c

/-- Accessor `uint16_t get() const`. -/
def get (c : TransferCRC) : Nat := c.value_

end TransferCRC

/-! ## crc.hpp : CRC-32 and CRC-48 -/

/-- The class `TransferCRC32`: the only data member is `uint32_t value_`. -/
structure TransferCRC32 where
  value_ : Nat
deriving DecidableEq, Repr

namespace TransferCRC32

/-- Default constructor `TransferCRC32() : value_(0xFFFFFFFFU)`. -/
def init : TransferCRC32 := ⟨0xFFFFFFFF⟩

/-- Method `void add(uint8_t byte)`; the static `Table[256]`, defined outside the sources at
hand, is the parameter `table`. -/
def add (table : Nat → Nat) (c : TransferCRC32) (byte : Nat) : TransferCRC32 :=
  ⟨(((((c.value_ <<< 8) % 2 ^ 32) ^^^ table ((((c.value_ >>> 8) ^^^ byte) % 2 ^ 32) &&& 0xFF))
      % 2 ^ 32) &&& 0xFFFFFFFF) % 2 ^ 32⟩

/-- The overload `void add(const uint8_t* bytes, unsigned len)`. -/
def addBytes (table : Nat → Nat) (c : TransferCRC32) (bytes : List Nat) : TransferCRC32 :=
  bytes.foldl (add table) c

/-- Accessor `uint32_t get() const`. -/
def get (c : TransferCRC32) : Nat := c.value_

end TransferCRC32

/-- The class `TransferCRC48`: the only data member is `uint64_t value_`. -/
structure TransferCRC48 where
  value_ : Nat
deriving DecidableEq, Repr

namespace TransferCRC48

/-- Default constructor `TransferCRC48() : value_(0x000000000000UL)`. -/
def init : TransferCRC48 := ⟨0⟩

/-- Body of the loop `for (uint8_t bits = 0; bits < 8; bits++)` of `add(uint8_t)`. -/
def bitStep (v : Nat) : Nat :=
  let bit := v &&& 0x1
  let v := v >>> 1
  if bit ≠ 0 then (v ^^^ 0xeadb71093528) % 2 ^ 64 else v

/-- Method `void add(uint8_t byte)`. -/
def add (c : TransferCRC48) (byte : Nat) : TransferCRC48 :=
  ⟨bitStep^[8] ((c.value_ ^^^ (byte % 2 ^ 64)) % 2 ^ 64)⟩

/-- The overload `void add(const uint8_t* bytes, unsigned len)`: the loop
`while (len--) add(*bytes++)` and then `value_ ^= 0x130edf575accL`. -/
def addBytes (c : TransferCRC48) (bytes : List Nat) : TransferCRC48 :=
  ⟨((bytes.foldl add c).value_ ^^^ 0x130edf575acc) % 2 ^ 64⟩

/-- Accessor `uint64_t get() const`. -/
def get (c : TransferCRC48) : Nat := c.value_

end TransferCRC48

/-- Replace bit `bit` of the byte at position `pos` by its complement. -/
def flipBit : List Nat → Nat → Nat → List Nat
  | [], _, _ => []
  | b :: rest, 0, bit => (b ^^^ (1 <<< bit)) :: rest
  | b :: rest, pos + 1, bit => b :: flipBit rest pos bit

/-! ## transfer.hpp, uc_transfer.cpp : TransferPriority -/

/-- The static members of `TransferPriority`: `BitLen`, `NumericallyMax`, `NumericallyMin` (all
`uint8_t`) and the `value_` of the static priorities `Default`, `MiddleLower`,
`OneHigherThanLowest`, `OneLowerThanHighest`, `Lowest`. -/
structure TransferPriorityStatics where
  BitLen : Nat
  NumericallyMax : Nat
  NumericallyMin : Nat
  Default : Nat
  MiddleLower : Nat
  OneHigherThanLowest : Nat
  OneLowerThanHighest : Nat
  Lowest : Nat
deriving DecidableEq, Repr

/-- The class `TransferPriority`: the only data member is `uint8_t value_`. -/
structure TransferPriority where
  value_ : Nat
deriving DecidableEq, Repr

namespace TransferPriority

/-- The static `setBitLen(uint8_t len)`: `NumericallyMax = (1U << BitLen) - 1`,
`NumericallyMin = 0`, `Default.value_ = (1U << BitLen) / 2`, and so on; the right-hand sides are
computed in `unsigned` (in `int` where both operands are `uint8_t` or `int`) and stored into
`uint8_t`. -/
def setBitLen (len : Nat) : TransferPriorityStatics :=
  let BitLen := len % 256
  let NumericallyMax := ((((1 <<< BitLen) % 2 ^ 32) + 2 ^ 32 - 1) % 2 ^ 32) % 256
  let NumericallyMin := 0
  { BitLen := BitLen
    NumericallyMax := NumericallyMax
    NumericallyMin := NumericallyMin
    Default := (((1 <<< BitLen) % 2 ^ 32) / 2) % 256
    MiddleLower := ((((1 <<< BitLen) % 2 ^ 32) / 2 + ((1 <<< BitLen) % 2 ^ 32) / 4) % 2 ^ 32) % 256
    OneHigherThanLowest := (((NumericallyMax : Int) - 1) % 256).toNat
    OneLowerThanHighest := (NumericallyMin + 1) % 256
    Lowest := NumericallyMax }

/-- The initial statics of `uc_transfer.cpp`: `BitLen = 5U`, `NumericallyMax = (1U << BitLen) - 1`,
`NumericallyMin = 0`, and the five static priorities. -/
def defaultStatics : TransferPriorityStatics :=
  { BitLen := 5, NumericallyMax := 31, NumericallyMin := 0, Default := 16, MiddleLower := 24
    OneHigherThanLowest := 30, OneLowerThanHighest := 1, Lowest := 31 }

/-- Default constructor `TransferPriority() : value_(0xFF)`. -/
def init : TransferPriority := ⟨0xFF⟩

/-- Converting constructor `TransferPriority(uint8_t value)` (its assertion is `isValid()`). -/
def ofValue (value : Nat) : TransferPriority := ⟨value % 256⟩

/-- The static `fromPercent(uint8_t Percent)`:
`Result = ((100U - Percent) * NumericallyMax) / 100U`, computed in `unsigned` and stored into the
`uint8_t Result`; then `return TransferPriority(Result)`. -/
def fromPercent (s : TransferPriorityStatics) (Percent : Nat) : TransferPriority :=
  let Result := (((usub 100 (Percent % 256) * s.NumericallyMax) % 2 ^ 32) / 100) % 256
  ofValue Result

/-- Accessor `uint8_t get() const`. -/
def get (p : TransferPriority) : Nat := p.value_

/-- Method `bool isValid() const`: `value_ < (1U << BitLen)`. -/
def isValid (s : TransferPriorityStatics) (p : TransferPriority) : Bool :=
  decide (p.value_ < (1 <<< s.BitLen) % 2 ^ 32)

end TransferPriority

/-! ## transfer.hpp, uc_transfer.cpp : TransferID -/

/-- The static members `TransferID::BitLen`, `TransferID::Max`, `TransferID::Half` (all `uint8_t`). -/
structure TransferIDStatics where
  BitLen : Nat
  Max : Nat
  Half : Nat
deriving DecidableEq, Repr

/-- The class `TransferID`: the only data member is `uint8_t value_`. -/
structure TransferID where
  value_ : Nat
deriving DecidableEq, Repr

namespace TransferID

/-- The static `setBitLen(uint8_t len)`: `Max = (1U << BitLen) - 1U; Half = (1U << BitLen) / 2U`,
computed in `unsigned` and stored into `uint8_t`. -/
def setBitLen (len : Nat) : TransferIDStatics :=
  { BitLen := len % 256
    Max := ((((1 <<< (len % 256)) % 2 ^ 32) + 2 ^ 32 - 1) % 2 ^ 32) % 256
    Half := (((1 <<< (len % 256)) % 2 ^ 32) / 2) % 256 }

/-- The initial statics of `uc_transfer.cpp`: `BitLen = 5U`. -/
def defaultStatics : TransferIDStatics := { BitLen := 5, Max := 31, Half := 16 }

/-- Converting constructor `TransferID(uint8_t value)`: `value_ &= Max`. -/
def ofValue (s : TransferIDStatics) (value : Nat) : TransferID := ⟨(value % 256) &&& s.Max⟩

/-- Method `void increment()`: `value_ = (value_ + 1) & Max`. -/
def increment (s : TransferIDStatics) (t : TransferID) : TransferID :=
  ⟨((t.value_ + 1) &&& s.Max) % 256⟩

/-- Accessor `uint8_t get() const` (its assertion is `value_ <= Max`). -/
def get (t : TransferID) : Nat := t.value_

/-- Method `int computeForwardDistance(TransferID rhs) const` of `uc_transfer.cpp`. -/
def computeForwardDistance (s : TransferIDStatics) (self rhs : TransferID) : Int :=
  let d : Int := (rhs.get : Int) - (self.get : Int)
  if d < 0 then d + toInt (1 <<< s.BitLen) else d

/-- The condition of `UAVCAN_ASSERT(((get() + d) & Max) == rhs.get())` in
`computeForwardDistance`, with `d` the returned value. -/
def computeForwardDistanceAssertion (s : TransferIDStatics) (self rhs : TransferID) : Bool :=
  Int.land ((self.get : Int) + computeForwardDistance s self rhs) (s.Max : Int) == (rhs.get : Int)

end TransferID

/-! ## transfer.hpp : NodeID -/

/-- The static members `NodeID::BitLen`, `NodeID::Max`, `NodeID::MaxRecommendedForRegularNodes`. -/
structure NodeIDStatics where
  BitLen : Nat
  Max : Nat
  MaxRecommendedForRegularNodes : Nat
deriving DecidableEq, Repr

/-- The class `NodeID`: the only data member is `uint8_t value_`. -/
structure NodeID where
  value_ : Nat
deriving DecidableEq, Repr

namespace NodeID

/-- The initial statics of `uc_transfer.cpp`: `BitLen = 7U`, `Max = (1U << BitLen) - 1U`. -/
def defaultStatics : NodeIDStatics := { BitLen := 7, Max := 127, MaxRecommendedForRegularNodes := 125 }

/-- Method `bool isUnicast() const`: `(value_ <= Max) && (value_ != ValueBroadcast)`. -/
def isUnicast (s : NodeIDStatics) (n : NodeID) : Bool := decide (n.value_ ≤ s.Max) && (n.value_ != 0)

/-- Constant `ValueBroadcast = 0`. -/
def ValueBroadcast : Nat := 0

/-- Constant `ValueInvalid = 0xFF`. -/
def ValueInvalid : Nat := 0xFF

/-- Default constructor `NodeID() : value_(ValueInvalid)`. -/
def init : NodeID := ⟨ValueInvalid⟩

/-- The static `setBitLen(uint8_t len)`: `Max = (1U << BitLen) - 1U`,
`MaxRecommendedForRegularNodes = Max - 2`, computed in `unsigned` and `int` and stored into
`uint8_t`. -/
def setBitLen (len : Nat) : NodeIDStatics :=
  let max := ((((1 <<< (len % 256)) % 2 ^ 32) + 2 ^ 32 - 1) % 2 ^ 32) % 256
  { BitLen := len % 256
    Max := max
    MaxRecommendedForRegularNodes := (((max : Int) - 2) % 256).toNat }

/-- Method `bool isValid() const`: `value_ <= Max`. -/
def isValid (s : NodeIDStatics) (n : NodeID) : Bool := decide (n.value_ ≤ s.Max)

/-- Method `bool isBroadcast() const`: `value_ == ValueBroadcast`. -/
def isBroadcast (n : NodeID) : Bool := n.value_ == ValueBroadcast

end NodeID

/-! ## transfer.hpp : TransferType -/

/-- Enumerator `TransferTypeServiceResponse = 0`. -/
def TransferTypeServiceResponse : Nat := 0
/-- Enumerator `TransferTypeServiceRequest = 1`. -/
def TransferTypeServiceRequest : Nat := 1
/-- Enumerator `TransferTypeMessageBroadcast = 2`. -/
def TransferTypeMessageBroadcast : Nat := 2

/-! ## frame.hpp : Frame -/

/-- The class `Frame`, member by member.  `payload_` holds the `payload_len_` bytes of the buffer
`uint8_t payload_[PayloadCapacity]` that are in use; priority, data type ID and node IDs are
represented by the value they wrap. -/
structure Frame where
  payload_ : List Nat
  transfer_priority_ : Nat
  transfer_type_ : Nat
  data_type_id_ : Nat
  payload_len_ : Nat
  src_node_id_ : NodeID
  dst_node_id_ : NodeID
  transfer_id_ : TransferID
  start_of_transfer_ : Bool
  end_of_transfer_ : Bool
  toggle_ : Bool
  transfer_id_base_ : TransferID
  transfer_id_auto_inc_ : Nat
  type_ : Nat
  crc_len_ : Nat
deriving DecidableEq, Repr

namespace Frame

/-- Enumerator `PayloadCapacity = 8`. -/
def PayloadCapacity : Nat := 8

/-- The initial value of the static `TransferPriority::Default` in `uc_transfer.cpp`:
`(1U << BitLen) / 2` with `BitLen = 5U`. -/
def TransferPriorityDefault : Nat := 16

/-- Constructor `Frame(data_type_id, transfer_type, src_node_id, dst_node_id, transfer_id)`.
It initialises `transfer_priority_` from the static `TransferPriority::Default`, which is taken
here at its initial value; `send` sets the priority of the frame before any dispatch. -/
def ctor (data_type_id : Nat) (transfer_type : Nat) (src_node_id dst_node_id : NodeID)
    (transfer_id : TransferID) : Frame :=
  { payload_ := []
    transfer_priority_ := TransferPriorityDefault
    transfer_type_ := transfer_type
    data_type_id_ := data_type_id
    payload_len_ := 0
    src_node_id_ := src_node_id
    dst_node_id_ := dst_node_id
    transfer_id_ := transfer_id
    start_of_transfer_ := false
    end_of_transfer_ := false
    toggle_ := false
    transfer_id_base_ := ⟨0⟩
    transfer_id_auto_inc_ := 0
    type_ := 0
    crc_len_ := 16 }

def setCrcLen (f : Frame) (len : Nat) : Frame := { f with crc_len_ := len % 256 }
def getCrcLen (f : Frame) : Nat := f.crc_len_
def getFrameType (f : Frame) : Int := (f.type_ : Int)

/-- Method `setTransferIdAutoInc(uint8_t x, TransferID base)`. -/
def setTransferIdAutoInc (f : Frame) (x : Nat) (base : TransferID) : Frame :=
  let f := { f with transfer_id_auto_inc_ := x % 256 }
  if x % 256 ≠ 0 then { f with transfer_id_base_ := base } else f

def isTransferIdAutoInc (f : Frame) : Bool := decide (f.transfer_id_auto_inc_ > 0)
def getBaseAutoTransferID (f : Frame) : TransferID := f.transfer_id_base_
def setPriority (f : Frame) (priority : Nat) : Frame := { f with transfer_priority_ := priority }
def getPayloadCapacity (_f : Frame) : Nat := PayloadCapacity

/-- Modelled from the spec: `uint8_t Frame::setPayload(const uint8_t* data, unsigned len)`, declared
in `frame.hpp` and defined in `uc_frame.cpp`: "copies up to `PayloadCapacity` (8) bytes into the
frame's buffer, returning the number actually written".  `data` is the memory the pointer
designates. -/
def setPayload (f : Frame) (data : List Nat) (len : Nat) : Frame × Nat :=
  let n := min len f.getPayloadCapacity
  ({ f with payload_ := data.take n, payload_len_ := n }, n)

def setTransferType (f : Frame) (type : Nat) : Frame := { f with transfer_type_ := type }
def setDataTypeID (f : Frame) (id : Nat) : Frame := { f with data_type_id_ := id }
def getSrcNodeID (f : Frame) : NodeID := f.src_node_id_
def setSrcNodeID (f : Frame) (id : NodeID) : Frame := { f with src_node_id_ := id }
def setDstNodeID (f : Frame) (id : NodeID) : Frame := { f with dst_node_id_ := id }
def getTransferID (f : Frame) : TransferID := f.transfer_id_
def setTransferID (f : Frame) (id : TransferID) : Frame := { f with transfer_id_ := id }
def setStartOfTransfer (f : Frame) (x : Bool) : Frame := { f with start_of_transfer_ := x }
def setEndOfTransfer (f : Frame) (x : Bool) : Frame := { f with end_of_transfer_ := x }
def isStartOfTransfer (f : Frame) : Bool := f.start_of_transfer_
def isEndOfTransfer (f : Frame) : Bool := f.end_of_transfer_
def flipToggle (f : Frame) : Frame := { f with toggle_ := !f.toggle_ }
def getToggle (f : Frame) : Bool := f.toggle_

end Frame

/-! ## The dispatcher, as `TransferSender` sees it -/

/-- Modelled from the spec: the transfer performance counter (`TransferPerfCounter`, whose header is
not among the sources), with its tally of transmitted transfers and its error tally. -/
structure TransferPerfCounter where
  transfers_tx_ : Nat
  errors_ : Nat
deriving DecidableEq, Repr

/-- One call `dispatcher_.send(frame, tx_deadline, blocking_deadline, flags, iface_mask)`. -/
structure SendCall where
  frame : Frame
  tx_deadline : Nat
  blocking_deadline : Nat
  flags : Nat
  iface_mask : Nat
deriving DecidableEq, Repr

/-- The dispatcher behind the reference `dispatcher_`.  `send_result_ k c` is what the call `c` of
`Dispatcher::send` returns when `k` calls came before it; the calls are recorded in `sent_`. -/
structure Dispatcher where
  passive_mode_ : Bool
  node_id_ : NodeID
  perf_ : TransferPerfCounter
  sent_ : List SendCall
  send_result_ : Nat → SendCall → Int

namespace Dispatcher

def isPassiveMode (d : Dispatcher) : Bool := d.passive_mode_
def getNodeID (d : Dispatcher) : NodeID := d.node_id_

/-- Modelled from the spec: `getTransferPerfCounter().addTxTransfer()`. -/
def addTxTransfer (d : Dispatcher) : Dispatcher :=
  { d with perf_ := { d.perf_ with transfers_tx_ := d.perf_.transfers_tx_ + 1 } }

/-- Modelled from the spec: `getTransferPerfCounter().addError()`. -/
def addError (d : Dispatcher) : Dispatcher :=
  { d with perf_ := { d.perf_ with errors_ := d.perf_.errors_ + 1 } }

/-- The call `dispatcher_.send(...)`: the frame is handed over and the result code comes back. -/
def send (d : Dispatcher) (frame : Frame) (tx_deadline blocking_deadline flags iface_mask : Nat) :
    Int × Dispatcher :=
  let c : SendCall := ⟨frame, tx_deadline, blocking_deadline, flags, iface_mask⟩
  (d.send_result_ d.sent_.length c, { d with sent_ := d.sent_ ++ [c] })

end Dispatcher

/-! ## uc_transfer_sender.cpp : TransferSender -/

/-- Constants and statics that `TransferSender::send` reads and whose definitions are outside the
sources at hand: the error codes of `error.hpp`, the flag `CanIOFlagAbortOnError` of `can_io.hpp`,
the constant `OutgoingTransferRegistry::MinEntryLifetime`, and the current statics of
`TransferID` and `NodeID`. -/
structure Globals where
  ErrLogic : Int
  ErrPassiveMode : Int
  ErrMemory : Int
  CanIOFlagAbortOnError : Nat
  MinEntryLifetime : Nat
  transferID : TransferIDStatics
  nodeID : NodeIDStatics

/-- Modelled from the spec: `sizeof(CanFrame::data)`; CAN frames carry 8 data bytes. -/
def BUFLEN : Nat := 8

/-- The data members of `TransferSender` that `init` sets and `send` reads (`dispatcher_` is
passed separately). -/
structure TransferSender where
  max_transfer_interval_ : Nat
  data_type_id_ : Nat
  priority_ : Nat
  crc_base_ : TransferCRC
  crc_base32_ : TransferCRC32
  crc_base48_ : TransferCRC48
  flags_ : Nat
  iface_mask_ : Nat
  allow_anonymous_transfers_ : Bool
deriving DecidableEq, Repr

/-! ### The outgoing transfer registry -/

/-- The key `OutgoingTransferRegistryKey(data_type_id, transfer_type, destination_node_id)`. -/
structure OutgoingTransferRegistryKey where
  data_type_id_ : Nat
  transfer_type_ : Nat
  destination_node_id_ : NodeID
deriving DecidableEq, Repr

/-- Modelled from the spec: the value of a registry entry, `{TransferID next, MonotonicTime
deadline}`. -/
structure OutgoingTransferRegistryValue where
  tid : TransferID
  deadline : Nat
deriving DecidableEq, Repr

/-- Modelled from the spec: the outgoing transfer registry (its header is not among the sources),
"a bounded-capacity associative container indexed by the triple key".  `size` entries are in
use out of `capacity`; `now` is the reading of the monotonic clock at the time of an access. -/
structure OutgoingTransferRegistry where
  map : OutgoingTransferRegistryKey → Option OutgoingTransferRegistryValue
  size : Nat
  capacity : Nat
  now : Nat

namespace OutgoingTransferRegistry

/-- Store `v` under `key`. -/
def store (r : OutgoingTransferRegistry) (key : OutgoingTransferRegistryKey)
    (v : OutgoingTransferRegistryValue) : OutgoingTransferRegistry :=
  { r with map := fun k => if k = key then some v else r.map k }

/-- Modelled from the spec: `TransferID* accessOrCreate(key, new_deadline)`: "Entry creation on
first use; lookup returns the existing entry if its deadline has not passed, otherwise a fresh
one starting at TID 0"; "Entry expires when `now > deadline`"; the deadline of the entry becomes
`new_deadline`.  The result is `none` for a null pointer (the registry "cannot allocate") and
otherwise the registry in which the entry of `key` is the one pointed to. -/
def accessOrCreate (r : OutgoingTransferRegistry) (key : OutgoingTransferRegistryKey)
    (new_deadline : Nat) : Option OutgoingTransferRegistry :=
  match r.map key with
  | some v =>
    if r.now > v.deadline then some (r.store key ⟨⟨0⟩, new_deadline⟩)
    else some (r.store key ⟨v.tid, new_deadline⟩)
  | none =>
    if r.size < r.capacity then
      some { r.store key ⟨⟨0⟩, new_deadline⟩ with size := r.size + 1 }
    else none

/-- The `TransferID` that the pointer returned for `key` designates. -/
def tidAt (r : OutgoingTransferRegistry) (key : OutgoingTransferRegistryKey) : TransferID :=
  match r.map key with
  | some v => v.tid
  | none => ⟨0⟩

/-- The call `tid->increment()` through the pointer returned for `key`. -/
def incrementAt (s : TransferIDStatics) (r : OutgoingTransferRegistry)
    (key : OutgoingTransferRegistryKey) : OutgoingTransferRegistry :=
  match r.map key with
  | some v => r.store key ⟨v.tid.increment s, v.deadline⟩
  | none => r

end OutgoingTransferRegistry

/-- What a call of `send` leaves behind: the returned `int`, the dispatcher, and the frame that was
passed by reference. -/
structure SendResult where
  res : Int
  dispatcher : Dispatcher
  frame : Frame

namespace TransferSender

/-- Method `registerError()`. -/
def registerError (d : Dispatcher) : Dispatcher := d.addError

/-- The loop `while (true) { ... }` of the multi-frame path, entered with the state
`(frame, transfer_id, offset, num_sent)`; `fuel` bounds the number of iterations. -/
def sendLoop (g : Globals) (s : TransferSender) (payload : List Nat)
    (tx_deadline blocking_deadline : Nat) :
    Nat → Dispatcher → Frame → TransferID → Int → Int → Option SendResult
  | 0, _, _, _, _, _ => none
  | fuel + 1, d, frame, transfer_id, offset, num_sent =>
    let frame := frame.setTransferID transfer_id
    let (send_res, d) := d.send frame tx_deadline blocking_deadline s.flags_ s.iface_mask_
    if send_res < 0 then
      some ⟨send_res, registerError d, frame⟩
    else
      let num_sent := num_sent + 1
      if frame.isEndOfTransfer then
        some ⟨num_sent, d, frame⟩
      else
        let transfer_id :=
          if frame.isTransferIdAutoInc then transfer_id.increment g.transferID else transfer_id
        let frame := frame.setStartOfTransfer false
        let frame := frame.flipToggle
        let (frame, written) :=
          frame.setPayload (payload.drop offset.toNat) (usub payload.length (toUnsigned offset))
        let write_res : Int := (written : Int)
        if write_res < 0 then
          some ⟨write_res, registerError d, frame⟩
        else
          let offset := offset + write_res
          let frame := if offset ≥ toInt payload.length then frame.setEndOfTransfer true else frame
          sendLoop g s payload tx_deadline blocking_deadline fuel d frame transfer_id offset num_sent

/-- The branch `if (frame.getPayloadCapacity() >= payload_len) { ... }` of `send`: the
single-frame transfer. -/
def sendSingleFrame (g : Globals) (s : TransferSender) (d : Dispatcher) (frame : Frame)
    (payload : List Nat) (tx_deadline blocking_deadline : Nat) : Option SendResult :=
  let payload_len := payload.length
  let (frame, written) := frame.setPayload payload payload_len
  let res : Int := (written : Int)
  if res ≠ toInt payload_len then
    some ⟨if res < 0 then res else -g.ErrLogic, registerError d, frame⟩
  else
    let frame := frame.setEndOfTransfer true
    let flags :=
      if frame.getSrcNodeID.isUnicast g.nodeID then s.flags_
      else s.flags_ ||| g.CanIOFlagAbortOnError
    let (r, d) := d.send frame tx_deadline blocking_deadline flags s.iface_mask_
    some ⟨r, d, frame⟩

/-- The branch `else { ... }` of `send`: the multi-frame transfer.  The loop is given
`payload_len + 2` iterations. -/
def sendMultiFrame (g : Globals) (s : TransferSender) (d : Dispatcher) (frame : Frame)
    (payload : List Nat) (tx_deadline blocking_deadline : Nat) (tid : TransferID) :
    Option SendResult :=
  let payload_len := payload.length
  let offset : Int := 0
  if frame.getFrameType = 0 then
    let crc := s.crc_base_.addBytes payload
    let buf := [(crc.get &&& 0xFF) % 256, ((crc.get >>> 8) &&& 0xFF) % 256]
      ++ payload.take (BUFLEN - 2)
    let (frame, written) := frame.setPayload buf BUFLEN
    let write_res : Int := (written : Int)
    if write_res < 2 then
      some ⟨write_res, registerError d, frame⟩
    else
      let offset := write_res - 2
      let transfer_id := if frame.isTransferIdAutoInc then frame.getBaseAutoTransferID else tid
      sendLoop g s payload tx_deadline blocking_deadline (payload_len + 2) d frame transfer_id
        offset 0
  else
    let (frame, written) :=
      frame.setPayload (payload.drop offset.toNat) (usub payload_len (toUnsigned offset))
    let write_res : Int := (written : Int)
    if write_res < 0 then
      some ⟨write_res, registerError d, frame⟩
    else
      let offset := offset + write_res
      let transfer_id := if frame.isTransferIdAutoInc then frame.getBaseAutoTransferID else tid
      sendLoop g s payload tx_deadline blocking_deadline (payload_len + 2) d frame transfer_id
        offset 0

/-- The overload `send(Frame& frame, payload, payload_len, tx_deadline, blocking_deadline,
transfer_type, dst_node_id, tid)`. -/
def send (g : Globals) (s : TransferSender) (d : Dispatcher) (frame : Frame) (payload : List Nat)
    (tx_deadline blocking_deadline : Nat) (transfer_type : Nat) (dst_node_id : NodeID)
    (tid : TransferID) : Option SendResult :=
  let payload_len := payload.length
  let frame := frame.setTransferType transfer_type
  let frame := frame.setDataTypeID s.data_type_id_
  let frame := frame.setSrcNodeID d.getNodeID
  let frame := frame.setDstNodeID dst_node_id
  let frame := frame.setTransferID tid
  let frame := frame.setPriority s.priority_
  let frame := frame.setStartOfTransfer true
  let allow := s.allow_anonymous_transfers_ &&
    (transfer_type == TransferTypeMessageBroadcast) &&
    decide (toInt payload_len ≤ (frame.getPayloadCapacity : Int))
  if d.isPassiveMode && !allow then
    some ⟨-g.ErrPassiveMode, d, frame⟩
  else
    let d := d.addTxTransfer
    if frame.getPayloadCapacity ≥ payload_len % 2 ^ 32 then
      sendSingleFrame g s d frame payload tx_deadline blocking_deadline
    else
      sendMultiFrame g s d frame payload tx_deadline blocking_deadline tid

/-- The overload `send(Frame& frame, payload, payload_len, tx_deadline, blocking_deadline,
transfer_type, dst_node_id)`, which takes the transfer ID from the outgoing transfer registry
`otr` of the dispatcher; the registry it leaves is returned with the result. -/
def sendFrameRegistry (g : Globals) (s : TransferSender) (d : Dispatcher)
    (otr : OutgoingTransferRegistry) (frame : Frame) (payload : List Nat)
    (tx_deadline blocking_deadline : Nat) (transfer_type : Nat) (dst_node_id : NodeID) :
    Option SendResult × OutgoingTransferRegistry :=
  let otr_key : OutgoingTransferRegistryKey := ⟨s.data_type_id_, transfer_type, dst_node_id⟩
  let otr_deadline := tx_deadline + max (s.max_transfer_interval_ * 2) g.MinEntryLifetime
  match otr.accessOrCreate otr_key otr_deadline with
  | none => (some ⟨-g.ErrMemory, d, frame⟩, otr)
  | some otr =>
    let this_tid := TransferID.ofValue g.transferID (otr.tidAt otr_key).get
    let otr := otr.incrementAt g.transferID otr_key
    (send g s d frame payload tx_deadline blocking_deadline transfer_type dst_node_id this_tid,
      otr)

/-- What a call of a `send` overload without `Frame&` parameter leaves behind: the returned `int`
and the dispatcher. -/
structure SendOutcome where
  res : Int
  dispatcher : Dispatcher

/-- The overload `send(payload, payload_len, tx_deadline, blocking_deadline, transfer_type,
dst_node_id)`, which takes the transfer ID from the outgoing transfer registry and constructs
the frame. -/
def sendRegistry (g : Globals) (s : TransferSender) (d : Dispatcher)
    (otr : OutgoingTransferRegistry) (payload : List Nat)
    (tx_deadline blocking_deadline : Nat) (transfer_type : Nat) (dst_node_id : NodeID) :
    Option SendOutcome × OutgoingTransferRegistry :=
  let otr_key : OutgoingTransferRegistryKey := ⟨s.data_type_id_, transfer_type, dst_node_id⟩
  let otr_deadline := tx_deadline + max (s.max_transfer_interval_ * 2) g.MinEntryLifetime
  match otr.accessOrCreate otr_key otr_deadline with
  | none => (some ⟨-g.ErrMemory, d⟩, otr)
  | some otr =>
    let this_tid := TransferID.ofValue g.transferID (otr.tidAt otr_key).get
    let otr := otr.incrementAt g.transferID otr_key
    let frame := Frame.ctor s.data_type_id_ transfer_type d.getNodeID dst_node_id this_tid
    ((send g s d frame payload tx_deadline blocking_deadline transfer_type dst_node_id
        this_tid).map (fun r => ⟨r.res, r.dispatcher⟩), otr)

/-! ### The multi-frame path with its offsets recorded -/

/-- What one pass through the second half of the loop body does to `offset`: its value at
`UAVCAN_ASSERT(offset >= 0)`, the length `payload_len - unsigned(offset)` passed to `setPayload`,
the number of bytes `setPayload` copied from `payload + offset`, and the value of `offset` at
`UAVCAN_ASSERT(offset <= int(payload_len))`. -/
structure LoopStep where
  offset_before : Int
  requested : Nat
  written : Nat
  offset_after : Int
deriving DecidableEq, Repr

/-- The loop `while (true) { ... }` of the multi-frame path as in `sendLoop`, which in addition
appends a `LoopStep` to `trace` at every `offset += write_res`. -/
def sendLoopTraced (g : Globals) (s : TransferSender) (payload : List Nat)
    (tx_deadline blocking_deadline : Nat) :
    Nat → Dispatcher → Frame → TransferID → Int → Int → List LoopStep →
      Option (SendResult × List LoopStep)
  | 0, _, _, _, _, _, _ => none
  | fuel + 1, d, frame, transfer_id, offset, num_sent, trace =>
    let frame := frame.setTransferID transfer_id
    let (send_res, d) := d.send frame tx_deadline blocking_deadline s.flags_ s.iface_mask_
    if send_res < 0 then
      some (⟨send_res, registerError d, frame⟩, trace)
    else
      let num_sent := num_sent + 1
      if frame.isEndOfTransfer then
        some (⟨num_sent, d, frame⟩, trace)
      else
        let transfer_id :=
          if frame.isTransferIdAutoInc then transfer_id.increment g.transferID else transfer_id
        let frame := frame.setStartOfTransfer false
        let frame := frame.flipToggle
        let requested := usub payload.length (toUnsigned offset)
        let (frame, written) := frame.setPayload (payload.drop offset.toNat) requested
        let write_res : Int := (written : Int)
        if write_res < 0 then
          some (⟨write_res, registerError d, frame⟩, trace)
        else
          let offset_before := offset
          let offset := offset + write_res
          let trace := trace ++ [⟨offset_before, requested, written, offset⟩]
          let frame := if offset ≥ toInt payload.length then frame.setEndOfTransfer true else frame
          sendLoopTraced g s payload tx_deadline blocking_deadline fuel d frame transfer_id offset
            num_sent trace

/-- The offsets of a multi-frame transfer: the value of `offset` when `num_sent` is initialised
(after the first payload write; none when the write failed), and the steps of the loop. -/
structure MultiFrameTrace where
  first_offset : Option Int
  steps : List LoopStep
deriving DecidableEq, Repr

/-- The branch `else { ... }` of `send` as in `sendMultiFrame`, with the offsets recorded. -/
def sendMultiFrameTraced (g : Globals) (s : TransferSender) (d : Dispatcher) (frame : Frame)
    (payload : List Nat) (tx_deadline blocking_deadline : Nat) (tid : TransferID) :
    Option (SendResult × MultiFrameTrace) :=
  let payload_len := payload.length
  let offset : Int := 0
  if frame.getFrameType = 0 then
    let crc := s.crc_base_.addBytes payload
    let buf := [(crc.get &&& 0xFF) % 256, ((crc.get >>> 8) &&& 0xFF) % 256]
      ++ payload.take (BUFLEN - 2)
    let (frame, written) := frame.setPayload buf BUFLEN
    let write_res : Int := (written : Int)
    if write_res < 2 then
      some (⟨write_res, registerError d, frame⟩, ⟨none, []⟩)
    else
      let offset := write_res - 2
      let transfer_id := if frame.isTransferIdAutoInc then frame.getBaseAutoTransferID else tid
      (sendLoopTraced g s payload tx_deadline blocking_deadline (payload_len + 2) d frame
        transfer_id offset 0 []).map (fun r => (r.1, ⟨some offset, r.2⟩))
  else
    let (frame, written) :=
      frame.setPayload (payload.drop offset.toNat) (usub payload_len (toUnsigned offset))
    let write_res : Int := (written : Int)
    if write_res < 0 then
      some (⟨write_res, registerError d, frame⟩, ⟨none, []⟩)
    else
      let offset := offset + write_res
      let transfer_id := if frame.isTransferIdAutoInc then frame.getBaseAutoTransferID else tid
      (sendLoopTraced g s payload tx_deadline blocking_deadline (payload_len + 2) d frame
        transfer_id offset 0 []).map (fun r => (r.1, ⟨some offset, r.2⟩))

/-! ### Auxiliary notions for stating what `send` dispatches -/

/-- The frame as `send` has it after its first seven statements (the setters up to
`setStartOfTransfer(true)`). -/
def setupFrame (s : TransferSender) (d : Dispatcher) (frame : Frame) (transfer_type : Nat)
    (dst_node_id : NodeID) (tid : TransferID) : Frame :=
  ((((((frame.setTransferType transfer_type).setDataTypeID s.data_type_id_).setSrcNodeID
    d.getNodeID).setDstNodeID dst_node_id).setTransferID tid).setPriority
    s.priority_).setStartOfTransfer true

/-- The call record of a dispatch from the multi-frame loop. -/
def loopCall (s : TransferSender) (tx_deadline blocking_deadline : Nat) (f : Frame) : SendCall :=
  ⟨f, tx_deadline, blocking_deadline, s.flags_, s.iface_mask_⟩

/-- The frame the loop body leaves for the next iteration, from the frame just dispatched. -/
def nextFrame (payload : List Nat) (f : Frame) (o : Nat) : Frame :=
  let w := min (payload.length - o) 8
  { f with
    start_of_transfer_ := false
    toggle_ := !f.toggle_
    payload_ := (payload.drop o).take w
    payload_len_ := w
    end_of_transfer_ := f.end_of_transfer_ || decide (payload.length ≤ o + w) }

/-- The transfer ID the loop body leaves for the next iteration. -/
def nextTid (g : Globals) (f : Frame) (t : TransferID) : TransferID :=
  if f.isTransferIdAutoInc then t.increment g.transferID else t

/-- The frames dispatched by the loop entered with `(frame, transfer_id, offset) = (f, t, o)`
when no dispatch fails. -/
inductive LoopFrames (g : Globals) (payload : List Nat) :
    Frame → TransferID → Nat → List Frame → Prop
  | last (f : Frame) (t : TransferID) (o : Nat) :
      f.end_of_transfer_ = true → LoopFrames g payload f t o [f.setTransferID t]
  | cons (f : Frame) (t : TransferID) (o : Nat) (rest : List Frame) :
      f.end_of_transfer_ = false →
      LoopFrames g payload (nextFrame payload (f.setTransferID t) o) (nextTid g f t)
        (o + min (payload.length - o) 8) rest →
      LoopFrames g payload f t o (f.setTransferID t :: rest)

end TransferSender

/-! ## dynamic_node_id_allocation_server.hpp : Log, RaftCore::traverseLogFromEndUntil -/

/-- Modelled from the spec: the generated type `protocol::dynamic_node_id::server::Entry`, a Raft
log entry `{term, unique_id[16], node_id}`. -/
structure Entry where
  term : Nat
  unique_id : List Nat
  node_id : Nat
deriving DecidableEq, Repr

/-- The data members of `Log` that a traversal reads: the array `entries_[Capacity]` and
`max_index_` ("Index zero always contains an empty entry"). -/
structure Log where
  entries_ : Nat → Entry
  max_index_ : Nat

namespace Log

/-- Accessor `Index getMaxIndex() const`. -/
def getMaxIndex (log : Log) : Nat := log.max_index_

/-- Modelled from the spec: `Log::getEntryAtIndex(Index)`, declared in the header ("Returns
nullptr if there's no such index") and defined elsewhere: an in-memory lookup "returning a
sentinel for i=0 and nothing for i > max_index". -/
def getEntryAtIndex (log : Log) (index : Nat) : Option Entry :=
  if index ≤ log.max_index_ then some (log.entries_ index) else none

end Log

/-- The data members of `ClusterManager` that the accessors below read. -/
structure ClusterManager where
  cluster_size_ : Nat
  num_known_servers_ : Nat
deriving DecidableEq, Repr

namespace ClusterManager

/-- Accessor `uint8_t getConfiguredClusterSize() const`. -/
def getConfiguredClusterSize (c : ClusterManager) : Nat := c.cluster_size_

/-- Accessor `uint8_t getQuorumSize() const`:
`static_cast<uint8_t>(cluster_size_ / 2U + 1U)`, computed in `unsigned`. -/
def getQuorumSize (c : ClusterManager) : Nat := ((c.cluster_size_ / 2 + 1) % 2 ^ 32) % 256

end ClusterManager

/-- How a call of `traverseLogFromEndUntil` ends: it returns a pointer to `entries_[index]`, or it
returns `NULL`, or `UAVCAN_ASSERT(entry != NULL)` is violated. -/
inductive TraverseOutcome
  | entry (index : Nat) (e : Entry)
  | null
  | assertionViolated
deriving DecidableEq, Repr

/-- Outcome of a traversal and the arguments of its `getEntryAtIndex` calls, in call order. -/
structure Traversal where
  outcome : TraverseOutcome
  visited : List Nat
deriving DecidableEq, Repr

namespace RaftCore

/-- The loop `for (int index = ...; index--; index >= 0) { ... }` of `traverseLogFromEndUntil`,
from the evaluation of its condition `index--` on; `fuel` bounds the condition evaluations. -/
def traverseLoop (log : Log) (predicate : Entry → Bool) :
    Nat → Int → List Nat → Option Traversal
  | 0, _, _ => none
  | fuel + 1, index, visited =>
    if index ≠ 0 then
      let index := index - 1
      let i := (index % 256).toNat
      let visited := visited ++ [i]
      match log.getEntryAtIndex i with
      | none => some ⟨TraverseOutcome.assertionViolated, visited⟩
      | some entry =>
        if predicate entry then some ⟨TraverseOutcome.entry i entry, visited⟩
        else traverseLoop log predicate fuel index visited
    else
      some ⟨TraverseOutcome.null, visited⟩

/-- Method `traverseLogFromEndUntil(const Predicate& predicate)`; the condition of the loop is
given `getMaxIndex() + 1` evaluations. -/
def traverseLogFromEndUntil (log : Log) (predicate : Entry → Bool) : Option Traversal :=
  traverseLoop log predicate (log.getMaxIndex + 1) (log.getMaxIndex : Int) []

end RaftCore

/-! ## Concrete scenarios -/

namespace Scenario

/-- Constants: the error codes and the flag as numbered in libuavcan, and the initial statics. -/
def globals : Globals :=
  { ErrLogic := 10, ErrPassiveMode := 11, ErrMemory := 3, CanIOFlagAbortOnError := 2
    MinEntryLifetime := 2000000
    transferID := TransferID.defaultStatics, nodeID := NodeID.defaultStatics }

/-- A dispatcher of node 10, not passive, nothing sent yet, every send returning 1. -/
def dispatcher : Dispatcher :=
  { passive_mode_ := false, node_id_ := ⟨10⟩, perf_ := ⟨0, 0⟩, sent_ := []
    send_result_ := fun _ _ => 1 }

/-- A dispatcher of a node without node ID: passive, nothing sent yet. -/
def passiveDispatcher : Dispatcher :=
  { passive_mode_ := true, node_id_ := ⟨0⟩, perf_ := ⟨0, 0⟩, sent_ := []
    send_result_ := fun _ _ => 1 }

/-- The dispatcher of node 10 with a driver that fails every send with code -4. -/
def failingDispatcher : Dispatcher :=
  { passive_mode_ := false, node_id_ := ⟨10⟩, perf_ := ⟨0, 0⟩, sent_ := []
    send_result_ := fun _ _ => -4 }

/-- A sender for data type 42 whose CRC base is the default-constructed `TransferCRC`. -/
def sender : TransferSender :=
  { max_transfer_interval_ := 60000000, data_type_id_ := 42, priority_ := 16
    crc_base_ := TransferCRC.init, crc_base32_ := TransferCRC32.init
    crc_base48_ := TransferCRC48.init, flags_ := 0
    iface_mask_ := 255, allow_anonymous_transfers_ := false }

/-- A sender for data type 42 whose CRC base makes the digest of the bytes 0x01..0x0A 0x29B1. -/
def sender29B1 : TransferSender := { sender with crc_base_ := ⟨0xD515⟩ }

/-- The ASCII bytes of "hello!.". -/
def hello : List Nat := [0x68, 0x65, 0x6C, 0x6C, 0x6F, 0x21, 0x2E]

/-- The ten bytes 0x01..0x0A. -/
def tenBytes : List Nat := [1, 2, 3, 4, 5, 6, 7, 8, 9, 10]

/-- The unique ID 01 02 ... 10 (hexadecimal). -/
def uniqueId : List Nat := [1, 2, 3, 4, 5, 6, 7, 8, 9, 10, 11, 12, 13, 14, 15, 16]

/-- The empty entry that index zero of a log holds. -/
def emptyEntry : Entry := ⟨0, List.replicate 16 0, 0⟩

/-- A log whose only entry, at index 1, maps `uniqueId` to node ID 50. -/
def logOneEntry : Log :=
  { entries_ := fun i => if i = 1 then ⟨1, uniqueId, 50⟩ else emptyEntry, max_index_ := 1 }

/-- A log with three entries, at the indices 1, 2, 3, for the node IDs 51, 52, 53. -/
def logThreeEntries : Log :=
  { entries_ := fun i => if i = 0 then emptyEntry else ⟨1, List.replicate 16 i, 50 + i⟩
    max_index_ := 3 }

/-- A log with no entry but the empty one at index zero. -/
def logEmpty : Log := { entries_ := fun _ => emptyEntry, max_index_ := 0 }

/-- The key of service requests of data type 42 to node 20. -/
def key : OutgoingTransferRegistryKey := ⟨42, TransferTypeServiceRequest, ⟨20⟩⟩

/-- A registry with room for two entries, none in use, read at time 0. -/
def registry : OutgoingTransferRegistry :=
  { map := fun _ => none, size := 0, capacity := 2, now := 0 }

/-- A registry without room. -/
def fullRegistry : OutgoingTransferRegistry :=
  { map := fun _ => none, size := 0, capacity := 0, now := 0 }

/-- The frame a sender of node 10 constructs for a broadcast of data type 42 with transfer ID 3. -/
def freshFrame : Frame := Frame.ctor 42 TransferTypeMessageBroadcast ⟨10⟩ ⟨0⟩ ⟨3⟩

/-- The same frame after a transfer that left its toggle bit set. -/
def staleToggleFrame : Frame := { freshFrame with toggle_ := true }

/-- The same frame after a transfer that left its end-of-transfer flag set. -/
def staleEndFrame : Frame := { freshFrame with end_of_transfer_ := true }

/-- A frame of type 1 (not UAVCAN; `Frame(uint8_t type)` sets `type_`), the other members as in
`freshFrame`. -/
def otherTypeFrame : Frame := { freshFrame with type_ := 1 }

/-- The constants with the statics `TransferID::setBitLen(9)` leaves. -/
def globals9 : Globals := { globals with transferID := TransferID.setBitLen 9 }

end Scenario

end uavcan

/-! # Theorems -/

namespace uavcan

/-! ## Machine integers and TransferID -/

theorem toInt_of_lt {n : Nat} (h : n < 2 ^ 31) : toInt n = (n : Int) := by
  unfold toInt
  have h1 : n % 2 ^ 32 = n := Nat.mod_eq_of_lt (by omega)
  rw [h1, if_pos h]

theorem TransferID.setBitLen_spec {len : Nat} (h : len ≤ 30) :
    (TransferID.setBitLen len).BitLen = len ∧
      (TransferID.setBitLen len).Max = 2 ^ (min len 8) - 1 := by
  interval_cases len <;> decide

theorem Int.land_natCast (n m : Nat) : Int.land (n : Int) (m : Int) = ((n &&& m : Nat) : Int) := rfl

/-- C8: for every bit length up to 30 set by `setBitLen` and all `TransferID`s `a`, `b` within
`Max`, `d = a.computeForwardDistance(b)` satisfies `0 <= d < 2^BitLen`,
`(a.get() + d) mod 2^BitLen = b.get()`, `d = (b - a) mod 2^BitLen`, and the assertion
`((get() + d) & Max) == rhs.get()` holds. -/
theorem C8_computeForwardDistance (len : Nat) (hlen : len ≤ 30) (a b : TransferID)
    (ha : a.value_ ≤ (TransferID.setBitLen len).Max)
    (hb : b.value_ ≤ (TransferID.setBitLen len).Max) :
    0 ≤ TransferID.computeForwardDistance (TransferID.setBitLen len) a b ∧
    TransferID.computeForwardDistance (TransferID.setBitLen len) a b < 2 ^ len ∧
    ((a.get : Int) + TransferID.computeForwardDistance (TransferID.setBitLen len) a b) % 2 ^ len
      = (b.get : Int) ∧
    TransferID.computeForwardDistance (TransferID.setBitLen len) a b
      = ((b.get : Int) - (a.get : Int)) % 2 ^ len ∧
    TransferID.computeForwardDistanceAssertion (TransferID.setBitLen len) a b = true := by
  obtain ⟨hB, hM⟩ := TransferID.setBitLen_spec hlen
  have hk : (2:Nat) ^ (min len 8) ∣ 2 ^ len := pow_dvd_pow 2 (min_le_left _ _)
  have hpos : 0 < (2:Nat) ^ (min len 8) := by positivity
  have hle : (2:Nat) ^ (min len 8) ≤ 2 ^ len := Nat.le_of_dvd (by positivity) hk
  have h31 : (2:Nat) ^ len < 2 ^ 31 := Nat.pow_lt_pow_right (by norm_num) (by omega)
  rw [hM] at ha hb
  simp only [TransferID.computeForwardDistanceAssertion, TransferID.computeForwardDistance,
    TransferID.get, hB, hM, Nat.shiftLeft_eq, one_mul, toInt_of_lt h31]
  obtain ⟨a⟩ := a
  obtain ⟨b⟩ := b
  simp only at ha hb ⊢
  have hcast : ((2 ^ len : Nat) : Int) = (2:Int) ^ len := by push_cast; rfl
  generalize hP : (2:Nat) ^ len = P at *
  generalize hK : (2:Nat) ^ (min len 8) = K at *
  rw [← hcast]
  obtain ⟨q, hq⟩ := hk
  have hPI : (0:Int) < (P:Int) := by omega
  by_cases hd : (b : Int) - (a : Int) < 0
  · rw [if_pos hd]
    have e1 : (a : Int) + ((b : Int) - (a : Int) + (P : Int)) = ((b + P : Nat) : Int) := by
      push_cast; ring
    have e2 : (a : Int) + ((b : Int) - (a : Int) + (P : Int)) = (b : Int) + (P : Int) := by ring
    refine ⟨by omega, by omega, ?_, ?_, ?_⟩
    · rw [e2, Int.add_emod_self]; exact Int.emod_eq_of_lt (by omega) (by omega)
    · rw [← Int.add_emod_self]; exact (Int.emod_eq_of_lt (by omega) (by omega)).symm
    · rw [e1, Int.land_natCast, ← hK, Nat.and_pow_two_sub_one_eq_mod, hK]
      simp only [beq_iff_eq]
      rw [hq, Nat.add_mul_mod_self_left]
      exact congrArg Nat.cast (Nat.mod_eq_of_lt (by omega))
  · rw [if_neg hd]
    have e1 : (a : Int) + ((b : Int) - (a : Int)) = ((b : Nat) : Int) := by ring
    refine ⟨by omega, by omega, ?_, ?_, ?_⟩
    · rw [e1]; exact Int.emod_eq_of_lt (by omega) (by omega)
    · exact (Int.emod_eq_of_lt (by omega) (by omega)).symm
    · rw [e1, Int.land_natCast, ← hK, Nat.and_pow_two_sub_one_eq_mod, hK]
      simp only [beq_iff_eq]
      exact congrArg Nat.cast (Nat.mod_eq_of_lt (by omega))

end uavcan

/-! ## CRC-16 -/

namespace uavcan
namespace TransferCRC

theorem bitStep_eq (v : Nat) :
    bitStep v = ((v <<< 1) % 65536) ^^^ (if v.testBit 15 then 0x1021 else 0) := by
  unfold bitStep
  have h1 : v &&& 0x8000 = (v.testBit 15).toNat * 2 ^ 15 := Nat.and_two_pow v 15
  have h2 : (v <<< 1) % 65536 < 2 ^ 16 := Nat.mod_lt _ (by norm_num)
  cases hb : v.testBit 15
  · simp [h1, hb]
  · have h3 : ((v <<< 1) % 65536) ^^^ 0x1021 < 2 ^ 16 := Nat.xor_lt_two_pow h2 (by norm_num)
    simp [h1, hb]
    omega

theorem bitStep_lt (v : Nat) : bitStep v < 65536 := by
  unfold bitStep
  split <;> exact Nat.mod_lt _ (by norm_num)

theorem bitStep_xor (v w : Nat) : bitStep (v ^^^ w) = bitStep v ^^^ bitStep w := by
  rw [bitStep_eq, bitStep_eq, bitStep_eq]
  apply Nat.eq_of_testBit_eq
  intro i
  have e : (65536 : Nat) = 2 ^ 16 := by norm_num
  simp only [e, Nat.testBit_xor, Nat.testBit_mod_two_pow, Nat.testBit_shiftLeft]
  cases v.testBit 15 <;> cases w.testBit 15 <;> cases v.testBit (i - 1) <;>
    cases w.testBit (i - 1) <;> cases Nat.testBit 0x1021 i <;> cases decide (i < 16) <;>
    cases decide (1 ≤ i) <;> simp

theorem bitStep_iter_xor (n v w : Nat) :
    bitStep^[n] (v ^^^ w) = bitStep^[n] v ^^^ bitStep^[n] w := by
  induction n generalizing v w with
  | zero => rfl
  | succ n ih => simp only [Function.iterate_succ, Function.comp, bitStep_xor, ih]

theorem bitStep_inj {v w : Nat} (hv : v < 65536) (hw : w < 65536)
    (h : bitStep v = bitStep w) : v = w := by
  rw [bitStep_eq, bitStep_eq] at h
  have e : (65536 : Nat) = 2 ^ 16 := by norm_num
  have h0 := congrArg (fun x => Nat.testBit x 0) h
  simp only [e, Nat.testBit_xor, Nat.testBit_mod_two_pow, Nat.testBit_shiftLeft] at h0
  have hbit : v.testBit 15 = w.testBit 15 := by
    cases hv15 : v.testBit 15 <;> cases hw15 : w.testBit 15 <;> simp [hv15, hw15] at h0 ⊢
  rw [hbit, Nat.xor_left_inj] at h
  have h15 := hbit
  rw [Nat.testBit_to_div_mod, Nat.testBit_to_div_mod] at h15
  simp only [Nat.shiftLeft_eq] at h
  have h16 : (v / 2 ^ 15 % 2 = 1) ↔ (w / 2 ^ 15 % 2 = 1) := decide_eq_decide.mp h15
  omega

theorem bitStep_iter_lt (n : Nat) {v : Nat} (hv : v < 65536) : bitStep^[n] v < 65536 := by
  cases n with
  | zero => exact hv
  | succ n => rw [Function.iterate_succ_apply']; exact bitStep_lt _

theorem bitStep_iter_inj (n : Nat) {v w : Nat} (hv : v < 65536) (hw : w < 65536)
    (h : bitStep^[n] v = bitStep^[n] w) : v = w := by
  induction n generalizing v w with
  | zero => exact h
  | succ n ih =>
    simp only [Function.iterate_succ, Function.comp] at h
    exact bitStep_inj hv hw (ih (bitStep_lt v) (bitStep_lt w) h)

theorem bitStep_small {v : Nat} (hv : v < 32768) : bitStep v = 2 * v := by
  rw [bitStep_eq]
  have : v.testBit 15 = false := Nat.testBit_lt_two_pow (by omega)
  simp only [this, Nat.shiftLeft_eq]
  simp
  omega

theorem bitStep_iter8_small {v : Nat} (hv : v < 256) : bitStep^[8] v = v <<< 8 := by
  simp only [Function.iterate_succ, Function.iterate_zero, Function.comp, id]
  rw [@bitStep_small (v) (by omega), @bitStep_small (2 * v) (by omega),
    @bitStep_small (2 * (2 * v)) (by omega),
    @bitStep_small (2 * (2 * (2 * v))) (by omega),
    @bitStep_small (2 * (2 * (2 * (2 * v)))) (by omega),
    @bitStep_small (2 * (2 * (2 * (2 * (2 * v))))) (by omega),
    @bitStep_small (2 * (2 * (2 * (2 * (2 * (2 * v)))))) (by omega),
    @bitStep_small (2 * (2 * (2 * (2 * (2 * (2 * (2 * v))))))) (by omega), Nat.shiftLeft_eq]
  omega


theorem Table_lt (i : Nat) : Table i < 65536 := bitStep_iter_lt 8 (Nat.mod_lt _ (by norm_num))

theorem xor_shift8 {v : Nat} (b : Nat) :
    v ^^^ (b <<< 8) = (((v >>> 8) ^^^ b) <<< 8) ^^^ (v % 256) := by
  apply Nat.eq_of_testBit_eq
  intro i
  have e : (256 : Nat) = 2 ^ 8 := by norm_num
  simp only [e, Nat.testBit_xor, Nat.testBit_mod_two_pow, Nat.testBit_shiftLeft,
    Nat.testBit_shiftRight]
  by_cases hi : i < 8
  · have h1 : ¬ (i ≥ 8) := by omega
    simp [hi, h1]
  · have h1 : i ≥ 8 := by omega
    have h2 : 8 + (i - 8) = i := by omega
    simp [hi, h1, h2]

theorem xor_mod_256 (x y : Nat) : (x ^^^ y) % 256 = (x % 256) ^^^ (y % 256) := by
  apply Nat.eq_of_testBit_eq
  intro i
  have e : (256 : Nat) = 2 ^ 8 := by norm_num
  simp only [e, Nat.testBit_xor, Nat.testBit_mod_two_pow]
  cases decide (i < 8) <;> simp

theorem xor_mod_65536 (x y : Nat) : (x ^^^ y) % 65536 = (x % 65536) ^^^ (y % 65536) := by
  apply Nat.eq_of_testBit_eq
  intro i
  have e : (65536 : Nat) = 2 ^ 16 := by norm_num
  simp only [e, Nat.testBit_xor, Nat.testBit_mod_two_pow]
  cases decide (i < 16) <;> simp

/-- Both variants of `add(uint8_t)` compute the same state from a 16-bit state. -/
theorem add_eq_addTiny (c : TransferCRC) (byte : Nat) (hc : c.value_ < 65536) :
    c.add byte = c.addTiny byte := by
  obtain ⟨v⟩ := c
  simp only at hc
  simp only [add, addTiny, mk.injEq]
  have hb : (byte <<< 8) % 65536 = (byte % 256) <<< 8 := by
    simp only [Nat.shiftLeft_eq]; omega
  have hhi : v >>> 8 < 256 := by
    rw [Nat.shiftRight_eq_div_pow]; omega
  have hidx : (((v >>> 8) ^^^ byte) % 65536) &&& 0xFF = (v >>> 8) ^^^ (byte % 256) := by
    have e : (0xFF : Nat) = 2 ^ 8 - 1 := by norm_num
    rw [e, Nat.and_pow_two_sub_one_eq_mod]
    have : ((v >>> 8 ^^^ byte) % 65536) % 2 ^ 8 = (v >>> 8 ^^^ byte) % 256 := by omega
    rw [this, xor_mod_256, Nat.mod_eq_of_lt hhi]
  have hidx_lt : (v >>> 8) ^^^ (byte % 256) < 256 :=
    @Nat.xor_lt_two_pow _ _ 8 hhi (Nat.mod_lt _ (by norm_num))
  have hT := Table_lt ((v >>> 8) ^^^ (byte % 256))
  have hlo : (v <<< 8) % 65536 = (v % 256) <<< 8 := by
    simp only [Nat.shiftLeft_eq]; omega
  -- the bit-serial side
  rw [hb, xor_shift8, bitStep_iter_xor, bitStep_iter8_small (Nat.mod_lt _ (by norm_num))]
  have hT2 : bitStep^[8] (((v >>> 8) ^^^ (byte % 256)) <<< 8) = Table ((v >>> 8) ^^^ (byte % 256)) := by
    unfold Table
    congr 1
    simp only [Nat.shiftLeft_eq]; omega
  rw [hT2]
  -- the table side
  rw [hidx]
  have e16 : (0xFFFF : Nat) = 2 ^ 16 - 1 := by norm_num
  rw [e16, Nat.and_pow_two_sub_one_eq_mod]
  have : ∀ x, x % 65536 % 2 ^ 16 % 65536 = x % 65536 := by intro x; omega
  rw [this, xor_mod_65536, hlo, Nat.mod_eq_of_lt hT, Nat.xor_comm]

theorem addTiny_lt (c : TransferCRC) (byte : Nat) (hc : c.value_ < 65536) :
    (c.addTiny byte).value_ < 65536 :=
  bitStep_iter_lt 8 (@Nat.xor_lt_two_pow _ _ 16 hc (Nat.mod_lt _ (by norm_num)))

theorem add_lt (c : TransferCRC) (byte : Nat) : (c.add byte).value_ < 65536 :=
  Nat.mod_lt _ (by norm_num)

theorem addBytes_eq_addBytesTiny (bytes : List Nat) (c : TransferCRC) (hc : c.value_ < 65536) :
    c.addBytes bytes = c.addBytesTiny bytes := by
  induction bytes generalizing c with
  | nil => rfl
  | cons b rest ih =>
    simp only [addBytes, addBytesTiny, List.foldl_cons] at ih ⊢
    rw [add_eq_addTiny c b hc]
    exact ih _ (addTiny_lt c b hc)

theorem addTiny_inj_state {c c' : TransferCRC} (byte : Nat) (hc : c.value_ < 65536)
    (hc' : c'.value_ < 65536) (h : c.addTiny byte = c'.addTiny byte) : c = c' := by
  obtain ⟨v⟩ := c
  obtain ⟨w⟩ := c'
  simp only [addTiny, mk.injEq] at h ⊢
  have hm : (byte <<< 8) % 65536 < 2 ^ 16 := Nat.mod_lt _ (by norm_num)
  have := bitStep_iter_inj 8 (@Nat.xor_lt_two_pow _ _ 16 hc hm) (@Nat.xor_lt_two_pow _ _ 16 hc' hm) h
  exact Nat.xor_left_inj.mp this

theorem addTiny_inj_byte (c : TransferCRC) {b b' : Nat} (hc : c.value_ < 65536)
    (hb : b < 256) (hb' : b' < 256) (h : c.addTiny b = c.addTiny b') : b = b' := by
  obtain ⟨v⟩ := c
  simp only [addTiny, mk.injEq] at h
  simp only at hc
  have hm : (b <<< 8) % 65536 < 2 ^ 16 := Nat.mod_lt _ (by norm_num)
  have hm' : (b' <<< 8) % 65536 < 2 ^ 16 := Nat.mod_lt _ (by norm_num)
  have := bitStep_iter_inj 8 (@Nat.xor_lt_two_pow _ _ 16 hc hm) (@Nat.xor_lt_two_pow _ _ 16 hc hm') h
  have h2 := Nat.xor_right_inj.mp this
  simp only [Nat.shiftLeft_eq] at h2
  omega

theorem addBytesTiny_ne {c c' : TransferCRC} (bytes : List Nat) (hc : c.value_ < 65536)
    (hc' : c'.value_ < 65536) (h : c ≠ c') : c.addBytesTiny bytes ≠ c'.addBytesTiny bytes := by
  induction bytes generalizing c c' with
  | nil => exact h
  | cons b rest ih =>
    simp only [addBytesTiny, List.foldl_cons] at ih ⊢
    exact ih (addTiny_lt c b hc) (addTiny_lt c' b hc')
      (fun hh => h (addTiny_inj_state b hc hc' hh))

end TransferCRC

theorem flipBit_digest_ne (bytes : List Nat) (c : TransferCRC) (pos bit : Nat)
    (hc : c.value_ < 65536) (hbytes : ∀ b ∈ bytes, b < 256) (hpos : pos < bytes.length)
    (hbit : bit < 8) :
    c.addBytesTiny (flipBit bytes pos bit) ≠ c.addBytesTiny bytes := by
  induction bytes generalizing c pos with
  | nil => simp at hpos
  | cons b rest ih =>
    have hb : b < 256 := hbytes b (List.mem_cons_self _ _)
    cases pos with
    | zero =>
      simp only [flipBit, TransferCRC.addBytesTiny, List.foldl_cons]
      have h1 : (1 : Nat) <<< bit < 2 ^ 8 := by
        rw [Nat.shiftLeft_eq, one_mul]; exact Nat.pow_lt_pow_right (by norm_num) hbit
      have hb' : b ^^^ (1 <<< bit) < 256 := @Nat.xor_lt_two_pow _ _ 8 hb h1
      have hne : b ^^^ (1 <<< bit) ≠ b := by
        intro hh
        have : b ^^^ (1 <<< bit) = b ^^^ 0 := by rw [hh, Nat.xor_zero]
        have h0 := Nat.xor_right_inj.mp this
        rw [Nat.shiftLeft_eq, one_mul] at h0
        exact absurd h0 (by positivity)
      exact TransferCRC.addBytesTiny_ne rest (TransferCRC.addTiny_lt c _ hc)
        (TransferCRC.addTiny_lt c _ hc)
        (fun hh => hne (TransferCRC.addTiny_inj_byte c hc hb' hb hh))
    | succ p =>
      simp only [flipBit, TransferCRC.addBytesTiny, List.foldl_cons]
      simp only [List.length_cons, Nat.add_lt_add_iff_right] at hpos
      exact ih (c.addTiny b) p (TransferCRC.addTiny_lt c b hc)
        (fun x hx => hbytes x (List.mem_cons_of_mem _ hx)) hpos

end uavcan

/-! ## TransferSender -/

namespace uavcan
namespace TransferSender

theorem toUnsigned_natCast {o : Nat} (h : o < 2 ^ 32) : toUnsigned (o : Int) = o := by
  unfold toUnsigned
  have : ((o : Int) % 2 ^ 32) = (o : Int) := Int.emod_eq_of_lt (by omega) (by omega)
  rw [this]; rfl

theorem usub_of_le {a b : Nat} (h : b ≤ a) (ha : a < 2 ^ 32) : usub a b = a - b := by
  unfold usub
  omega

theorem sendLoop_fail (g : Globals) (s : TransferSender) (payload : List Nat) (txd bd : Nat)
    (fuel : Nat) (d : Dispatcher) (f : Frame) (t : TransferID) (off n : Int)
    (h : d.send_result_ d.sent_.length (loopCall s txd bd (f.setTransferID t)) < 0) :
    sendLoop g s payload txd bd (fuel + 1) d f t off n =
      some ⟨d.send_result_ d.sent_.length (loopCall s txd bd (f.setTransferID t)),
        registerError { d with sent_ := d.sent_ ++ [loopCall s txd bd (f.setTransferID t)] },
        f.setTransferID t⟩ := by
  simp only [sendLoop, Dispatcher.send, loopCall] at h ⊢
  rw [if_pos h]

theorem sendLoop_end (g : Globals) (s : TransferSender) (payload : List Nat) (txd bd : Nat)
    (fuel : Nat) (d : Dispatcher) (f : Frame) (t : TransferID) (off n : Int)
    (h : 0 ≤ d.send_result_ d.sent_.length (loopCall s txd bd (f.setTransferID t)))
    (he : f.end_of_transfer_ = true) :
    sendLoop g s payload txd bd (fuel + 1) d f t off n =
      some ⟨n + 1, { d with sent_ := d.sent_ ++ [loopCall s txd bd (f.setTransferID t)] },
        f.setTransferID t⟩ := by
  simp only [sendLoop, Dispatcher.send, loopCall] at h ⊢
  rw [if_neg (not_lt.mpr h)]
  simp [Frame.isEndOfTransfer, Frame.setTransferID, he]

theorem sendLoop_cont (g : Globals) (s : TransferSender) (payload : List Nat) (txd bd : Nat)
    (fuel : Nat) (d : Dispatcher) (f : Frame) (t : TransferID) (o : Nat) (n : Int)
    (h : 0 ≤ d.send_result_ d.sent_.length (loopCall s txd bd (f.setTransferID t)))
    (he : f.end_of_transfer_ = false) (ho : o ≤ payload.length) (hL : payload.length < 2 ^ 31) :
    sendLoop g s payload txd bd (fuel + 1) d f t (o : Int) n =
      sendLoop g s payload txd bd fuel
        { d with sent_ := d.sent_ ++ [loopCall s txd bd (f.setTransferID t)] }
        (nextFrame payload (f.setTransferID t) o) (nextTid g f t)
        ((o + min (payload.length - o) 8 : Nat) : Int) (n + 1) := by
  have hu : usub payload.length (toUnsigned (o : Int)) = payload.length - o := by
    rw [toUnsigned_natCast (by omega), usub_of_le ho (by omega)]
  simp only [loopCall] at h
  rw [sendLoop]
  simp only [Dispatcher.send, loopCall]
  rw [if_neg (not_lt.mpr h)]
  simp only [Frame.isEndOfTransfer, Frame.setTransferID, he, Bool.false_eq_true, if_false,
    Int.toNat_ofNat, hu, Frame.setPayload, Frame.getPayloadCapacity, Frame.PayloadCapacity,
    toInt_of_lt hL]
  have hw : ¬ (((min (payload.length - o) 8 : Nat) : Int) < 0) := by omega
  rw [if_neg hw]
  have e1 : (if f.transfer_id_auto_inc_ > 0 then t.increment g.transferID else t) = nextTid g f t := by
    simp [nextTid, Frame.isTransferIdAutoInc]
  by_cases hc : payload.length ≤ o + min (payload.length - o) 8
  · have hc' : (payload.length : Int) ≤ (o : Int) + ((min (payload.length - o) 8 : Nat) : Int) := by
      omega
    push_cast at hc'
    simp [nextFrame, nextTid, Frame.setStartOfTransfer, Frame.flipToggle, Frame.setEndOfTransfer,
      Frame.isTransferIdAutoInc, he, hc, hc']
  · have hc' : ¬ (payload.length : Int) ≤ (o : Int) + ((min (payload.length - o) 8 : Nat) : Int) := by
      omega
    push_cast at hc'
    simp [nextFrame, nextTid, Frame.setStartOfTransfer, Frame.flipToggle, Frame.setEndOfTransfer,
      Frame.isTransferIdAutoInc, he, hc, hc']


theorem LoopFrames.ne_nil {g : Globals} {payload : List Nat} {f : Frame} {t : TransferID} {o : Nat}
    {frames : List Frame} (h : LoopFrames g payload f t o frames) : frames ≠ [] := by
  cases h <;> simp

/-- Concatenated, the payloads of the frames of the loop are the payload of the frame it is
entered with and then the payload bytes from the offset onwards. -/
theorem LoopFrames.payload_join {g : Globals} {payload : List Nat} {f : Frame} {t : TransferID}
    {o : Nat} {frames : List Frame} (h : LoopFrames g payload f t o frames)
    (hend : f.end_of_transfer_ = decide (payload.length ≤ o)) :
    (frames.map (fun x => x.payload_)).flatten = f.payload_ ++ payload.drop o := by
  induction h with
  | last f t o he =>
    have : payload.length ≤ o := by simpa [he] using hend.symm
    simp [Frame.setTransferID, List.drop_eq_nil_of_le this]
  | cons f t o rest he _ ih =>
    have hlt : ¬ payload.length ≤ o := by simpa [he] using hend.symm
    have ih' := ih (by simp [nextFrame, Frame.setTransferID, he])
    simp only [List.map_cons, List.flatten_cons, ih']
    simp only [nextFrame, Frame.setTransferID, List.append_assoc, List.append_cancel_left_eq]
    rw [← List.drop_drop, List.take_append_drop]

/-- Flags of the frames of the loop: only the first can carry the start flag, the toggle flips
from each frame to the next, and the last frame, and no other, carries the end flag. -/
theorem LoopFrames.flags {g : Globals} {payload : List Nat} {f : Frame} {t : TransferID}
    {o : Nat} {frames : List Frame} (h : LoopFrames g payload f t o frames) :
    ∀ (k : Nat) (hk : k < frames.length),
      frames[k].start_of_transfer_ = (decide (k = 0) && f.start_of_transfer_) ∧
      frames[k].toggle_ = xor f.toggle_ (decide (k % 2 = 1)) ∧
      frames[k].end_of_transfer_ = decide (k + 1 = frames.length) := by
  induction h with
  | last f t o he =>
    intro k hk
    have : k = 0 := by simpa using hk
    subst this
    simp [Frame.setTransferID, he]
  | cons f t o rest he hrest ih =>
    intro k hk
    cases k with
    | zero =>
      have := hrest.ne_nil
      have hl : rest.length ≠ 0 := fun h0 => this (List.length_eq_zero.mp h0)
      simp [Frame.setTransferID, he, hl]
    | succ k =>
      have hk' : k < rest.length := by simpa using hk
      obtain ⟨h1, h2, h3⟩ := ih k hk'
      simp only [List.getElem_cons_succ, h1, h2, h3, List.length_cons]
      refine ⟨by simp [nextFrame], ?_, by simp⟩
      simp only [nextFrame, Frame.setTransferID]
      have : (k + 1) % 2 = 1 ↔ ¬ (k % 2 = 1) := by omega
      cases f.toggle_ <;> by_cases hk2 : k % 2 = 1 <;> simp [hk2, this]

/-- Run of the loop when no dispatch fails: it returns, having dispatched the frames `LoopFrames`
describes and nothing else. -/
theorem sendLoop_run (g : Globals) (s : TransferSender) (payload : List Nat) (txd bd : Nat)
    (hL : payload.length < 2 ^ 31) :
    ∀ (fuel : Nat) (d : Dispatcher) (f : Frame) (t : TransferID) (o : Nat) (n : Int),
      (∀ k c, 0 ≤ d.send_result_ k c) → o ≤ payload.length →
      (if f.end_of_transfer_ then 1 else payload.length - o + 2) ≤ fuel →
      ∃ frames r, LoopFrames g payload f t o frames ∧
        sendLoop g s payload txd bd fuel d f t (o : Int) n = some r ∧
        r.res = n + (frames.length : Int) ∧
        r.dispatcher = { d with sent_ := d.sent_ ++ frames.map (loopCall s txd bd) } ∧
        frames.getLast? = some r.frame := by
  intro fuel
  induction fuel with
  | zero =>
    intro d f t o n _ _ hf
    split at hf <;> omega
  | succ fuel ih =>
    intro d f t o n hok ho hf
    cases he : f.end_of_transfer_
    · rw [sendLoop_cont g s payload txd bd fuel d f t o n (hok _ _) he ho hL]
      have hf' : (if (nextFrame payload (f.setTransferID t) o).end_of_transfer_ then 1
          else payload.length - (o + min (payload.length - o) 8) + 2) ≤ fuel := by
        simp only [he, Bool.false_eq_true, if_false] at hf
        simp only [nextFrame, Frame.setTransferID, he, Bool.false_or, decide_eq_true_eq]
        split <;> omega
      obtain ⟨frames, r, hfr, hrun, hres, hdisp, hlast⟩ :=
        ih { d with sent_ := d.sent_ ++ [loopCall s txd bd (f.setTransferID t)] }
          (nextFrame payload (f.setTransferID t) o) (nextTid g f t)
          (o + min (payload.length - o) 8) (n + 1) hok (by omega) hf'
      refine ⟨f.setTransferID t :: frames, r, LoopFrames.cons f t o frames he hfr, hrun, ?_, ?_, ?_⟩
      · rw [hres]; simp only [List.length_cons]; push_cast; ring
      · rw [hdisp]; simp
      · obtain ⟨x, xs, rfl⟩ := List.exists_cons_of_ne_nil hfr.ne_nil
        rw [List.getLast?_cons_cons]; exact hlast
    · rw [sendLoop_end g s payload txd bd fuel d f t (o : Int) n (hok _ _) he]
      exact ⟨[f.setTransferID t], _, LoopFrames.last f t o he, rfl, by simp, by simp, by simp⟩

end TransferSender
end uavcan

/-! ## Claims on the CRC -/

namespace uavcan

/-- C9: a freshly constructed `TransferCRC` (initial value 0xFFFF) fed the nine ASCII bytes of
"123456789" returns 0x29B1 from `get()`, in the table-driven build and in the bit-serial build. -/
theorem C9_crc16_test_vector :
    (TransferCRC.init.addBytes [0x31, 0x32, 0x33, 0x34, 0x35, 0x36, 0x37, 0x38, 0x39]).get = 0x29B1 ∧
    (TransferCRC.init.addBytesTiny [0x31, 0x32, 0x33, 0x34, 0x35, 0x36, 0x37, 0x38, 0x39]).get
      = 0x29B1 ∧
    "123456789".toList.map Char.toNat = [0x31, 0x32, 0x33, 0x34, 0x35, 0x36, 0x37, 0x38, 0x39] ∧
    TransferCRC.init.get = 0xFFFF := by
  refine ⟨by decide, by decide, by decide, by decide⟩

/-- C10: for every 16-bit CRC state, every sequence of bytes and every bit position in it, the
digest of the sequence with that one bit flipped differs from the digest of the sequence, in
the table-driven build and in the bit-serial build. -/
theorem C10_single_bit_error_detected (c : TransferCRC) (bytes : List Nat) (pos bit : Nat)
    (hc : c.value_ < 65536) (hbytes : ∀ b ∈ bytes, b < 256) (hpos : pos < bytes.length)
    (hbit : bit < 8) :
    (c.addBytes (flipBit bytes pos bit)).get ≠ (c.addBytes bytes).get ∧
    (c.addBytesTiny (flipBit bytes pos bit)).get ≠ (c.addBytesTiny bytes).get := by
  have h := flipBit_digest_ne bytes c pos bit hc hbytes hpos hbit
  have h' : (c.addBytesTiny (flipBit bytes pos bit)).get ≠ (c.addBytesTiny bytes).get := by
    intro e
    apply h
    cases h1 : c.addBytesTiny (flipBit bytes pos bit)
    cases h2 : c.addBytesTiny bytes
    simp only [h1, h2, TransferCRC.get] at e
    rw [e]
  refine ⟨?_, h'⟩
  rw [TransferCRC.addBytes_eq_addBytesTiny _ c hc, TransferCRC.addBytes_eq_addBytesTiny _ c hc]
  exact h'

/-- C10, at an instance: flipping bit 0 of the last byte of "123456789" changes the digest of a
freshly constructed `TransferCRC`. -/
theorem C10_single_bit_error_detected_witness :
    (TransferCRC.init.value_ < 65536 ∧
      (∀ b ∈ [0x31, 0x32, 0x33, 0x34, 0x35, 0x36, 0x37, 0x38, 0x39], b < 256) ∧
      8 < [0x31, 0x32, 0x33, 0x34, 0x35, 0x36, 0x37, 0x38, 0x39].length ∧ 0 < 8) ∧
    (TransferCRC.init.addBytes
        (flipBit [0x31, 0x32, 0x33, 0x34, 0x35, 0x36, 0x37, 0x38, 0x39] 8 0)).get ≠
      (TransferCRC.init.addBytes [0x31, 0x32, 0x33, 0x34, 0x35, 0x36, 0x37, 0x38, 0x39]).get ∧
    (TransferCRC.init.addBytesTiny
        (flipBit [0x31, 0x32, 0x33, 0x34, 0x35, 0x36, 0x37, 0x38, 0x39] 8 0)).get ≠
      (TransferCRC.init.addBytesTiny [0x31, 0x32, 0x33, 0x34, 0x35, 0x36, 0x37, 0x38, 0x39]).get :=
  ⟨⟨by decide, by decide, by decide, by decide⟩,
    C10_single_bit_error_detected TransferCRC.init
      [0x31, 0x32, 0x33, 0x34, 0x35, 0x36, 0x37, 0x38, 0x39] 8 0
      (by decide) (by decide) (by decide) (by decide)⟩

/-- C8, at an instance: with the default bit length 5, the forward distance from 30 to 2 is 4. -/
theorem C8_computeForwardDistance_witness :
    ((5 : Nat) ≤ 30 ∧ (⟨30⟩ : TransferID).value_ ≤ (TransferID.setBitLen 5).Max ∧
      (⟨2⟩ : TransferID).value_ ≤ (TransferID.setBitLen 5).Max) ∧
    TransferID.computeForwardDistance (TransferID.setBitLen 5) ⟨30⟩ ⟨2⟩ = 4 ∧
    TransferID.setBitLen 5 = TransferID.defaultStatics ∧
    (0 ≤ TransferID.computeForwardDistance (TransferID.setBitLen 5) ⟨30⟩ ⟨2⟩ ∧
    TransferID.computeForwardDistance (TransferID.setBitLen 5) ⟨30⟩ ⟨2⟩ < 2 ^ 5 ∧
    (((⟨30⟩ : TransferID).get : Int) +
        TransferID.computeForwardDistance (TransferID.setBitLen 5) ⟨30⟩ ⟨2⟩) % 2 ^ 5
      = ((⟨2⟩ : TransferID).get : Int) ∧
    TransferID.computeForwardDistance (TransferID.setBitLen 5) ⟨30⟩ ⟨2⟩
      = (((⟨2⟩ : TransferID).get : Int) - ((⟨30⟩ : TransferID).get : Int)) % 2 ^ 5 ∧
    TransferID.computeForwardDistanceAssertion (TransferID.setBitLen 5) ⟨30⟩ ⟨2⟩ = true) :=
  ⟨⟨by decide, by decide, by decide⟩, by decide, by decide,
    C8_computeForwardDistance 5 (by decide) ⟨30⟩ ⟨2⟩ (by decide) (by decide)⟩

end uavcan

/-! ## Claims on TransferSender::send -/

namespace uavcan
namespace TransferSender

/-- The three ways of `send`: refusal, single-frame transfer, multi-frame transfer. -/
theorem send_eq (g : Globals) (s : TransferSender) (d : Dispatcher) (frame : Frame)
    (payload : List Nat) (txd bd tt : Nat) (dst : NodeID) (tid : TransferID) :
    send g s d frame payload txd bd tt dst tid =
      if d.passive_mode_ && !(s.allow_anonymous_transfers_ &&
          (tt == TransferTypeMessageBroadcast) && decide (toInt payload.length ≤ 8)) then
        some ⟨-g.ErrPassiveMode, d, setupFrame s d frame tt dst tid⟩
      else if 8 ≥ payload.length % 2 ^ 32 then
        sendSingleFrame g s d.addTxTransfer (setupFrame s d frame tt dst tid) payload txd bd
      else
        sendMultiFrame g s d.addTxTransfer (setupFrame s d frame tt dst tid) payload txd bd tid :=
  rfl

/-- A passive node that is not allowed to send is refused before anything else happens. -/
theorem send_refused (g : Globals) (s : TransferSender) (d : Dispatcher) (frame : Frame)
    (payload : List Nat) (txd bd tt : Nat) (dst : NodeID) (tid : TransferID)
    (hp : d.passive_mode_ = true)
    (hna : ¬ (s.allow_anonymous_transfers_ = true ∧ tt = TransferTypeMessageBroadcast ∧
      toInt payload.length ≤ 8)) :
    send g s d frame payload txd bd tt dst tid =
      some ⟨-g.ErrPassiveMode, d, setupFrame s d frame tt dst tid⟩ := by
  rw [send_eq, if_pos]
  simp only [hp, Bool.true_and, Bool.not_eq_true', Bool.and_eq_false_imp, Bool.and_eq_true,
    beq_iff_eq, decide_eq_false_iff_not]
  rintro ⟨h1, h2⟩ h3
  exact hna ⟨h1, h2, h3⟩

/-- A node that may send goes on to one of the two transfer branches. -/
theorem send_allowed (g : Globals) (s : TransferSender) (d : Dispatcher) (frame : Frame)
    (payload : List Nat) (txd bd tt : Nat) (dst : NodeID) (tid : TransferID)
    (ha : d.passive_mode_ = false ∨ (s.allow_anonymous_transfers_ = true ∧
      tt = TransferTypeMessageBroadcast ∧ toInt payload.length ≤ 8)) :
    send g s d frame payload txd bd tt dst tid =
      if 8 ≥ payload.length % 2 ^ 32 then
        sendSingleFrame g s d.addTxTransfer (setupFrame s d frame tt dst tid) payload txd bd
      else
        sendMultiFrame g s d.addTxTransfer (setupFrame s d frame tt dst tid) payload txd bd tid := by
  rw [send_eq, if_neg]
  rcases ha with h | ⟨h1, h2, h3⟩
  · simp [h]
  · simp [h1, h2, h3]

/-- The multi-frame branch for a UAVCAN-type frame: the frame is loaded with the two CRC bytes
and the head of the payload, and the loop is entered with offset 6. -/
theorem sendMultiFrame_uavcan (g : Globals) (s : TransferSender) (d : Dispatcher) (f : Frame)
    (payload : List Nat) (txd bd : Nat) (tid : TransferID) (htype : f.type_ = 0) :
    sendMultiFrame g s d f payload txd bd tid =
      sendLoop g s payload txd bd (payload.length + 2) d
        (f.setPayload ([((s.crc_base_.addBytes payload).get &&& 0xFF) % 256,
            (((s.crc_base_.addBytes payload).get >>> 8) &&& 0xFF) % 256]
            ++ payload.take (BUFLEN - 2)) BUFLEN).1
        (if f.isTransferIdAutoInc then f.getBaseAutoTransferID else tid) ((6 : Nat) : Int) 0 := by
  have e : (f.setPayload ([((s.crc_base_.addBytes payload).get &&& 0xFF) % 256,
            (((s.crc_base_.addBytes payload).get >>> 8) &&& 0xFF) % 256]
            ++ payload.take (BUFLEN - 2)) BUFLEN).2 = 8 := rfl
  unfold sendMultiFrame
  simp only [Frame.getFrameType, htype, Nat.cast_zero, if_true]
  rw [e, if_neg (by decide)]
  rfl

/-- The multi-frame branch for a frame of another type: the frame is loaded with the head of the
payload, and the loop is entered with offset 8. -/
theorem sendMultiFrame_other (g : Globals) (s : TransferSender) (d : Dispatcher) (f : Frame)
    (payload : List Nat) (txd bd : Nat) (tid : TransferID)
    (hlen : 8 < payload.length) (hL : payload.length < 2 ^ 31) (htype : f.type_ ≠ 0) :
    sendMultiFrame g s d f payload txd bd tid =
      sendLoop g s payload txd bd (payload.length + 2) d
        (f.setPayload payload payload.length).1
        (if f.isTransferIdAutoInc then f.getBaseAutoTransferID else tid) ((8 : Nat) : Int) 0 := by
  have h3 : ¬ ((f.type_ : Int) = 0) := by omega
  have h4 : usub payload.length (toUnsigned 0) = payload.length := by
    have : toUnsigned 0 = 0 := by decide
    rw [this, usub_of_le (Nat.zero_le _) (by omega)]; rfl
  have e : (f.setPayload payload payload.length).2 = 8 := by
    show min payload.length 8 = 8
    omega
  unfold sendMultiFrame
  simp only [Frame.getFrameType, h3, if_false, h4, Int.toNat_zero, List.drop_zero]
  rw [e, if_neg (by decide)]
  rfl

/-- The single-frame branch: one dispatch, whose result is returned. -/
theorem sendSingleFrame_eq (g : Globals) (s : TransferSender) (d : Dispatcher) (f : Frame)
    (payload : List Nat) (txd bd : Nat) (hlen : payload.length ≤ 8) :
    sendSingleFrame g s d f payload txd bd =
      some ⟨d.send_result_ d.sent_.length
          ⟨(f.setPayload payload payload.length).1.setEndOfTransfer true, txd, bd,
            if f.src_node_id_.isUnicast g.nodeID then s.flags_
            else s.flags_ ||| g.CanIOFlagAbortOnError, s.iface_mask_⟩,
        { d with sent_ := d.sent_ ++
          [⟨(f.setPayload payload payload.length).1.setEndOfTransfer true, txd, bd,
            if f.src_node_id_.isUnicast g.nodeID then s.flags_
            else s.flags_ ||| g.CanIOFlagAbortOnError, s.iface_mask_⟩] },
        (f.setPayload payload payload.length).1.setEndOfTransfer true⟩ := by
  have h2 : toInt payload.length = (payload.length : Int) := toInt_of_lt (by omega)
  have e : (f.setPayload payload payload.length).2 = payload.length := by
    show min payload.length 8 = payload.length
    omega
  unfold sendSingleFrame
  simp only [h2, e, ne_eq, not_true_eq_false, if_false]
  rfl

theorem setPayload_fields (f : Frame) (data : List Nat) (len : Nat) :
    (f.setPayload data len).1.payload_ = data.take (min len 8) ∧
    (f.setPayload data len).1.payload_len_ = min len 8 ∧
    (f.setPayload data len).1.start_of_transfer_ = f.start_of_transfer_ ∧
    (f.setPayload data len).1.end_of_transfer_ = f.end_of_transfer_ ∧
    (f.setPayload data len).1.toggle_ = f.toggle_ ∧
    (f.setPayload data len).1.transfer_id_ = f.transfer_id_ :=
  ⟨rfl, rfl, rfl, rfl, rfl, rfl⟩

theorem setupFrame_fields (s : TransferSender) (d : Dispatcher) (frame : Frame) (tt : Nat)
    (dst : NodeID) (tid : TransferID) :
    (setupFrame s d frame tt dst tid).start_of_transfer_ = true ∧
    (setupFrame s d frame tt dst tid).end_of_transfer_ = frame.end_of_transfer_ ∧
    (setupFrame s d frame tt dst tid).toggle_ = frame.toggle_ ∧
    (setupFrame s d frame tt dst tid).type_ = frame.type_ ∧
    (setupFrame s d frame tt dst tid).transfer_id_ = tid ∧
    (setupFrame s d frame tt dst tid).src_node_id_ = d.node_id_ ∧
    (setupFrame s d frame tt dst tid).transfer_id_auto_inc_ = frame.transfer_id_auto_inc_ ∧
    (setupFrame s d frame tt dst tid).transfer_id_base_ = frame.transfer_id_base_ :=
  ⟨rfl, rfl, rfl, rfl, rfl, rfl, rfl, rfl⟩

end TransferSender
end uavcan

namespace uavcan
namespace TransferSender

theorem crc_bytes (c : TransferCRC) (payload : List Nat) (h : payload ≠ []) :
    ((c.addBytes payload).get &&& 0xFF) % 256 = (c.addBytes payload).get &&& 0xFF ∧
    (((c.addBytes payload).get >>> 8) &&& 0xFF) % 256 = (c.addBytes payload).get >>> 8 := by
  have hlt : (c.addBytes payload).get < 65536 := by
    obtain ⟨l, b, rfl⟩ : ∃ l b, payload = l ++ [b] :=
      ⟨payload.dropLast, payload.getLast h, (List.dropLast_append_getLast h).symm⟩
    simp only [TransferCRC.addBytes, List.foldl_append, List.foldl_cons, List.foldl_nil,
      TransferCRC.get]
    exact TransferCRC.add_lt _ _
  have e : (0xFF : Nat) = 2 ^ 8 - 1 := by norm_num
  rw [e, Nat.and_pow_two_sub_one_eq_mod, Nat.and_pow_two_sub_one_eq_mod, Nat.shiftRight_eq_div_pow]
  omega

end TransferSender

open TransferSender

/-- C1: a payload longer than the frame payload capacity, sent on a UAVCAN-type frame whose end
flag is clear by a non-passive node whose dispatcher accepts every frame, is dispatched as frames
whose payloads, concatenated in dispatch order, are `[crc & 0xFF, crc >> 8]` followed by exactly
the payload bytes, `crc` being the digest of the payload added to `crc_base_`.  The payload length
is one an `int` holds. -/
theorem C1_multi_frame_round_trip (g : Globals) (s : TransferSender) (d : Dispatcher)
    (frame : Frame) (payload : List Nat) (txd bd tt : Nat) (dst : NodeID) (tid : TransferID)
    (hlen : Frame.PayloadCapacity < payload.length) (hL : payload.length < 2 ^ 31)
    (htype : frame.type_ = 0) (hend : frame.end_of_transfer_ = false)
    (hp : d.passive_mode_ = false) (hok : ∀ k c, 0 ≤ d.send_result_ k c) :
    ∃ r calls, send g s d frame payload txd bd tt dst tid = some r ∧
      r.dispatcher.sent_ = d.sent_ ++ calls ∧
      (calls.map (fun c => c.frame.payload_)).flatten =
        [(s.crc_base_.addBytes payload).get &&& 0xFF, (s.crc_base_.addBytes payload).get >>> 8]
          ++ payload := by
  have hlen' : 8 < payload.length := hlen
  rw [send_allowed g s d frame payload txd bd tt dst tid (Or.inl hp),
    if_neg (by omega), sendMultiFrame_uavcan g s _ _ payload txd bd tid
      ((setupFrame_fields s d frame tt dst tid).2.2.2.1.trans htype)]
  obtain ⟨frames, r, hfr, hrun, -, hdisp, -⟩ :=
    sendLoop_run g s payload txd bd hL (payload.length + 2) d.addTxTransfer
      ((setupFrame s d frame tt dst tid).setPayload
        ([((s.crc_base_.addBytes payload).get &&& 0xFF) % 256,
          (((s.crc_base_.addBytes payload).get >>> 8) &&& 0xFF) % 256]
          ++ payload.take (BUFLEN - 2)) BUFLEN).1
      (if (setupFrame s d frame tt dst tid).isTransferIdAutoInc then
        (setupFrame s d frame tt dst tid).getBaseAutoTransferID else tid) 6 0 hok (by omega)
      (by split <;> omega)
  refine ⟨r, frames.map (loopCall s txd bd), hrun, by rw [hdisp]; rfl, ?_⟩
  have hj := hfr.payload_join (by
    have h6 : ¬ payload.length ≤ 6 := by omega
    rw [(setPayload_fields _ _ _).2.2.2.1, (setupFrame_fields s d frame tt dst tid).2.1, hend]
    simp [h6])
  have hne : payload ≠ [] := by intro h; simp [h] at hlen'
  obtain ⟨e1, e2⟩ := crc_bytes s.crc_base_ payload hne
  have h6 : min 6 payload.length = 6 := by omega
  have hpay : ((setupFrame s d frame tt dst tid).setPayload
        ([((s.crc_base_.addBytes payload).get &&& 0xFF) % 256,
          (((s.crc_base_.addBytes payload).get >>> 8) &&& 0xFF) % 256]
          ++ payload.take (BUFLEN - 2)) BUFLEN).1.payload_ =
      [(s.crc_base_.addBytes payload).get &&& 0xFF, (s.crc_base_.addBytes payload).get >>> 8]
        ++ payload.take 6 := by
    rw [(setPayload_fields _ _ _).1, e1, e2]
    apply List.take_of_length_le
    simp [BUFLEN, h6]
  have hmap : (frames.map (loopCall s txd bd)).map (fun c => c.frame.payload_)
      = frames.map (fun x => x.payload_) := by
    rw [List.map_map]; rfl
  rw [hmap, hj, hpay, List.append_assoc, List.take_append_drop]

/-- C1, at an instance: the ten bytes 0x01..0x0A sent by node 10. -/
theorem C1_multi_frame_round_trip_witness :
    (Frame.PayloadCapacity < Scenario.tenBytes.length ∧ Scenario.tenBytes.length < 2 ^ 31 ∧
      (Frame.ctor 42 1 ⟨10⟩ ⟨20⟩ ⟨3⟩).type_ = 0 ∧
      (Frame.ctor 42 1 ⟨10⟩ ⟨20⟩ ⟨3⟩).end_of_transfer_ = false ∧
      Scenario.dispatcher.passive_mode_ = false ∧
      ∀ k c, 0 ≤ Scenario.dispatcher.send_result_ k c) ∧
    ∃ r calls, send Scenario.globals Scenario.sender Scenario.dispatcher
        (Frame.ctor 42 1 ⟨10⟩ ⟨20⟩ ⟨3⟩) Scenario.tenBytes 100 100 1 ⟨20⟩ ⟨3⟩ = some r ∧
      r.dispatcher.sent_ = Scenario.dispatcher.sent_ ++ calls ∧
      (calls.map (fun c => c.frame.payload_)).flatten =
        [(Scenario.sender.crc_base_.addBytes Scenario.tenBytes).get &&& 0xFF,
          (Scenario.sender.crc_base_.addBytes Scenario.tenBytes).get >>> 8]
          ++ Scenario.tenBytes :=
  ⟨⟨by decide, by decide, rfl, rfl, rfl, fun _ _ => (by decide : (0 : Int) ≤ 1)⟩,
    C1_multi_frame_round_trip Scenario.globals Scenario.sender Scenario.dispatcher
      (Frame.ctor 42 1 ⟨10⟩ ⟨20⟩ ⟨3⟩) Scenario.tenBytes 100 100 1 ⟨20⟩ ⟨3⟩
      (by decide) (by decide) rfl rfl rfl (fun _ _ => (by decide : (0 : Int) ≤ 1))⟩

/-- C2: a payload that fits one frame, sent by a node that is allowed to send on a frame whose
toggle is clear, is dispatched in exactly one call, with a frame that has start and end set,
toggle clear, the transfer ID `tid` and the payload bytes; `send` returns what the dispatcher
returned. -/
theorem C2_single_frame (g : Globals) (s : TransferSender) (d : Dispatcher)
    (frame : Frame) (payload : List Nat) (txd bd tt : Nat) (dst : NodeID) (tid : TransferID)
    (hlen : payload.length ≤ Frame.PayloadCapacity)
    (hallow : d.passive_mode_ = false ∨
      (s.allow_anonymous_transfers_ = true ∧ tt = TransferTypeMessageBroadcast))
    (htog : frame.toggle_ = false) :
    ∃ r c, send g s d frame payload txd bd tt dst tid = some r ∧
      r.dispatcher.sent_ = d.sent_ ++ [c] ∧
      r.res = d.send_result_ d.sent_.length c ∧
      c.frame.start_of_transfer_ = true ∧ c.frame.end_of_transfer_ = true ∧
      c.frame.toggle_ = false ∧ c.frame.transfer_id_ = tid ∧
      c.frame.payload_ = payload ∧ c.frame.payload_len_ = payload.length := by
  have hlen' : payload.length ≤ 8 := hlen
  have h2 : toInt payload.length = (payload.length : Int) := toInt_of_lt (by omega)
  have ha : d.passive_mode_ = false ∨ (s.allow_anonymous_transfers_ = true ∧
      tt = TransferTypeMessageBroadcast ∧ toInt payload.length ≤ 8) := by
    rcases hallow with h | ⟨h1, h3⟩
    · exact Or.inl h
    · exact Or.inr ⟨h1, h3, by rw [h2]; omega⟩
  have h5 : min payload.length 8 = payload.length := by omega
  rw [send_allowed g s d frame payload txd bd tt dst tid ha, if_pos (by omega),
    sendSingleFrame_eq g s _ _ payload txd bd hlen']
  refine ⟨_, _, rfl, rfl, rfl, rfl, rfl, htog, rfl, ?_, ?_⟩
  · show List.take (min payload.length 8) payload = payload
    rw [h5]; exact List.take_of_length_le (le_refl _)
  · exact h5

/-- C2, at an instance: "hello!." as a message broadcast on data type 42 from node 10 with
transfer ID 3 gives one frame with start = 1, end = 1, toggle = 0, transfer ID 3. -/
theorem C2_single_frame_witness :
    (Scenario.hello.length ≤ Frame.PayloadCapacity ∧ Scenario.dispatcher.passive_mode_ = false ∧
      (Frame.ctor 42 2 ⟨10⟩ ⟨0⟩ ⟨3⟩).toggle_ = false) ∧
    (∃ r c, send Scenario.globals Scenario.sender Scenario.dispatcher
        (Frame.ctor 42 2 ⟨10⟩ ⟨0⟩ ⟨3⟩) Scenario.hello 100 100 TransferTypeMessageBroadcast ⟨0⟩ ⟨3⟩
          = some r ∧
      r.dispatcher.sent_ = Scenario.dispatcher.sent_ ++ [c] ∧
      r.res = Scenario.dispatcher.send_result_ Scenario.dispatcher.sent_.length c ∧
      c.frame.start_of_transfer_ = true ∧ c.frame.end_of_transfer_ = true ∧
      c.frame.toggle_ = false ∧ c.frame.transfer_id_ = ⟨3⟩ ∧
      c.frame.payload_ = Scenario.hello ∧ c.frame.payload_len_ = Scenario.hello.length) ∧
    (send Scenario.globals Scenario.sender Scenario.dispatcher
        (Frame.ctor 42 2 ⟨10⟩ ⟨0⟩ ⟨3⟩) Scenario.hello 100 100 TransferTypeMessageBroadcast ⟨0⟩
        ⟨3⟩).map (fun r => r.dispatcher.sent_.map (fun c =>
          (c.frame.payload_, c.frame.start_of_transfer_, c.frame.end_of_transfer_,
            c.frame.toggle_, c.frame.transfer_id_.value_, c.frame.data_type_id_,
            c.frame.src_node_id_.value_)))
      = some [([0x68, 0x65, 0x6C, 0x6C, 0x6F, 0x21, 0x2E], true, true, false, 3, 42, 10)] :=
  ⟨⟨by decide, rfl, rfl⟩,
    C2_single_frame Scenario.globals Scenario.sender Scenario.dispatcher
      (Frame.ctor 42 2 ⟨10⟩ ⟨0⟩ ⟨3⟩) Scenario.hello 100 100 TransferTypeMessageBroadcast ⟨0⟩ ⟨3⟩
      (by decide) (Or.inl rfl) rfl,
    by rfl⟩

/-- C3: when the dispatcher is in passive mode, `send` returns `-ErrPassiveMode` and dispatches
no frame if and only if it is not the case that anonymous transfers are enabled, the transfer
is a message broadcast and the payload fits one frame; in particular every service request and
every service response is refused.  The payload length is one an `int` holds. -/
theorem C3_passive_mode_rule (g : Globals) (s : TransferSender) (d : Dispatcher)
    (frame : Frame) (payload : List Nat) (txd bd tt : Nat) (dst : NodeID) (tid : TransferID)
    (hp : d.passive_mode_ = true) (hL : payload.length < 2 ^ 31) :
    ∃ r, send g s d frame payload txd bd tt dst tid = some r ∧
      ((r.res = -g.ErrPassiveMode ∧ r.dispatcher.sent_ = d.sent_) ↔
        ¬ (s.allow_anonymous_transfers_ = true ∧ tt = TransferTypeMessageBroadcast ∧
          payload.length ≤ Frame.PayloadCapacity)) ∧
      (tt = TransferTypeServiceRequest ∨ tt = TransferTypeServiceResponse →
        r.res = -g.ErrPassiveMode ∧ r.dispatcher.sent_ = d.sent_) := by
  have h2 : toInt payload.length = (payload.length : Int) := toInt_of_lt hL
  by_cases hall : s.allow_anonymous_transfers_ = true ∧ tt = TransferTypeMessageBroadcast ∧
      payload.length ≤ Frame.PayloadCapacity
  · obtain ⟨ha, hb, hc⟩ := hall
    have hc' : payload.length ≤ 8 := hc
    rw [send_allowed g s d frame payload txd bd tt dst tid
      (Or.inr ⟨ha, hb, by rw [h2]; omega⟩), if_pos (by omega),
      sendSingleFrame_eq g s _ _ payload txd bd hc']
    refine ⟨_, rfl, ?_, ?_⟩
    · constructor
      · rintro ⟨-, h⟩
        have h' := congrArg List.length h
        simp [Dispatcher.addTxTransfer] at h'
      · intro h
        exact absurd ⟨ha, hb, hc⟩ h
    · intro h
      rw [hb] at h
      rcases h with h | h <;> exact absurd h (by decide)
  · have hna : ¬ (s.allow_anonymous_transfers_ = true ∧ tt = TransferTypeMessageBroadcast ∧
        toInt payload.length ≤ 8) := by
      rintro ⟨ha, hb, hc⟩
      apply hall
      refine ⟨ha, hb, ?_⟩
      rw [h2] at hc
      show payload.length ≤ 8
      omega
    rw [send_refused g s d frame payload txd bd tt dst tid hp hna]
    exact ⟨_, rfl, ⟨fun _ => hall, fun _ => ⟨rfl, rfl⟩⟩, fun _ => ⟨rfl, rfl⟩⟩

/-- C3, at an instance: a node without node ID attempts a service request; `send` returns
`-ErrPassiveMode` and no frame is dispatched. -/
theorem C3_passive_mode_rule_witness :
    (Scenario.passiveDispatcher.passive_mode_ = true ∧ [1, 2, 3].length < 2 ^ 31) ∧
    (∃ r, send Scenario.globals Scenario.sender Scenario.passiveDispatcher
        (Frame.ctor 42 1 ⟨0⟩ ⟨20⟩ ⟨3⟩) [1, 2, 3] 100 100 TransferTypeServiceRequest ⟨20⟩ ⟨3⟩
          = some r ∧
      ((r.res = -Scenario.globals.ErrPassiveMode ∧
          r.dispatcher.sent_ = Scenario.passiveDispatcher.sent_) ↔
        ¬ (Scenario.sender.allow_anonymous_transfers_ = true ∧
          TransferTypeServiceRequest = TransferTypeMessageBroadcast ∧
          [1, 2, 3].length ≤ Frame.PayloadCapacity)) ∧
      (TransferTypeServiceRequest = TransferTypeServiceRequest ∨
          TransferTypeServiceRequest = TransferTypeServiceResponse →
        r.res = -Scenario.globals.ErrPassiveMode ∧
          r.dispatcher.sent_ = Scenario.passiveDispatcher.sent_)) ∧
    (send Scenario.globals Scenario.sender Scenario.passiveDispatcher
        (Frame.ctor 42 1 ⟨0⟩ ⟨20⟩ ⟨3⟩) [1, 2, 3] 100 100 TransferTypeServiceRequest ⟨20⟩
        ⟨3⟩).map (fun r => (r.res, r.dispatcher.sent_.length)) = some (-11, 0) :=
  ⟨⟨rfl, by decide⟩,
    C3_passive_mode_rule Scenario.globals Scenario.sender Scenario.passiveDispatcher
      (Frame.ctor 42 1 ⟨0⟩ ⟨20⟩ ⟨3⟩) [1, 2, 3] 100 100 TransferTypeServiceRequest ⟨20⟩ ⟨3⟩
      rfl (by decide),
    by decide⟩

/-- C4: when a payload longer than the payload capacity is sent on a frame whose toggle flag is
clear (the end flag may but need not be clear) and no dispatch fails, frame `k` (0-based) of the `n` dispatched frames has the
start flag iff `k = 0`, the end flag iff `k = n - 1`, and the toggle `k mod 2 = 1`.  The payload
length is one an `int` holds. -/
theorem C4_flag_sequencing (g : Globals) (s : TransferSender) (d : Dispatcher)
    (frame : Frame) (payload : List Nat) (txd bd tt : Nat) (dst : NodeID) (tid : TransferID)
    (hlen : Frame.PayloadCapacity < payload.length) (hL : payload.length < 2 ^ 31)
    (htog : frame.toggle_ = false)
    (hok : ∀ k c, 0 ≤ d.send_result_ k c) :
    ∃ r calls, send g s d frame payload txd bd tt dst tid = some r ∧
      r.dispatcher.sent_ = d.sent_ ++ calls ∧
      ∀ (k : Nat) (hk : k < calls.length),
        calls[k].frame.start_of_transfer_ = decide (k = 0) ∧
        calls[k].frame.end_of_transfer_ = decide (k + 1 = calls.length) ∧
        calls[k].frame.toggle_ = decide (k % 2 = 1) := by
  have hlen' : 8 < payload.length := hlen
  have h2 : toInt payload.length = (payload.length : Int) := toInt_of_lt hL
  cases hp : d.passive_mode_
  · -- both entries into the loop lead to the same flags
    have key : ∀ (f0 : Frame) (t0 : TransferID) (o : Nat), o ≤ payload.length →
        f0.start_of_transfer_ = true → f0.toggle_ = false →
        ∃ r calls, sendLoop g s payload txd bd (payload.length + 2) d.addTxTransfer f0 t0
            (o : Int) 0 = some r ∧
          r.dispatcher.sent_ = d.sent_ ++ calls ∧
          ∀ (k : Nat) (hk : k < calls.length),
            calls[k].frame.start_of_transfer_ = decide (k = 0) ∧
            calls[k].frame.end_of_transfer_ = decide (k + 1 = calls.length) ∧
            calls[k].frame.toggle_ = decide (k % 2 = 1) := by
      intro f0 t0 o ho hs ht
      obtain ⟨frames, r, hfr, hrun, -, hdisp, -⟩ :=
        sendLoop_run g s payload txd bd hL (payload.length + 2) d.addTxTransfer f0 t0 o 0 hok ho
          (by split <;> omega)
      refine ⟨r, frames.map (loopCall s txd bd), hrun, by rw [hdisp]; rfl, ?_⟩
      intro k hk
      have hk' : k < frames.length := by simpa using hk
      obtain ⟨h1, h2, h3⟩ := hfr.flags k hk'
      simp only [List.getElem_map, loopCall, List.length_map, h1, h2, h3, hs, ht,
        Bool.and_true, Bool.false_xor, and_self]
    rw [send_allowed g s d frame payload txd bd tt dst tid (Or.inl hp), if_neg (by omega)]
    by_cases htype : frame.type_ = 0
    · rw [sendMultiFrame_uavcan g s _ _ payload txd bd tid
        ((setupFrame_fields s d frame tt dst tid).2.2.2.1.trans htype)]
      exact key _ _ 6 (by omega) rfl htog
    · rw [sendMultiFrame_other g s _ _ payload txd bd tid hlen' hL
        (fun h => htype ((setupFrame_fields s d frame tt dst tid).2.2.2.1.symm.trans h))]
      exact key _ _ 8 (by omega) rfl htog
  · have hna : ¬ (s.allow_anonymous_transfers_ = true ∧ tt = TransferTypeMessageBroadcast ∧
        toInt payload.length ≤ 8) := by
      rintro ⟨-, -, hc⟩
      rw [h2] at hc
      omega
    rw [send_refused g s d frame payload txd bd tt dst tid hp hna]
    exact ⟨_, [], rfl, by simp, fun k hk => absurd hk (by simp)⟩

/-- C4, at an instance: thirty bytes sent by node 10 go out as four frames with the flags
(start, end, toggle) = (1,0,0), (0,0,1), (0,0,0), (0,1,1). -/
theorem C4_flag_sequencing_witness :
    (Frame.PayloadCapacity < (List.range 30).length ∧ (List.range 30).length < 2 ^ 31 ∧
      (Frame.ctor 42 1 ⟨10⟩ ⟨20⟩ ⟨3⟩).toggle_ = false ∧
      ∀ k c, 0 ≤ Scenario.dispatcher.send_result_ k c) ∧
    (∃ r calls, send Scenario.globals Scenario.sender Scenario.dispatcher
        (Frame.ctor 42 1 ⟨10⟩ ⟨20⟩ ⟨3⟩) (List.range 30) 100 100 1 ⟨20⟩ ⟨3⟩ = some r ∧
      r.dispatcher.sent_ = Scenario.dispatcher.sent_ ++ calls ∧
      ∀ (k : Nat) (hk : k < calls.length),
        calls[k].frame.start_of_transfer_ = decide (k = 0) ∧
        calls[k].frame.end_of_transfer_ = decide (k + 1 = calls.length) ∧
        calls[k].frame.toggle_ = decide (k % 2 = 1)) ∧
    (send Scenario.globals Scenario.sender Scenario.dispatcher
        (Frame.ctor 42 1 ⟨10⟩ ⟨20⟩ ⟨3⟩) (List.range 30) 100 100 1 ⟨20⟩ ⟨3⟩).map
      (fun r => r.dispatcher.sent_.map (fun c =>
        (c.frame.start_of_transfer_, c.frame.end_of_transfer_, c.frame.toggle_)))
      = some [(true, false, false), (false, false, true), (false, false, false),
          (false, true, true)] :=
  ⟨⟨by decide, by decide, rfl, fun _ _ => (by decide : (0 : Int) ≤ 1)⟩,
    C4_flag_sequencing Scenario.globals Scenario.sender Scenario.dispatcher
      (Frame.ctor 42 1 ⟨10⟩ ⟨20⟩ ⟨3⟩) (List.range 30) 100 100 1 ⟨20⟩ ⟨3⟩
      (by decide) (by decide) rfl (fun _ _ => (by decide : (0 : Int) ≤ 1)),
    by decide⟩

/-- C5, refuted as stated: with a CRC base that makes the digest of 0x01..0x0A equal 0x29B1, the
service request does not go out as a frame `B1 29 01 02 03 04 05` and a frame `06 07 08 09 0A`:
the first frame carries eight bytes, `B1 29 01 02 03 04 05 06`, and the second `07 08 09 0A`. -/
theorem C5_counterexample :
    (Scenario.sender29B1.crc_base_.addBytes Scenario.tenBytes).get = 0x29B1 ∧
    ¬ (∃ r c1 c2, send Scenario.globals Scenario.sender29B1 Scenario.dispatcher
        (Frame.ctor 42 1 ⟨10⟩ ⟨20⟩ ⟨3⟩) Scenario.tenBytes 100 100 TransferTypeServiceRequest
        ⟨20⟩ ⟨3⟩ = some r ∧
      r.dispatcher.sent_ = [c1, c2] ∧
      c1.frame.payload_ = [0xB1, 0x29, 0x01, 0x02, 0x03, 0x04, 0x05] ∧
      c2.frame.payload_ = [0x06, 0x07, 0x08, 0x09, 0x0A]) := by
  refine ⟨by decide, ?_⟩
  have h : (send Scenario.globals Scenario.sender29B1 Scenario.dispatcher
      (Frame.ctor 42 1 ⟨10⟩ ⟨20⟩ ⟨3⟩) Scenario.tenBytes 100 100 TransferTypeServiceRequest
      ⟨20⟩ ⟨3⟩).map (fun r => r.dispatcher.sent_.map (fun c => c.frame.payload_))
      = some [[0xB1, 0x29, 1, 2, 3, 4, 5, 6], [7, 8, 9, 10]] := by decide
  rintro ⟨r, c1, c2, hs, hsent, h1, h2⟩
  rw [hs] at h
  simp [hsent, h1, h2] at h

/-- C5, amended: the 10-byte payload 0x01..0x0A whose CRC-16 is 0x29B1, sent as a service request
on a UAVCAN-type frame with end and toggle clear by a non-passive node whose dispatcher accepts
every frame, goes out as exactly two frames: `B1 29 01 02 03 04 05 06` with start = 1, end = 0,
toggle = 0, then `07 08 09 0A` with start = 0, end = 1, toggle = 1; `send` returns 2. -/
theorem C5_multi_frame_service_request (g : Globals) (s : TransferSender) (d : Dispatcher)
    (frame : Frame) (txd bd : Nat) (dst : NodeID) (tid : TransferID)
    (hcrc : (s.crc_base_.addBytes Scenario.tenBytes).get = 0x29B1)
    (htype : frame.type_ = 0) (hend : frame.end_of_transfer_ = false)
    (htog : frame.toggle_ = false) (hp : d.passive_mode_ = false)
    (hok : ∀ k c, 0 ≤ d.send_result_ k c) :
    ∃ r c1 c2, send g s d frame Scenario.tenBytes txd bd TransferTypeServiceRequest dst tid
        = some r ∧
      r.res = 2 ∧ r.dispatcher.sent_ = d.sent_ ++ [c1, c2] ∧
      c1.frame.payload_ = [0xB1, 0x29, 0x01, 0x02, 0x03, 0x04, 0x05, 0x06] ∧
      c1.frame.start_of_transfer_ = true ∧ c1.frame.end_of_transfer_ = false ∧
      c1.frame.toggle_ = false ∧
      c2.frame.payload_ = [0x07, 0x08, 0x09, 0x0A] ∧
      c2.frame.start_of_transfer_ = false ∧ c2.frame.end_of_transfer_ = true ∧
      c2.frame.toggle_ = true := by
  have hL : Scenario.tenBytes.length < 2 ^ 31 := by decide
  rw [send_allowed g s d frame Scenario.tenBytes txd bd TransferTypeServiceRequest dst tid
    (Or.inl hp), if_neg (by decide), sendMultiFrame_uavcan g s _ _ Scenario.tenBytes txd bd tid
      ((setupFrame_fields s d frame TransferTypeServiceRequest dst tid).2.2.2.1.trans htype), hcrc]
  have hlen : Scenario.tenBytes.length + 2 = 10 + 1 + 1 := by decide
  have hFe := ((setPayload_fields (setupFrame s d frame TransferTypeServiceRequest dst tid)
      ([(10673 &&& 255) % 256, (10673 >>> 8 &&& 255) % 256] ++
        List.take (BUFLEN - 2) Scenario.tenBytes) BUFLEN).2.2.2.1.trans
      (setupFrame_fields s d frame TransferTypeServiceRequest dst tid).2.1).trans hend
  have hFt := ((setPayload_fields (setupFrame s d frame TransferTypeServiceRequest dst tid)
      ([(10673 &&& 255) % 256, (10673 >>> 8 &&& 255) % 256] ++
        List.take (BUFLEN - 2) Scenario.tenBytes) BUFLEN).2.2.2.2.1.trans
      (setupFrame_fields s d frame TransferTypeServiceRequest dst tid).2.2.1).trans htog
  have hFs := (setPayload_fields (setupFrame s d frame TransferTypeServiceRequest dst tid)
      ([(10673 &&& 255) % 256, (10673 >>> 8 &&& 255) % 256] ++
        List.take (BUFLEN - 2) Scenario.tenBytes) BUFLEN).2.2.1.trans
      (setupFrame_fields s d frame TransferTypeServiceRequest dst tid).1
  have hFp : ((setupFrame s d frame TransferTypeServiceRequest dst tid).setPayload
      ([(10673 &&& 255) % 256, (10673 >>> 8 &&& 255) % 256] ++
        List.take (BUFLEN - 2) Scenario.tenBytes) BUFLEN).1.payload_
      = [0xB1, 0x29, 1, 2, 3, 4, 5, 6] := rfl
  generalize ((setupFrame s d frame TransferTypeServiceRequest dst tid).setPayload
      ([(10673 &&& 255) % 256, (10673 >>> 8 &&& 255) % 256] ++
        List.take (BUFLEN - 2) Scenario.tenBytes) BUFLEN).1 = F at hFe hFt hFs hFp ⊢
  generalize (if (setupFrame s d frame TransferTypeServiceRequest dst tid).isTransferIdAutoInc
      = true then (setupFrame s d frame TransferTypeServiceRequest dst tid).getBaseAutoTransferID
      else tid) = T
  rw [hlen, sendLoop_cont g s Scenario.tenBytes txd bd (10 + 1) d.addTxTransfer F T 6 0
    (hok _ _) hFe (by decide) hL]
  rw [sendLoop_end g s Scenario.tenBytes txd bd 10
    { d.addTxTransfer with
      sent_ := d.addTxTransfer.sent_ ++ [loopCall s txd bd (F.setTransferID T)] }
    (nextFrame Scenario.tenBytes (F.setTransferID T) 6) (nextTid g F T) _ _ (hok _ _)
    (by simp [nextFrame, Scenario.tenBytes])]
  refine ⟨_, loopCall s txd bd (F.setTransferID T),
    loopCall s txd bd ((nextFrame Scenario.tenBytes (F.setTransferID T) 6).setTransferID
      (nextTid g F T)), rfl, by norm_num, ?_, hFp, hFs, hFe, hFt, ?_, rfl, ?_, ?_⟩
  · simp [Dispatcher.addTxTransfer]
  · rfl
  · simp [nextFrame, loopCall, Frame.setTransferID, Scenario.tenBytes]
  · simp [nextFrame, loopCall, Frame.setTransferID, hFt]

/-- C5 amended, at an instance: node 10 sends the request with CRC base 0xD515. -/
theorem C5_multi_frame_service_request_witness :
    ((Scenario.sender29B1.crc_base_.addBytes Scenario.tenBytes).get = 0x29B1 ∧
      (Frame.ctor 42 1 ⟨10⟩ ⟨20⟩ ⟨3⟩).type_ = 0 ∧
      (Frame.ctor 42 1 ⟨10⟩ ⟨20⟩ ⟨3⟩).end_of_transfer_ = false ∧
      (Frame.ctor 42 1 ⟨10⟩ ⟨20⟩ ⟨3⟩).toggle_ = false ∧
      Scenario.dispatcher.passive_mode_ = false ∧
      ∀ k c, 0 ≤ Scenario.dispatcher.send_result_ k c) ∧
    ∃ r c1 c2, send Scenario.globals Scenario.sender29B1 Scenario.dispatcher
        (Frame.ctor 42 1 ⟨10⟩ ⟨20⟩ ⟨3⟩) Scenario.tenBytes 100 100 TransferTypeServiceRequest
        ⟨20⟩ ⟨3⟩ = some r ∧
      r.res = 2 ∧ r.dispatcher.sent_ = Scenario.dispatcher.sent_ ++ [c1, c2] ∧
      c1.frame.payload_ = [0xB1, 0x29, 0x01, 0x02, 0x03, 0x04, 0x05, 0x06] ∧
      c1.frame.start_of_transfer_ = true ∧ c1.frame.end_of_transfer_ = false ∧
      c1.frame.toggle_ = false ∧
      c2.frame.payload_ = [0x07, 0x08, 0x09, 0x0A] ∧
      c2.frame.start_of_transfer_ = false ∧ c2.frame.end_of_transfer_ = true ∧
      c2.frame.toggle_ = true :=
  ⟨⟨by decide, rfl, rfl, rfl, rfl, fun _ _ => (by decide : (0 : Int) ≤ 1)⟩,
    C5_multi_frame_service_request Scenario.globals Scenario.sender29B1 Scenario.dispatcher
      (Frame.ctor 42 1 ⟨10⟩ ⟨20⟩ ⟨3⟩) 100 100 ⟨20⟩ ⟨3⟩
      (by decide) rfl rfl rfl rfl (fun _ _ => (by decide : (0 : Int) ≤ 1))⟩

/-- C6, at the failing input: node 10 sends the single-frame broadcast "hello!." and the
dispatcher fails the send with -4; `send` returns -4 after that one dispatch, and the error
tally is still 0.  The multi-frame path, on the ten bytes 0x01..0x0A with the same dispatcher,
returns -4 after one dispatch with the error tally at 1. -/
theorem C6_single_frame_dispatch_failure_not_counted :
    (send Scenario.globals Scenario.sender Scenario.failingDispatcher
        (Frame.ctor 42 2 ⟨10⟩ ⟨0⟩ ⟨3⟩) Scenario.hello 100 100 TransferTypeMessageBroadcast ⟨0⟩
        ⟨3⟩).map (fun r => (r.res, r.dispatcher.sent_.length, r.dispatcher.perf_.errors_))
      = some (-4, 1, 0) ∧
    (send Scenario.globals Scenario.sender Scenario.failingDispatcher
        (Frame.ctor 42 2 ⟨10⟩ ⟨0⟩ ⟨3⟩) Scenario.tenBytes 100 100 TransferTypeMessageBroadcast ⟨0⟩
        ⟨3⟩).map (fun r => (r.res, r.dispatcher.sent_.length, r.dispatcher.perf_.errors_))
      = some (-4, 1, 1) ∧
    Scenario.failingDispatcher.perf_.errors_ = 0 := by
  refine ⟨by decide, by decide, rfl⟩

/-! ## Claims on RaftCore::traverseLogFromEndUntil -/

/-- C7, at the failing input: in a log whose only entry, at index 1 = max index, maps the unique
ID `U` to node ID 50, the traversal with the predicate `unique_id == U` calls `getEntryAtIndex`
for index 0 only and returns `NULL`, although the entry at index 1 satisfies the predicate. -/
theorem C7_traversal_skips_max_index :
    RaftCore.traverseLogFromEndUntil Scenario.logOneEntry
        (fun e => e.unique_id == Scenario.uniqueId)
      = some ⟨TraverseOutcome.null, [0]⟩ ∧
    Scenario.logOneEntry.getMaxIndex = 1 ∧
    Scenario.logOneEntry.getEntryAtIndex 1 = some ⟨1, Scenario.uniqueId, 50⟩ ∧
    (fun e : Entry => e.unique_id == Scenario.uniqueId) ⟨1, Scenario.uniqueId, 50⟩ = true := by
  refine ⟨by decide, rfl, by decide, by decide⟩

end uavcan

/-! ## Claims on the cluster manager, the identifier types and the CRC-48 -/

namespace uavcan

theorem TransferID.setBitLen_of_le_8 {len : Nat} (h : len ≤ 8) :
    (TransferID.setBitLen len).BitLen = len ∧ (TransferID.setBitLen len).Max = 2 ^ len - 1 := by
  interval_cases len <;> decide

/-- With `Max = 2^len - 1`, `increment()` is the successor modulo `2^len`. -/
theorem TransferID.increment_iterate {len : Nat} (h : len ≤ 8) (t : TransferID)
    (ht : t.value_ ≤ (TransferID.setBitLen len).Max) (k : Nat) :
    (TransferID.increment (TransferID.setBitLen len))^[k] t = ⟨(t.value_ + k) % 2 ^ len⟩ := by
  obtain ⟨-, hM⟩ := TransferID.setBitLen_of_le_8 h
  rw [hM] at ht
  have hpos : 0 < 2 ^ len := by positivity
  have h256 : 2 ^ len ≤ 256 := by
    calc 2 ^ len ≤ 2 ^ 8 := Nat.pow_le_pow_right (by norm_num) h
      _ = 256 := by norm_num
  induction k with
  | zero =>
    obtain ⟨v⟩ := t
    simp only at ht
    simp only [Function.iterate_zero, id, Nat.add_zero]
    rw [Nat.mod_eq_of_lt (by omega)]
  | succ k ih =>
    rw [Function.iterate_succ_apply', ih]
    simp only [TransferID.increment, hM, Nat.and_pow_two_sub_one_eq_mod, TransferID.mk.injEq]
    have h1 : ((t.value_ + k) % 2 ^ len + 1) % 2 ^ len = (t.value_ + (k + 1)) % 2 ^ len := by
      rw [← Nat.add_assoc, Nat.add_mod (t.value_ + k) 1, Nat.add_mod ((t.value_ + k) % 2 ^ len) 1,
        Nat.mod_mod]
    rw [h1]
    exact Nat.mod_eq_of_lt (lt_of_lt_of_le (Nat.mod_lt _ hpos) h256)

/-- The forward distance as a natural number. -/
theorem TransferID.computeForwardDistance_eq {len : Nat} (h : len ≤ 8) (a b : TransferID)
    (ha : a.value_ ≤ (TransferID.setBitLen len).Max)
    (hb : b.value_ ≤ (TransferID.setBitLen len).Max) :
    TransferID.computeForwardDistance (TransferID.setBitLen len) a b
      = (((b.value_ + 2 ^ len - a.value_) % 2 ^ len : Nat) : Int) := by
  obtain ⟨hB, hM⟩ := TransferID.setBitLen_of_le_8 h
  rw [hM] at ha hb
  have hpos : 0 < 2 ^ len := by positivity
  have h31 : (2 : Nat) ^ len < 2 ^ 31 := Nat.pow_lt_pow_right (by norm_num) (by omega)
  simp only [TransferID.computeForwardDistance, TransferID.get, hB, Nat.shiftLeft_eq, one_mul,
    toInt_of_lt h31]
  generalize (2 : Nat) ^ len = P at *
  by_cases hd : (b.value_ : Int) - (a.value_ : Int) < 0
  · rw [if_pos hd]
    have : (b.value_ + P - a.value_) % P = b.value_ + P - a.value_ :=
      Nat.mod_eq_of_lt (by omega)
    rw [this]
    omega
  · rw [if_neg hd]
    have e : b.value_ + P - a.value_ = (b.value_ - a.value_) + P := by omega
    rw [e, Nat.add_mod_right, Nat.mod_eq_of_lt (by omega)]
    omega

/-- C11: for every 8-bit cluster size `n`, `getQuorumSize()` returns `n / 2 + 1`; the conversion
to `uint8_t` truncates nothing. -/
theorem C11_quorum_size (c : ClusterManager) (h : c.cluster_size_ < 256) :
    c.getQuorumSize = c.cluster_size_ / 2 + 1 := by
  unfold ClusterManager.getQuorumSize
  omega

/-- C11, at an instance: a cluster of five servers has quorum three. -/
theorem C11_quorum_size_witness :
    (⟨5, 0⟩ : ClusterManager).cluster_size_ < 256 ∧
    (⟨5, 0⟩ : ClusterManager).getQuorumSize = (⟨5, 0⟩ : ClusterManager).cluster_size_ / 2 + 1 ∧
    (⟨5, 0⟩ : ClusterManager).getQuorumSize = 3 :=
  ⟨by decide, C11_quorum_size ⟨5, 0⟩ (by decide), by decide⟩

/-- C13, at the failing input: a fresh `TransferCRC48` fed `add("1", 1)` and then `add("2", 1)`
returns 0x518E6148490B from `get()`, while a fresh one fed `add("12", 2)` returns
0x5866030FC4AA: each call of `add(bytes, len)` applies the output xor. -/
theorem C13_crc48_chunked_differs :
    ((TransferCRC48.init.addBytes [0x31]).addBytes [0x32]).get = 0x518E6148490B ∧
    (TransferCRC48.init.addBytes ([0x31] ++ [0x32])).get = 0x5866030FC4AA ∧
    ((TransferCRC48.init.addBytes [0x31]).addBytes [0x32]).get ≠
      (TransferCRC48.init.addBytes ([0x31] ++ [0x32])).get := by
  refine ⟨by decide, by decide, by decide⟩

/-- For a bit length up to 8 and `TransferID`s `a`, `b` within `Max`, the forward distance is
the least number of `increment()` calls that lead from `a` to `b`. -/
theorem TransferID.forwardDistance_least_of_le_8 (len : Nat) (hlen : len ≤ 8) (a b : TransferID)
    (ha : a.value_ ≤ (TransferID.setBitLen len).Max)
    (hb : b.value_ ≤ (TransferID.setBitLen len).Max) :
    0 ≤ TransferID.computeForwardDistance (TransferID.setBitLen len) a b ∧
    (TransferID.increment (TransferID.setBitLen len))^[
      (TransferID.computeForwardDistance (TransferID.setBitLen len) a b).toNat] a = b ∧
    ∀ m, m < (TransferID.computeForwardDistance (TransferID.setBitLen len) a b).toNat →
      (TransferID.increment (TransferID.setBitLen len))^[m] a ≠ b := by
  rw [TransferID.computeForwardDistance_eq hlen a b ha hb]
  obtain ⟨-, hM⟩ := TransferID.setBitLen_of_le_8 hlen
  have ha' := ha
  have hb' := hb
  rw [hM] at ha' hb'
  have hpos : 0 < 2 ^ len := by positivity
  simp only [Int.toNat_ofNat]
  obtain ⟨bv⟩ := b
  simp only at hb' ⊢
  refine ⟨Int.natCast_nonneg _, ?_, ?_⟩
  · rw [TransferID.increment_iterate hlen a ha]
    apply congrArg TransferID.mk
    generalize (2 : Nat) ^ len = P at *
    by_cases hab : a.value_ ≤ bv
    · have e : bv + P - a.value_ = (bv - a.value_) + P := by omega
      rw [e, Nat.add_mod_right, Nat.mod_eq_of_lt (by omega : bv - a.value_ < P)]
      have : a.value_ + (bv - a.value_) = bv := by omega
      rw [this]; exact Nat.mod_eq_of_lt (by omega)
    · rw [Nat.mod_eq_of_lt (by omega : bv + P - a.value_ < P)]
      have : a.value_ + (bv + P - a.value_) = bv + P := by omega
      rw [this, Nat.add_mod_right]; exact Nat.mod_eq_of_lt (by omega)
  · intro m hm
    rw [TransferID.increment_iterate hlen a ha]
    intro heq
    simp only [TransferID.mk.injEq] at heq
    generalize (2 : Nat) ^ len = P at *
    by_cases hab : a.value_ ≤ bv
    · have e : bv + P - a.value_ = (bv - a.value_) + P := by omega
      rw [e, Nat.add_mod_right, Nat.mod_eq_of_lt (by omega : bv - a.value_ < P)] at hm
      rw [Nat.mod_eq_of_lt (by omega)] at heq
      omega
    · rw [Nat.mod_eq_of_lt (by omega : bv + P - a.value_ < P)] at hm
      by_cases hw : a.value_ + m < P
      · rw [Nat.mod_eq_of_lt hw] at heq
        omega
      · have e : a.value_ + m = (a.value_ + m - P) + P := by omega
        rw [e, Nat.add_mod_right, Nat.mod_eq_of_lt (by omega)] at heq
        omega

end uavcan

namespace uavcan

theorem NodeID.setBitLen_Max {len : Nat} (h1 : 1 ≤ len) (h7 : len ≤ 7) :
    (NodeID.setBitLen len).Max = 2 ^ len - 1 ∧ (NodeID.setBitLen len).Max < 255 := by
  interval_cases len <;> decide

/-- C16: for every bit length from 1 to 7 (`Max = 2^BitLen - 1`) and every 8-bit value `v`, a
`NodeID` holding `v` is broadcast iff `v = 0`, unicast iff `1 <= v <= Max`, valid iff
`v <= Max`; the default-constructed `NodeID` (0xFF) is invalid, not unicast and not broadcast;
and `isUnicast()` is `isValid()` and not `isBroadcast()`. -/
theorem C16_node_id_reserved_codes (len : Nat) (h1 : 1 ≤ len) (h7 : len ≤ 7) (v : Nat)
    (hv : v < 256) :
    (NodeID.setBitLen len).Max = 2 ^ len - 1 ∧
    ((⟨v⟩ : NodeID).isBroadcast = true ↔ v = 0) ∧
    ((⟨v⟩ : NodeID).isUnicast (NodeID.setBitLen len) = true ↔
      1 ≤ v ∧ v ≤ (NodeID.setBitLen len).Max) ∧
    ((⟨v⟩ : NodeID).isValid (NodeID.setBitLen len) = true ↔ v ≤ (NodeID.setBitLen len).Max) ∧
    NodeID.init.value_ = 0xFF ∧
    NodeID.init.isValid (NodeID.setBitLen len) = false ∧
    NodeID.init.isUnicast (NodeID.setBitLen len) = false ∧
    NodeID.init.isBroadcast = false ∧
    (⟨v⟩ : NodeID).isUnicast (NodeID.setBitLen len) =
      ((⟨v⟩ : NodeID).isValid (NodeID.setBitLen len) && !(⟨v⟩ : NodeID).isBroadcast) := by
  obtain ⟨hM, hlt⟩ := NodeID.setBitLen_Max h1 h7
  have hinit : ¬ (255 ≤ (NodeID.setBitLen len).Max) := by omega
  refine ⟨hM, ?_, ?_, ?_, rfl, ?_, ?_, rfl, ?_⟩
  · simp [NodeID.isBroadcast, NodeID.ValueBroadcast]
  · simp only [NodeID.isUnicast, Bool.and_eq_true, decide_eq_true_eq, bne_iff_ne, ne_eq]
    constructor
    · rintro ⟨h, h0⟩; exact ⟨by omega, h⟩
    · rintro ⟨h, h0⟩; exact ⟨h0, by omega⟩
  · simp [NodeID.isValid]
  · simp [NodeID.isValid, NodeID.init, NodeID.ValueInvalid, hinit]
  · simp [NodeID.isUnicast, NodeID.init, NodeID.ValueInvalid, hinit]
  · simp [NodeID.isUnicast, NodeID.isValid, NodeID.isBroadcast, NodeID.ValueBroadcast, bne]

/-- C16, at an instance: with the default bit length 7, the value 127 is unicast and valid and
not broadcast. -/
theorem C16_node_id_reserved_codes_witness :
    ((1 : Nat) ≤ 7 ∧ (7 : Nat) ≤ 7 ∧ (127 : Nat) < 256) ∧
    NodeID.setBitLen 7 = NodeID.defaultStatics ∧
    ((NodeID.setBitLen 7).Max = 2 ^ 7 - 1 ∧
    ((⟨127⟩ : NodeID).isBroadcast = true ↔ 127 = 0) ∧
    ((⟨127⟩ : NodeID).isUnicast (NodeID.setBitLen 7) = true ↔
      1 ≤ 127 ∧ 127 ≤ (NodeID.setBitLen 7).Max) ∧
    ((⟨127⟩ : NodeID).isValid (NodeID.setBitLen 7) = true ↔ 127 ≤ (NodeID.setBitLen 7).Max) ∧
    NodeID.init.value_ = 0xFF ∧
    NodeID.init.isValid (NodeID.setBitLen 7) = false ∧
    NodeID.init.isUnicast (NodeID.setBitLen 7) = false ∧
    NodeID.init.isBroadcast = false ∧
    (⟨127⟩ : NodeID).isUnicast (NodeID.setBitLen 7) =
      ((⟨127⟩ : NodeID).isValid (NodeID.setBitLen 7) && !(⟨127⟩ : NodeID).isBroadcast)) :=
  ⟨⟨by decide, by decide, by decide⟩, by decide,
    C16_node_id_reserved_codes 7 (by decide) (by decide) 127 (by decide)⟩

/-! ## Further claims on TransferSender::send -/

namespace TransferSender

theorem nextFrame_autoInc (payload : List Nat) (f : Frame) (t : TransferID) (o : Nat) :
    (nextFrame payload (f.setTransferID t) o).isTransferIdAutoInc = f.isTransferIdAutoInc := rfl

/-- Transfer IDs of the frames of the loop: the one it is entered with, incremented from frame to
frame if the frame carries the auto-increment flag. -/
theorem LoopFrames.transfer_ids {g : Globals} {payload : List Nat} {f : Frame} {t : TransferID}
    {o : Nat} {frames : List Frame} (h : LoopFrames g payload f t o frames) :
    ∀ (k : Nat) (hk : k < frames.length),
      frames[k].transfer_id_ =
        if f.isTransferIdAutoInc then (TransferID.increment g.transferID)^[k] t else t := by
  induction h with
  | last f t o he =>
    intro k hk
    have : k = 0 := by simpa using hk
    subst this
    simp [Frame.setTransferID]
  | cons f t o rest he hrest ih =>
    intro k hk
    cases k with
    | zero => simp [Frame.setTransferID]
    | succ k =>
      have hk' : k < rest.length := by simpa using hk
      have := ih k hk'
      rw [nextFrame_autoInc] at this
      simp only [List.getElem_cons_succ, this, nextTid, Function.iterate_succ_apply]
      split <;> rfl

end TransferSender

open TransferSender

/-- C14, at the failing input: with the frame's CRC width set to 32 or to 48, and whatever the
CRC-32 and CRC-48 bases of the sender, the first frame of the ten bytes 0x01..0x0A starts with
the two bytes `B1 29` of the CRC-16 computed from `crc_base_`, followed by six payload bytes. -/
theorem C14_crc_width_ignored :
    (Scenario.sender29B1.crc_base_.addBytes Scenario.tenBytes).get = 0x29B1 ∧
    (send Scenario.globals Scenario.sender29B1 Scenario.dispatcher
        ((Frame.ctor 42 1 ⟨10⟩ ⟨20⟩ ⟨3⟩).setCrcLen 32) Scenario.tenBytes 100 100 1 ⟨20⟩ ⟨3⟩).map
      (fun r => r.dispatcher.sent_.map (fun c => (c.frame.getCrcLen, c.frame.payload_)))
      = some [(32, [0xB1, 0x29, 1, 2, 3, 4, 5, 6]), (32, [7, 8, 9, 10])] ∧
    (send Scenario.globals
        { Scenario.sender29B1 with crc_base32_ := ⟨0x12345678⟩, crc_base48_ := ⟨0x123456789ABC⟩ }
        Scenario.dispatcher
        ((Frame.ctor 42 1 ⟨10⟩ ⟨20⟩ ⟨3⟩).setCrcLen 48) Scenario.tenBytes 100 100 1 ⟨20⟩ ⟨3⟩).map
      (fun r => r.dispatcher.sent_.map (fun c => (c.frame.getCrcLen, c.frame.payload_)))
      = some [(48, [0xB1, 0x29, 1, 2, 3, 4, 5, 6]), (48, [7, 8, 9, 10])] := by
  refine ⟨by decide, by decide, by decide⟩

end uavcan

namespace uavcan
namespace OutgoingTransferRegistry

end OutgoingTransferRegistry

theorem TransferID.ofValue_get {len : Nat} (h : len ≤ 8) (t : TransferID)
    (ht : t.value_ ≤ (TransferID.setBitLen len).Max) :
    TransferID.ofValue (TransferID.setBitLen len) t.get = t := by
  obtain ⟨-, hM⟩ := TransferID.setBitLen_of_le_8 h
  rw [hM] at ht
  have h256 : 2 ^ len ≤ 256 := by
    calc 2 ^ len ≤ 2 ^ 8 := Nat.pow_le_pow_right (by norm_num) h
      _ = 256 := by norm_num
  have hpos : 0 < 2 ^ len := by positivity
  obtain ⟨v⟩ := t
  simp only at ht
  simp only [TransferID.ofValue, TransferID.get, hM, Nat.and_pow_two_sub_one_eq_mod,
    TransferID.mk.injEq]
  rw [Nat.mod_eq_of_lt (by omega : v < 256), Nat.mod_eq_of_lt (by omega)]

open TransferSender

/-- C18: when `accessOrCreate` returns a null pointer, each registry-backed overload of `send`
returns `-ErrMemory` and leaves the dispatcher as it was: no frame dispatched, the tallies of
transmitted transfers and of errors unchanged. -/
theorem C18_registry_allocation_failure (g : Globals) (s : TransferSender) (d : Dispatcher)
    (otr : OutgoingTransferRegistry) (frame : Frame) (payload : List Nat)
    (txd bd tt : Nat) (dst : NodeID)
    (hacc : otr.accessOrCreate ⟨s.data_type_id_, tt, dst⟩
      (txd + max (s.max_transfer_interval_ * 2) g.MinEntryLifetime) = none) :
    (∃ r, (sendFrameRegistry g s d otr frame payload txd bd tt dst).1 = some r ∧
      r.res = -g.ErrMemory ∧ r.dispatcher.sent_ = d.sent_ ∧
      r.dispatcher.perf_.transfers_tx_ = d.perf_.transfers_tx_ ∧
      r.dispatcher.perf_.errors_ = d.perf_.errors_ ∧ r.frame = frame) ∧
    (∃ r, (sendRegistry g s d otr payload txd bd tt dst).1 = some r ∧
      r.res = -g.ErrMemory ∧ r.dispatcher.sent_ = d.sent_ ∧
      r.dispatcher.perf_.transfers_tx_ = d.perf_.transfers_tx_ ∧
      r.dispatcher.perf_.errors_ = d.perf_.errors_) := by
  constructor
  · unfold sendFrameRegistry
    simp only [hacc]
    exact ⟨_, rfl, rfl, rfl, rfl, rfl, rfl⟩
  · unfold sendRegistry
    simp only [hacc]
    exact ⟨_, rfl, rfl, rfl, rfl, rfl⟩

end uavcan

namespace uavcan
open TransferSender

/-- C18, at an instance: a registry without room; `send` returns `-ErrMemory`, nothing is
dispatched and the tallies stay at 0. -/
theorem C18_registry_allocation_failure_witness :
    Scenario.fullRegistry.accessOrCreate ⟨Scenario.sender.data_type_id_, 1, ⟨20⟩⟩
        (100 + max (Scenario.sender.max_transfer_interval_ * 2)
          Scenario.globals.MinEntryLifetime) = none ∧
    ((∃ r, (sendFrameRegistry Scenario.globals Scenario.sender Scenario.dispatcher
        Scenario.fullRegistry (Frame.ctor 42 1 ⟨10⟩ ⟨20⟩ ⟨0⟩) Scenario.hello 100 100 1 ⟨20⟩).1
          = some r ∧
      r.res = -Scenario.globals.ErrMemory ∧ r.dispatcher.sent_ = Scenario.dispatcher.sent_ ∧
      r.dispatcher.perf_.transfers_tx_ = Scenario.dispatcher.perf_.transfers_tx_ ∧
      r.dispatcher.perf_.errors_ = Scenario.dispatcher.perf_.errors_ ∧
      r.frame = Frame.ctor 42 1 ⟨10⟩ ⟨20⟩ ⟨0⟩) ∧
    (∃ r, (sendRegistry Scenario.globals Scenario.sender Scenario.dispatcher
        Scenario.fullRegistry Scenario.hello 100 100 1 ⟨20⟩).1 = some r ∧
      r.res = -Scenario.globals.ErrMemory ∧ r.dispatcher.sent_ = Scenario.dispatcher.sent_ ∧
      r.dispatcher.perf_.transfers_tx_ = Scenario.dispatcher.perf_.transfers_tx_ ∧
      r.dispatcher.perf_.errors_ = Scenario.dispatcher.perf_.errors_)) ∧
    (sendRegistry Scenario.globals Scenario.sender Scenario.dispatcher
        Scenario.fullRegistry Scenario.hello 100 100 1 ⟨20⟩).1.map
      (fun r => (r.res, r.dispatcher.sent_.length, r.dispatcher.perf_)) = some (-3, 0, ⟨0, 0⟩) :=
  ⟨by rfl,
    C18_registry_allocation_failure Scenario.globals Scenario.sender Scenario.dispatcher
      Scenario.fullRegistry (Frame.ctor 42 1 ⟨10⟩ ⟨20⟩ ⟨0⟩) Scenario.hello 100 100 1 ⟨20⟩
      (by rfl),
    by decide⟩

/-- C19: in the single-frame path the dispatcher is passed `flags_` when the source node ID of
the frame (the node ID of the dispatcher) is unicast and `flags_ | CanIOFlagAbortOnError` when
it is not; unless `flags_` already holds the flag, the flags passed are
`flags_ | CanIOFlagAbortOnError` if and only if the source node ID is not unicast. -/
theorem C19_abort_on_error_for_anonymous (g : Globals) (s : TransferSender) (d : Dispatcher)
    (frame : Frame) (payload : List Nat) (txd bd tt : Nat) (dst : NodeID) (tid : TransferID)
    (hlen : payload.length ≤ Frame.PayloadCapacity)
    (hallow : d.passive_mode_ = false ∨
      (s.allow_anonymous_transfers_ = true ∧ tt = TransferTypeMessageBroadcast)) :
    ∃ r c, send g s d frame payload txd bd tt dst tid = some r ∧
      r.dispatcher.sent_ = d.sent_ ++ [c] ∧
      c.frame.getSrcNodeID = d.getNodeID ∧
      (c.frame.getSrcNodeID.isUnicast g.nodeID = true → c.flags = s.flags_) ∧
      (c.frame.getSrcNodeID.isUnicast g.nodeID = false →
        c.flags = s.flags_ ||| g.CanIOFlagAbortOnError) ∧
      (s.flags_ ||| g.CanIOFlagAbortOnError ≠ s.flags_ →
        (c.flags = s.flags_ ||| g.CanIOFlagAbortOnError ↔
          c.frame.getSrcNodeID.isUnicast g.nodeID = false)) := by
  have hlen' : payload.length ≤ 8 := hlen
  have h2 : toInt payload.length = (payload.length : Int) := toInt_of_lt (by omega)
  have ha : d.passive_mode_ = false ∨ (s.allow_anonymous_transfers_ = true ∧
      tt = TransferTypeMessageBroadcast ∧ toInt payload.length ≤ 8) := by
    rcases hallow with h | ⟨h1, h3⟩
    · exact Or.inl h
    · exact Or.inr ⟨h1, h3, by rw [h2]; omega⟩
  rw [send_allowed g s d frame payload txd bd tt dst tid ha, if_pos (by omega),
    sendSingleFrame_eq g s _ _ payload txd bd hlen']
  refine ⟨_, _, rfl, rfl, rfl, ?_, ?_, ?_⟩
  · intro hu
    have hu' : (setupFrame s d frame tt dst tid).src_node_id_.isUnicast g.nodeID = true := hu
    simp only [hu', if_true]
  · intro hu
    have hu' : (setupFrame s d frame tt dst tid).src_node_id_.isUnicast g.nodeID = false := hu
    simp only [hu', Bool.false_eq_true, if_false]
  · intro hne
    show ((if (setupFrame s d frame tt dst tid).src_node_id_.isUnicast g.nodeID = true
        then s.flags_ else s.flags_ ||| g.CanIOFlagAbortOnError)
        = s.flags_ ||| g.CanIOFlagAbortOnError) ↔
      (setupFrame s d frame tt dst tid).src_node_id_.isUnicast g.nodeID = false
    cases hu : (setupFrame s d frame tt dst tid).src_node_id_.isUnicast g.nodeID
    · simp
    · simp only [if_true]
      constructor
      · intro h; exact absurd h.symm hne
      · intro h; exact absurd h (by simp)

/-- C19, at two instances: a node without node ID (source node ID 0, not unicast) sends an
anonymous broadcast with the flags `0 | 2`; node 10 sends it with the flags 0. -/
theorem C19_abort_on_error_for_anonymous_witness :
    (Scenario.hello.length ≤ Frame.PayloadCapacity ∧
      ({ Scenario.sender with allow_anonymous_transfers_ := true } : TransferSender
        ).allow_anonymous_transfers_ = true ∧ (2 : Nat) = TransferTypeMessageBroadcast) ∧
    (∃ r c, send Scenario.globals { Scenario.sender with allow_anonymous_transfers_ := true }
        Scenario.passiveDispatcher (Frame.ctor 42 2 ⟨0⟩ ⟨0⟩ ⟨3⟩) Scenario.hello 100 100 2 ⟨0⟩ ⟨3⟩
          = some r ∧
      r.dispatcher.sent_ = Scenario.passiveDispatcher.sent_ ++ [c] ∧
      c.frame.getSrcNodeID = Scenario.passiveDispatcher.getNodeID ∧
      (c.frame.getSrcNodeID.isUnicast Scenario.globals.nodeID = true →
        c.flags = ({ Scenario.sender with allow_anonymous_transfers_ := true } : TransferSender
          ).flags_) ∧
      (c.frame.getSrcNodeID.isUnicast Scenario.globals.nodeID = false →
        c.flags = ({ Scenario.sender with allow_anonymous_transfers_ := true } : TransferSender
          ).flags_ ||| Scenario.globals.CanIOFlagAbortOnError) ∧
      (({ Scenario.sender with allow_anonymous_transfers_ := true } : TransferSender).flags_
          ||| Scenario.globals.CanIOFlagAbortOnError ≠
          ({ Scenario.sender with allow_anonymous_transfers_ := true } : TransferSender).flags_ →
        (c.flags = ({ Scenario.sender with allow_anonymous_transfers_ := true } : TransferSender
            ).flags_ ||| Scenario.globals.CanIOFlagAbortOnError ↔
          c.frame.getSrcNodeID.isUnicast Scenario.globals.nodeID = false))) ∧
    (send Scenario.globals { Scenario.sender with allow_anonymous_transfers_ := true }
        Scenario.passiveDispatcher (Frame.ctor 42 2 ⟨0⟩ ⟨0⟩ ⟨3⟩) Scenario.hello 100 100 2 ⟨0⟩
        ⟨3⟩).map (fun r => r.dispatcher.sent_.map (fun c => c.flags)) = some [2] ∧
    (send Scenario.globals { Scenario.sender with allow_anonymous_transfers_ := true }
        Scenario.dispatcher (Frame.ctor 42 2 ⟨10⟩ ⟨0⟩ ⟨3⟩) Scenario.hello 100 100 2 ⟨0⟩
        ⟨3⟩).map (fun r => r.dispatcher.sent_.map (fun c => c.flags)) = some [0] :=
  ⟨⟨by decide, rfl, rfl⟩,
    C19_abort_on_error_for_anonymous Scenario.globals
      { Scenario.sender with allow_anonymous_transfers_ := true }
      Scenario.passiveDispatcher (Frame.ctor 42 2 ⟨0⟩ ⟨0⟩ ⟨3⟩) Scenario.hello 100 100 2 ⟨0⟩ ⟨3⟩
      (by decide) (Or.inr ⟨rfl, rfl⟩),
    by decide, by decide⟩

/-! ## Further claims on RaftCore::traverseLogFromEndUntil -/

/-- C20, at the failing input: in a log with the entries 1, 2, 3 (max index 3) the predicate is
evaluated on the entries 2, 1, 0 in this order, so the traversal starts one below the high end:
with the predicate `node_id == 53`, which the entry at index 3 satisfies, `NULL` is returned;
and in a log with max index 0 no entry is evaluated at all, not even entry 0. -/
theorem C20_traversal_starts_below_high_end :
    RaftCore.traverseLogFromEndUntil Scenario.logThreeEntries (fun _ => false)
      = some ⟨TraverseOutcome.null, [2, 1, 0]⟩ ∧
    RaftCore.traverseLogFromEndUntil Scenario.logThreeEntries (fun e => e.node_id == 53)
      = some ⟨TraverseOutcome.null, [2, 1, 0]⟩ ∧
    Scenario.logThreeEntries.getMaxIndex = 3 ∧
    (Scenario.logThreeEntries.getEntryAtIndex 3).map (fun e => e.node_id == 53) = some true ∧
    RaftCore.traverseLogFromEndUntil Scenario.logEmpty (fun _ => true)
      = some ⟨TraverseOutcome.null, []⟩ ∧
    Scenario.logEmpty.getEntryAtIndex 0 = some Scenario.emptyEntry := by
  refine ⟨by decide, by decide, rfl, by decide, by decide, by decide⟩

end uavcan

/-! ## Claims on the frame count and the offsets of the multi-frame path -/

namespace uavcan

open TransferSender

/-- The number of frames of the loop entered at offset `o` with the end flag set exactly when
the payload is used up: one, and one more for every eight bytes, or part of eight, left. -/
theorem TransferSender.LoopFrames.length_eq {g : Globals} {payload : List Nat} {f : Frame}
    {t : TransferID} {o : Nat} {frames : List Frame} (h : LoopFrames g payload f t o frames)
    (hend : f.end_of_transfer_ = decide (payload.length ≤ o)) (ho : o ≤ payload.length) :
    frames.length = 1 + (payload.length - o + 7) / 8 := by
  induction h with
  | last f t o he =>
    have : payload.length ≤ o := by simpa [he] using hend.symm
    simp only [List.length_singleton]
    omega
  | cons f t o rest he _ ih =>
    have hlt : ¬ payload.length ≤ o := by simpa [he] using hend.symm
    have ih' := ih (by simp [nextFrame, Frame.setTransferID, he]) (by omega)
    simp only [List.length_cons, ih']
    omega

/-- The first frame of the loop is the frame it is entered with, carrying the transfer ID. -/
theorem TransferSender.LoopFrames.head {g : Globals} {payload : List Nat} {f : Frame}
    {t : TransferID} {o : Nat} {frames : List Frame} (h : LoopFrames g payload f t o frames) :
    ∃ rest, frames = f.setTransferID t :: rest := by
  cases h with
  | last _ _ _ _ => exact ⟨[], rfl⟩
  | cons _ _ _ rest _ _ => exact ⟨rest, rfl⟩

/-- C21: a payload of length `L` greater than the payload capacity 8 (and one an `int` holds),
sent on a UAVCAN-type frame whose end flag is clear by a non-passive node whose dispatcher
accepts every frame: `send` returns the number of frames it dispatched, a positive number, and
that number is `ceil((L + 2) / 8)`. -/
theorem C21_frame_count (g : Globals) (s : TransferSender) (d : Dispatcher)
    (frame : Frame) (payload : List Nat) (txd bd tt : Nat) (dst : NodeID) (tid : TransferID)
    (hlen : Frame.PayloadCapacity < payload.length) (hL : payload.length < 2 ^ 31)
    (htype : frame.type_ = 0) (hend : frame.end_of_transfer_ = false)
    (hp : d.passive_mode_ = false) (hok : ∀ k c, 0 ≤ d.send_result_ k c) :
    ∃ r calls, send g s d frame payload txd bd tt dst tid = some r ∧
      r.dispatcher.sent_ = d.sent_ ++ calls ∧
      r.res = (calls.length : Int) ∧ 0 < r.res ∧
      calls.length = (payload.length + 2 + 7) / 8 := by
  have hlen' : 8 < payload.length := hlen
  rw [send_allowed g s d frame payload txd bd tt dst tid (Or.inl hp),
    if_neg (by omega), sendMultiFrame_uavcan g s _ _ payload txd bd tid
      ((setupFrame_fields s d frame tt dst tid).2.2.2.1.trans htype)]
  obtain ⟨frames, r, hfr, hrun, hres, hdisp, -⟩ :=
    sendLoop_run g s payload txd bd hL (payload.length + 2) d.addTxTransfer
      ((setupFrame s d frame tt dst tid).setPayload
        ([((s.crc_base_.addBytes payload).get &&& 0xFF) % 256,
          (((s.crc_base_.addBytes payload).get >>> 8) &&& 0xFF) % 256]
          ++ payload.take (BUFLEN - 2)) BUFLEN).1
      (if (setupFrame s d frame tt dst tid).isTransferIdAutoInc then
        (setupFrame s d frame tt dst tid).getBaseAutoTransferID else tid) 6 0 hok (by omega)
      (by split <;> omega)
  have hcount := hfr.length_eq (by
    have h6 : ¬ payload.length ≤ 6 := by omega
    rw [(setPayload_fields _ _ _).2.2.2.1, (setupFrame_fields s d frame tt dst tid).2.1, hend]
    simp [h6]) (by omega)
  refine ⟨r, frames.map (loopCall s txd bd), hrun, by rw [hdisp]; rfl, ?_, ?_, ?_⟩
  · rw [hres, List.length_map]; omega
  · rw [hres]; omega
  · rw [List.length_map, hcount]; omega

/-- C21, at instances: the ten bytes 0x01..0x0A go out as 2 frames, thirty bytes as 4 frames
and 14 bytes as 2 frames. -/
theorem C21_frame_count_witness :
    (Frame.PayloadCapacity < Scenario.tenBytes.length ∧ Scenario.tenBytes.length < 2 ^ 31 ∧
      Scenario.freshFrame.type_ = 0 ∧ Scenario.freshFrame.end_of_transfer_ = false ∧
      Scenario.dispatcher.passive_mode_ = false ∧
      ∀ k c, 0 ≤ Scenario.dispatcher.send_result_ k c) ∧
    (∃ r calls, send Scenario.globals Scenario.sender Scenario.dispatcher
        Scenario.freshFrame Scenario.tenBytes 100 100 2 ⟨0⟩ ⟨3⟩ = some r ∧
      r.dispatcher.sent_ = Scenario.dispatcher.sent_ ++ calls ∧
      r.res = (calls.length : Int) ∧ 0 < r.res ∧
      calls.length = (Scenario.tenBytes.length + 2 + 7) / 8) ∧
    (send Scenario.globals Scenario.sender Scenario.dispatcher
        Scenario.freshFrame Scenario.tenBytes 100 100 2 ⟨0⟩ ⟨3⟩).map
      (fun r => (r.res, r.dispatcher.sent_.length)) = some (2, 2) ∧
    (send Scenario.globals Scenario.sender Scenario.dispatcher
        Scenario.freshFrame (List.range 30) 100 100 2 ⟨0⟩ ⟨3⟩).map
      (fun r => (r.res, r.dispatcher.sent_.length)) = some (4, 4) ∧
    (send Scenario.globals Scenario.sender Scenario.dispatcher
        Scenario.freshFrame (List.range 14) 100 100 2 ⟨0⟩ ⟨3⟩).map
      (fun r => (r.res, r.dispatcher.sent_.length)) = some (2, 2) :=
  ⟨⟨by decide, by decide, rfl, rfl, rfl, fun _ _ => (by decide : (0 : Int) ≤ 1)⟩,
    C21_frame_count Scenario.globals Scenario.sender Scenario.dispatcher
      Scenario.freshFrame Scenario.tenBytes 100 100 2 ⟨0⟩ ⟨3⟩
      (by decide) (by decide) rfl rfl rfl (fun _ _ => (by decide : (0 : Int) ≤ 1)),
    by decide, by decide, by decide⟩

end uavcan

namespace uavcan
namespace TransferSender

/-- Recording the offsets does not change what the loop returns. -/
theorem sendLoopTraced_fst (g : Globals) (s : TransferSender) (payload : List Nat) (txd bd : Nat) :
    ∀ (fuel : Nat) (d : Dispatcher) (f : Frame) (t : TransferID) (off n : Int)
      (tr : List LoopStep),
      (sendLoopTraced g s payload txd bd fuel d f t off n tr).map Prod.fst
        = sendLoop g s payload txd bd fuel d f t off n := by
  intro fuel
  induction fuel with
  | zero => intros; rfl
  | succ fuel ih =>
    intro d f t off n tr
    rw [sendLoopTraced, sendLoop]
    dsimp only
    split_ifs <;> first | rfl | exact ih _ _ _ _ _ _

/-- Recording the offsets does not change what the multi-frame branch returns. -/
theorem sendMultiFrameTraced_fst (g : Globals) (s : TransferSender) (d : Dispatcher) (f : Frame)
    (payload : List Nat) (txd bd : Nat) (tid : TransferID) :
    (sendMultiFrameTraced g s d f payload txd bd tid).map Prod.fst
      = sendMultiFrame g s d f payload txd bd tid := by
  unfold sendMultiFrameTraced sendMultiFrame
  dsimp only
  split_ifs <;> first
    | rfl
    | (rw [Option.map_map]; exact sendLoopTraced_fst g s payload txd bd _ _ _ _ _ _ _)

/-- The loop entered at an offset within the payload returns, whatever the dispatcher does, and
every step it records stays within the payload. -/
theorem sendLoopTraced_run (g : Globals) (s : TransferSender) (payload : List Nat) (txd bd : Nat)
    (hL : payload.length < 2 ^ 31) :
    ∀ (fuel : Nat) (d : Dispatcher) (f : Frame) (t : TransferID) (o : Nat) (n : Int)
      (tr : List LoopStep),
      o ≤ payload.length →
      (if f.end_of_transfer_ then 1 else payload.length - o + 2) ≤ fuel →
      (∀ st ∈ tr, 0 ≤ st.offset_before ∧ st.offset_before ≤ (payload.length : Int) ∧
        (st.requested : Int) = (payload.length : Int) - st.offset_before ∧
        st.offset_before + (st.written : Int) ≤ (payload.length : Int) ∧
        st.offset_after = st.offset_before + (st.written : Int) ∧
        st.offset_after ≤ toInt payload.length) →
      ∃ r steps, sendLoopTraced g s payload txd bd fuel d f t (o : Int) n tr = some (r, steps) ∧
        ∀ st ∈ steps, 0 ≤ st.offset_before ∧ st.offset_before ≤ (payload.length : Int) ∧
          (st.requested : Int) = (payload.length : Int) - st.offset_before ∧
          st.offset_before + (st.written : Int) ≤ (payload.length : Int) ∧
          st.offset_after = st.offset_before + (st.written : Int) ∧
          st.offset_after ≤ toInt payload.length := by
  intro fuel
  induction fuel with
  | zero =>
    intro d f t o n tr _ hf
    split at hf <;> omega
  | succ fuel ih =>
    intro d f t o n tr ho hf hgood
    have hu : usub payload.length (toUnsigned (o : Int)) = payload.length - o := by
      rw [toUnsigned_natCast (by omega), usub_of_le ho (by omega)]
    rw [sendLoopTraced]
    dsimp only
    by_cases h1 : (d.send (f.setTransferID t) txd bd s.flags_ s.iface_mask_).1 < 0
    · rw [if_pos h1]
      exact ⟨_, _, rfl, hgood⟩
    rw [if_neg h1]
    by_cases h2 : (f.setTransferID t).isEndOfTransfer = true
    · rw [if_pos h2]
      exact ⟨_, _, rfl, hgood⟩
    rw [if_neg h2]
    have he : f.end_of_transfer_ = false := by
      cases h : f.end_of_transfer_
      · rfl
      · exact absurd h h2
    rw [he] at hf
    simp only [Bool.false_eq_true, if_false] at hf
    generalize hp : ((f.setTransferID t).setStartOfTransfer false).flipToggle.setPayload
      (List.drop (o : Int).toNat payload) (usub payload.length (toUnsigned (o : Int))) = p
    have hp2 : p.2 = min (payload.length - o) 8 := by
      rw [← hp, ← hu]; rfl
    rw [if_neg (by omega)]
    generalize hF : (if (o : Int) + (p.2 : Int) ≥ toInt payload.length then
      p.1.setEndOfTransfer true else p.1) = F
    have hFe : payload.length ≤ o + p.2 → F.end_of_transfer_ = true := by
      intro h
      rw [← hF, if_pos (by rw [toInt_of_lt hL]; omega)]
      rfl
    have hf' : (if F.end_of_transfer_ then 1 else payload.length - (o + p.2) + 2) ≤ fuel := by
      by_cases hc : payload.length ≤ o + p.2
      · rw [hFe hc, if_pos rfl]; omega
      · split <;> omega
    have key := ih (d.send (f.setTransferID t) txd bd s.flags_ s.iface_mask_).2 F
      (if (f.setTransferID t).isTransferIdAutoInc = true then t.increment g.transferID else t)
      (o + p.2) (n + 1)
      (tr ++ [⟨(o : Int), usub payload.length (toUnsigned (o : Int)), p.2,
        (o : Int) + (p.2 : Int)⟩]) (by omega) hf' (by
        intro st hst
        rcases List.mem_append.mp hst with h | h
        · exact hgood st h
        · rw [List.mem_singleton] at h
          subst h
          refine ⟨?_, ?_, ?_, ?_, rfl, ?_⟩
          · show (0 : Int) ≤ (o : Int); omega
          · show (o : Int) ≤ (payload.length : Int); omega
          · show ((usub payload.length (toUnsigned (o : Int)) : Nat) : Int)
              = (payload.length : Int) - (o : Int)
            rw [hu]; omega
          · show (o : Int) + (p.2 : Int) ≤ (payload.length : Int); omega
          · show (o : Int) + (p.2 : Int) ≤ toInt payload.length
            rw [toInt_of_lt hL]; omega)
    rw [Nat.cast_add] at key
    exact key

end TransferSender
end uavcan

namespace uavcan
namespace TransferSender

/-- The multi-frame branch on a payload longer than a frame returns, whatever the dispatcher
does; the loop is entered at an offset within the payload and every step stays within it. -/
theorem sendMultiFrameTraced_run (g : Globals) (s : TransferSender) (d : Dispatcher) (f : Frame)
    (payload : List Nat) (txd bd : Nat) (tid : TransferID)
    (hlen : 8 < payload.length) (hL : payload.length < 2 ^ 31) :
    ∃ r o0 steps, sendMultiFrameTraced g s d f payload txd bd tid = some (r, ⟨some o0, steps⟩) ∧
      0 ≤ o0 ∧ o0 < toInt payload.length ∧
      ∀ st ∈ steps, 0 ≤ st.offset_before ∧ st.offset_before ≤ (payload.length : Int) ∧
        (st.requested : Int) = (payload.length : Int) - st.offset_before ∧
        st.offset_before + (st.written : Int) ≤ (payload.length : Int) ∧
        st.offset_after = st.offset_before + (st.written : Int) ∧
        st.offset_after ≤ toInt payload.length := by
  unfold sendMultiFrameTraced
  dsimp only
  by_cases htype : f.getFrameType = 0
  · rw [if_pos htype]
    generalize hp : f.setPayload ([((s.crc_base_.addBytes payload).get &&& 0xFF) % 256,
      (((s.crc_base_.addBytes payload).get >>> 8) &&& 0xFF) % 256]
      ++ payload.take (BUFLEN - 2)) BUFLEN = p
    have hp2 : p.2 = 8 := by rw [← hp]; rfl
    have e6 : ((p.2 : Nat) : Int) - 2 = ((6 : Nat) : Int) := by rw [hp2]; rfl
    rw [if_neg (by omega), e6]
    obtain ⟨r, steps, hrun, hgood⟩ := sendLoopTraced_run g s payload txd bd hL
      (payload.length + 2) d p.1
      (if p.1.isTransferIdAutoInc = true then p.1.getBaseAutoTransferID else tid) 6 0 []
      (by omega) (by split <;> omega) (by simp)
    refine ⟨r, ((6 : Nat) : Int), steps, by rw [hrun]; rfl, by omega, ?_, hgood⟩
    rw [toInt_of_lt hL]; omega
  · rw [if_neg htype]
    have h4 : usub payload.length (toUnsigned 0) = payload.length := by
      have : toUnsigned 0 = 0 := by decide
      rw [this, usub_of_le (Nat.zero_le _) (by omega)]; rfl
    rw [h4]
    generalize hp : f.setPayload (List.drop (0 : Int).toNat payload) payload.length = p
    have hp2 : p.2 = 8 := by
      rw [← hp]
      show min payload.length 8 = 8
      omega
    have e8 : (0 : Int) + ((p.2 : Nat) : Int) = ((8 : Nat) : Int) := by rw [hp2]; rfl
    rw [if_neg (by omega), e8]
    obtain ⟨r, steps, hrun, hgood⟩ := sendLoopTraced_run g s payload txd bd hL
      (payload.length + 2) d p.1
      (if p.1.isTransferIdAutoInc = true then p.1.getBaseAutoTransferID else tid) 8 0 []
      (by omega) (by split <;> omega) (by simp)
    refine ⟨r, ((8 : Nat) : Int), steps, by rw [hrun]; rfl, by omega, ?_, hgood⟩
    rw [toInt_of_lt hL]; omega

end TransferSender

open TransferSender

/-- C22: for every payload of a length `L > 8` that an `int` holds, every frame and every
dispatcher behaviour: a passive node is refused, so the multi-frame path is entered only with
`isPassiveMode()` false; the path returns (the loop ends within its `L + 2` iterations);
the offset with which the loop is entered satisfies `0 <= offset < L`; and at every
`offset += write_res` of the loop, `0 <= offset <= L` before it, the length passed to
`setPayload` is `L - offset` (no wrap-around), the bytes copied end within the payload, and
`offset <= int(payload_len)` after it. -/
theorem C22_multi_frame_loop_terminates_within_bounds (g : Globals) (s : TransferSender)
    (d : Dispatcher) (frame : Frame) (payload : List Nat) (txd bd tt : Nat) (dst : NodeID)
    (tid : TransferID)
    (hlen : Frame.PayloadCapacity < payload.length) (hL : payload.length < 2 ^ 31) :
    (d.isPassiveMode = true →
      send g s d frame payload txd bd tt dst tid
        = some ⟨-g.ErrPassiveMode, d, setupFrame s d frame tt dst tid⟩) ∧
    (d.isPassiveMode = false →
      d.addTxTransfer.isPassiveMode = false ∧
      send g s d frame payload txd bd tt dst tid
        = sendMultiFrame g s d.addTxTransfer (setupFrame s d frame tt dst tid) payload txd bd
            tid) ∧
    ∃ r o0 steps,
      sendMultiFrameTraced g s d.addTxTransfer (setupFrame s d frame tt dst tid) payload txd bd
        tid = some (r, ⟨some o0, steps⟩) ∧
      sendMultiFrame g s d.addTxTransfer (setupFrame s d frame tt dst tid) payload txd bd tid
        = some r ∧
      0 ≤ o0 ∧ o0 < toInt payload.length ∧
      ∀ st ∈ steps, 0 ≤ st.offset_before ∧ st.offset_before ≤ (payload.length : Int) ∧
        (st.requested : Int) = (payload.length : Int) - st.offset_before ∧
        st.offset_before + (st.written : Int) ≤ (payload.length : Int) ∧
        st.offset_after = st.offset_before + (st.written : Int) ∧
        st.offset_after ≤ toInt payload.length := by
  have hlen' : 8 < payload.length := hlen
  refine ⟨?_, ?_, ?_⟩
  · intro hp
    apply send_refused g s d frame payload txd bd tt dst tid hp
    rintro ⟨-, -, h⟩
    rw [toInt_of_lt hL] at h
    omega
  · intro hp
    refine ⟨hp, ?_⟩
    rw [send_allowed g s d frame payload txd bd tt dst tid (Or.inl hp), if_neg (by omega)]
  · obtain ⟨r, o0, steps, hrun, h0, h1, hgood⟩ :=
      sendMultiFrameTraced_run g s d.addTxTransfer (setupFrame s d frame tt dst tid) payload
        txd bd tid hlen' hL
    refine ⟨r, o0, steps, hrun, ?_, h0, h1, hgood⟩
    rw [← sendMultiFrameTraced_fst, hrun]
    rfl

/-- C22, at instances: for the ten bytes 0x01..0x0A the loop is entered at offset 6 and its one
step goes from offset 6 to offset 10, requesting and copying 4 bytes; for thirty bytes on a
frame of type 1 the loop is entered at offset 8 and its steps end at the offsets 16, 24, 30. -/
theorem C22_multi_frame_loop_terminates_within_bounds_witness :
    (Frame.PayloadCapacity < Scenario.tenBytes.length ∧ Scenario.tenBytes.length < 2 ^ 31) ∧
    ((Scenario.dispatcher.isPassiveMode = true →
      send Scenario.globals Scenario.sender Scenario.dispatcher Scenario.freshFrame
          Scenario.tenBytes 100 100 2 ⟨0⟩ ⟨3⟩
        = some ⟨-Scenario.globals.ErrPassiveMode, Scenario.dispatcher,
            setupFrame Scenario.sender Scenario.dispatcher Scenario.freshFrame 2 ⟨0⟩ ⟨3⟩⟩) ∧
    (Scenario.dispatcher.isPassiveMode = false →
      Scenario.dispatcher.addTxTransfer.isPassiveMode = false ∧
      send Scenario.globals Scenario.sender Scenario.dispatcher Scenario.freshFrame
          Scenario.tenBytes 100 100 2 ⟨0⟩ ⟨3⟩
        = sendMultiFrame Scenario.globals Scenario.sender Scenario.dispatcher.addTxTransfer
            (setupFrame Scenario.sender Scenario.dispatcher Scenario.freshFrame 2 ⟨0⟩ ⟨3⟩)
            Scenario.tenBytes 100 100 ⟨3⟩) ∧
    ∃ r o0 steps,
      sendMultiFrameTraced Scenario.globals Scenario.sender Scenario.dispatcher.addTxTransfer
        (setupFrame Scenario.sender Scenario.dispatcher Scenario.freshFrame 2 ⟨0⟩ ⟨3⟩)
        Scenario.tenBytes 100 100 ⟨3⟩ = some (r, ⟨some o0, steps⟩) ∧
      sendMultiFrame Scenario.globals Scenario.sender Scenario.dispatcher.addTxTransfer
        (setupFrame Scenario.sender Scenario.dispatcher Scenario.freshFrame 2 ⟨0⟩ ⟨3⟩)
        Scenario.tenBytes 100 100 ⟨3⟩ = some r ∧
      0 ≤ o0 ∧ o0 < toInt Scenario.tenBytes.length ∧
      ∀ st ∈ steps, 0 ≤ st.offset_before ∧ st.offset_before ≤ (Scenario.tenBytes.length : Int) ∧
        (st.requested : Int) = (Scenario.tenBytes.length : Int) - st.offset_before ∧
        st.offset_before + (st.written : Int) ≤ (Scenario.tenBytes.length : Int) ∧
        st.offset_after = st.offset_before + (st.written : Int) ∧
        st.offset_after ≤ toInt Scenario.tenBytes.length) ∧
    (sendMultiFrameTraced Scenario.globals Scenario.sender Scenario.dispatcher.addTxTransfer
        (setupFrame Scenario.sender Scenario.dispatcher Scenario.freshFrame 2 ⟨0⟩ ⟨3⟩)
        Scenario.tenBytes 100 100 ⟨3⟩).map (fun r => r.2)
      = some ⟨some 6, [⟨6, 4, 4, 10⟩]⟩ ∧
    (sendMultiFrameTraced Scenario.globals Scenario.sender Scenario.dispatcher.addTxTransfer
        (setupFrame Scenario.sender Scenario.dispatcher Scenario.otherTypeFrame 2 ⟨0⟩ ⟨3⟩)
        (List.range 30) 100 100 ⟨3⟩).map (fun r => r.2)
      = some ⟨some 8, [⟨8, 22, 8, 16⟩, ⟨16, 14, 8, 24⟩, ⟨24, 6, 6, 30⟩]⟩ ∧
    (send Scenario.globals Scenario.sender Scenario.passiveDispatcher Scenario.freshFrame
        Scenario.tenBytes 100 100 2 ⟨0⟩ ⟨3⟩).map
      (fun r => (r.res, r.dispatcher.sent_.length)) = some (-11, 0) :=
  ⟨⟨by decide, by decide⟩,
    C22_multi_frame_loop_terminates_within_bounds Scenario.globals Scenario.sender
      Scenario.dispatcher Scenario.freshFrame Scenario.tenBytes 100 100 2 ⟨0⟩ ⟨3⟩
      (by decide) (by decide),
    by decide, by decide, by decide⟩

/-- C23, at the failing inputs.  "hello!." sent on a frame whose toggle bit is set goes out as
one frame with the toggle bit set, on the frame with the flags clear as one frame with the
toggle bit clear.  The ten bytes 0x01..0x0A sent on a frame whose end flag is set go out as one
frame, `send` returning 1, on the frame with the flags clear as two frames, `send` returning 2.
The frames of each pair differ in that one flag only. -/
theorem C23_stale_flags_change_the_transfer :
    Scenario.staleToggleFrame = { Scenario.freshFrame with toggle_ := true } ∧
    Scenario.staleEndFrame = { Scenario.freshFrame with end_of_transfer_ := true } ∧
    (send Scenario.globals Scenario.sender Scenario.dispatcher Scenario.freshFrame
        Scenario.hello 100 100 TransferTypeMessageBroadcast ⟨0⟩ ⟨3⟩).map
      (fun r => (r.res, r.dispatcher.sent_.map (fun c => (c.frame.payload_,
        c.frame.start_of_transfer_, c.frame.end_of_transfer_, c.frame.toggle_))))
      = some (1, [([0x68, 0x65, 0x6C, 0x6C, 0x6F, 0x21, 0x2E], true, true, false)]) ∧
    (send Scenario.globals Scenario.sender Scenario.dispatcher Scenario.staleToggleFrame
        Scenario.hello 100 100 TransferTypeMessageBroadcast ⟨0⟩ ⟨3⟩).map
      (fun r => (r.res, r.dispatcher.sent_.map (fun c => (c.frame.payload_,
        c.frame.start_of_transfer_, c.frame.end_of_transfer_, c.frame.toggle_))))
      = some (1, [([0x68, 0x65, 0x6C, 0x6C, 0x6F, 0x21, 0x2E], true, true, true)]) ∧
    (send Scenario.globals Scenario.sender29B1 Scenario.dispatcher Scenario.freshFrame
        Scenario.tenBytes 100 100 TransferTypeMessageBroadcast ⟨0⟩ ⟨3⟩).map
      (fun r => (r.res, r.dispatcher.sent_.map (fun c => (c.frame.payload_,
        c.frame.start_of_transfer_, c.frame.end_of_transfer_, c.frame.toggle_))))
      = some (2, [([0xB1, 0x29, 1, 2, 3, 4, 5, 6], true, false, false),
          ([7, 8, 9, 10], false, true, true)]) ∧
    (send Scenario.globals Scenario.sender29B1 Scenario.dispatcher Scenario.staleEndFrame
        Scenario.tenBytes 100 100 TransferTypeMessageBroadcast ⟨0⟩ ⟨3⟩).map
      (fun r => (r.res, r.dispatcher.sent_.map (fun c => (c.frame.payload_,
        c.frame.start_of_transfer_, c.frame.end_of_transfer_, c.frame.toggle_))))
      = some (1, [([0xB1, 0x29, 1, 2, 3, 4, 5, 6], true, true, false)]) := by
  refine ⟨rfl, rfl, by decide, by decide, by decide, by decide⟩

end uavcan

/-! ## Claim on the bounds of the log traversal -/

namespace uavcan

/-- The loop entered with a non-negative `index` at most the max index of an 8-bit log: it
returns, the assertion is not violated, and the indices read are `index - 1`, `index - 2`, ...,
in this order. -/
theorem RaftCore.traverseLoop_run (log : Log) (predicate : Entry → Bool)
    (hM : log.max_index_ < 256) :
    ∀ (fuel m : Nat) (visited : List Nat), m ≤ log.max_index_ → m + 1 ≤ fuel →
      ∃ tr k, RaftCore.traverseLoop log predicate fuel (m : Int) visited = some tr ∧
        tr.outcome ≠ TraverseOutcome.assertionViolated ∧ k ≤ m ∧
        tr.visited = visited ++ (List.range k).map (fun j => m - 1 - j) := by
  intro fuel
  induction fuel with
  | zero => intro m visited _ hf; omega
  | succ fuel ih =>
    intro m visited hm hf
    cases m with
    | zero =>
      refine ⟨⟨TraverseOutcome.null, visited⟩, 0, ?_, by simp, le_refl _, by simp⟩
      simp [RaftCore.traverseLoop]
    | succ m =>
      have hne : ((m + 1 : Nat) : Int) ≠ 0 := by omega
      have hi : ((m : Int) % 256).toNat = m := by omega
      have hsub : ((m + 1 : Nat) : Int) - 1 = (m : Int) := by omega
      have hget : log.getEntryAtIndex m = some (log.entries_ m) := by
        unfold Log.getEntryAtIndex
        rw [if_pos (by omega)]
      rw [RaftCore.traverseLoop]
      simp only [hne, ne_eq, not_false_eq_true, if_true, hsub, hi, hget]
      by_cases hp : predicate (log.entries_ m) = true
      · refine ⟨⟨TraverseOutcome.entry m (log.entries_ m), visited ++ [m]⟩, 1, ?_, by simp,
          by omega, by simp [List.range_succ]⟩
        simp [hp]
      · obtain ⟨tr, k, h1, h2, h3, h4⟩ := ih m (visited ++ [m]) (by omega) (by omega)
        refine ⟨tr, k + 1, ?_, h2, by omega, ?_⟩
        · simp only [hp, Bool.false_eq_true, if_false]
          exact h1
        · rw [h4, List.range_succ_eq_map, List.map_cons, List.map_map, List.append_assoc]
          congr 1
          simp only [List.singleton_append, List.cons.injEq]
          refine ⟨by omega, ?_⟩
          apply List.map_congr_left
          intro j _
          simp only [Function.comp]
          omega

/-- C24: for every log with max index `M` in 0..255 and every predicate,
`traverseLogFromEndUntil` returns; it calls `getEntryAtIndex` for the indices `M - 1`, `M - 2`,
... in this order, at most `M` of them (so it evaluates the predicate at most `M + 1` times),
every index lies in `[0, M]` and is that of an entry of the log, and the assertion
`entry != NULL` is not violated. -/
theorem C24_traversal_terminates_within_bounds (log : Log) (predicate : Entry → Bool)
    (hM : log.getMaxIndex ≤ 255) :
    ∃ tr, RaftCore.traverseLogFromEndUntil log predicate = some tr ∧
      tr.outcome ≠ TraverseOutcome.assertionViolated ∧
      tr.visited.length ≤ log.getMaxIndex + 1 ∧
      tr.visited = (List.range tr.visited.length).map (fun j => log.getMaxIndex - 1 - j) ∧
      tr.visited.length ≤ log.getMaxIndex ∧
      ∀ i ∈ tr.visited, i ≤ log.getMaxIndex ∧ log.getEntryAtIndex i ≠ none := by
  have hM2 : log.max_index_ < 256 := Nat.lt_succ_of_le hM
  obtain ⟨tr, k, h1, h2, h3, h4⟩ := RaftCore.traverseLoop_run log predicate hM2
    (log.max_index_ + 1) log.max_index_ [] (le_refl _) (le_refl _)
  have hlen : tr.visited.length = k := by rw [h4]; simp
  refine ⟨tr, h1, h2, ?_, ?_, ?_, ?_⟩
  · rw [hlen]; show k ≤ log.max_index_ + 1; omega
  · rw [hlen, h4]; rfl
  · rw [hlen]; exact h3
  · intro i hi
    rw [h4] at hi
    simp only [List.nil_append, List.mem_map, List.mem_range] at hi
    obtain ⟨j, hj, rfl⟩ := hi
    have hle : log.max_index_ - 1 - j ≤ log.max_index_ := by omega
    refine ⟨hle, ?_⟩
    unfold Log.getEntryAtIndex
    rw [if_pos hle]
    simp

/-- C24 on the log with the entries 1, 2, 3 and a predicate no entry satisfies: the indices 2,
1, 0 are read and `NULL` is returned. -/
theorem C24_traversal_terminates_within_bounds_witness :
    Scenario.logThreeEntries.getMaxIndex ≤ 255 ∧
    (∃ tr, RaftCore.traverseLogFromEndUntil Scenario.logThreeEntries (fun _ => false) = some tr ∧
      tr.outcome ≠ TraverseOutcome.assertionViolated ∧
      tr.visited.length ≤ Scenario.logThreeEntries.getMaxIndex + 1 ∧
      tr.visited = (List.range tr.visited.length).map
        (fun j => Scenario.logThreeEntries.getMaxIndex - 1 - j) ∧
      tr.visited.length ≤ Scenario.logThreeEntries.getMaxIndex ∧
      ∀ i ∈ tr.visited, i ≤ Scenario.logThreeEntries.getMaxIndex ∧
        Scenario.logThreeEntries.getEntryAtIndex i ≠ none) ∧
    RaftCore.traverseLogFromEndUntil Scenario.logThreeEntries (fun _ => false)
      = some ⟨TraverseOutcome.null, [2, 1, 0]⟩ :=
  ⟨by decide, C24_traversal_terminates_within_bounds Scenario.logThreeEntries (fun _ => false)
    (by decide), by decide⟩

end uavcan

/-! ## Claims on the CRC-16 table and the TransferID counter -/

namespace uavcan

/-- C25: with `Table[i]`, for every `i` in 0..255, the state the bit-serial `add` produces from
state 0 and byte `i`, the table-driven `TransferCRC::add` computes for every 16-bit state and
every byte the same new state as the bit-serial `TransferCRC::add`, a 16-bit state again. -/
theorem C25_table_driven_equals_bit_serial (c : TransferCRC) (byte : Nat)
    (hc : c.value_ < 65536) (_hb : byte < 256) :
    TransferCRC.Table byte = ((⟨0⟩ : TransferCRC).addTiny byte).value_ ∧
    c.add byte = c.addTiny byte ∧ (c.add byte).value_ < 65536 := by
  refine ⟨?_, TransferCRC.add_eq_addTiny c byte hc, TransferCRC.add_lt c byte⟩
  simp [TransferCRC.Table, TransferCRC.addTiny]

/-- C25 at the state 0xFFFF and the byte 0x31; the table entry of the byte is 0x2672. -/
theorem C25_table_driven_equals_bit_serial_witness :
    ((⟨0xFFFF⟩ : TransferCRC).value_ < 65536 ∧ 0x31 < 256) ∧
    (TransferCRC.Table 0x31 = ((⟨0⟩ : TransferCRC).addTiny 0x31).value_ ∧
      (⟨0xFFFF⟩ : TransferCRC).add 0x31 = (⟨0xFFFF⟩ : TransferCRC).addTiny 0x31 ∧
      ((⟨0xFFFF⟩ : TransferCRC).add 0x31).value_ < 65536) ∧
    TransferCRC.Table 0x31 = 0x2672 ∧ TransferCRC.Table 1 = 0x1021 :=
  ⟨⟨by decide, by decide⟩,
    C25_table_driven_equals_bit_serial ⟨0xFFFF⟩ 0x31 (by decide) (by decide), by decide, by decide⟩

/-- With `Max = 2^len - 1`, `increment()` maps `v` to `(v + 1) mod 2^len`. -/
theorem TransferID.increment_get (s : TransferIDStatics) (len : Nat) (hlen : len ≤ 8)
    (hM : s.Max = 2 ^ len - 1) (t : TransferID) :
    (t.increment s).get = (t.get + 1) % 2 ^ len := by
  have hpos : 0 < 2 ^ len := by positivity
  have h256 : 2 ^ len ≤ 256 := by
    calc 2 ^ len ≤ 2 ^ 8 := Nat.pow_le_pow_right (by norm_num) hlen
      _ = 256 := by norm_num
  show ((t.value_ + 1) &&& s.Max) % 256 = (t.value_ + 1) % 2 ^ len
  rw [hM, Nat.and_pow_two_sub_one_eq_mod]
  exact Nat.mod_eq_of_lt (lt_of_lt_of_le (Nat.mod_lt _ hpos) h256)

/-- With `Max = 2^len - 1`, the constructor leaves a value within `Max`. -/
theorem TransferID.ofValue_le (s : TransferIDStatics) (len : Nat)
    (hM : s.Max = 2 ^ len - 1) (value : Nat) :
    (TransferID.ofValue s value).get ≤ s.Max := by
  have hpos : 0 < 2 ^ len := by positivity
  show (value % 256) &&& s.Max ≤ s.Max
  rw [hM, Nat.and_pow_two_sub_one_eq_mod]
  have := Nat.mod_lt (value % 256) hpos
  omega

end uavcan

/-! ## Claim on frames of another type -/

namespace uavcan

open TransferSender

/-- C27: a payload longer than the payload capacity (of a length an `int` holds), sent on a frame
with `getFrameType() != 0` whose end flag is clear by a non-passive node whose dispatcher accepts
every frame: the first dispatched frame holds the first 8 payload bytes and no CRC bytes, and the
payloads of the dispatched frames, concatenated in dispatch order, are exactly the payload. -/
theorem C27_no_crc_bytes_for_other_types (g : Globals) (s : TransferSender) (d : Dispatcher)
    (frame : Frame) (payload : List Nat) (txd bd tt : Nat) (dst : NodeID) (tid : TransferID)
    (hlen : Frame.PayloadCapacity < payload.length) (hL : payload.length < 2 ^ 31)
    (htype : frame.getFrameType ≠ 0) (hend : frame.end_of_transfer_ = false)
    (hp : d.passive_mode_ = false) (hok : ∀ k c, 0 ≤ d.send_result_ k c) :
    ∃ r first rest, send g s d frame payload txd bd tt dst tid = some r ∧
      r.dispatcher.sent_ = d.sent_ ++ first :: rest ∧
      first.frame.payload_ = payload.take 8 ∧
      ((first :: rest).map (fun c => c.frame.payload_)).flatten = payload := by
  have hlen' : 8 < payload.length := hlen
  have htype' : frame.type_ ≠ 0 := by
    intro h
    apply htype
    show (frame.type_ : Int) = 0
    rw [h]; rfl
  rw [send_allowed g s d frame payload txd bd tt dst tid (Or.inl hp),
    if_neg (by omega), sendMultiFrame_other g s _ _ payload txd bd tid hlen' hL
      (by rw [(setupFrame_fields s d frame tt dst tid).2.2.2.1]; exact htype')]
  obtain ⟨frames, r, hfr, hrun, -, hdisp, -⟩ :=
    sendLoop_run g s payload txd bd hL (payload.length + 2) d.addTxTransfer
      ((setupFrame s d frame tt dst tid).setPayload payload payload.length).1
      (if (setupFrame s d frame tt dst tid).isTransferIdAutoInc then
        (setupFrame s d frame tt dst tid).getBaseAutoTransferID else tid) 8 0 hok (by omega)
      (by split <;> omega)
  have hj := hfr.payload_join (by
    have h8 : ¬ payload.length ≤ 8 := by omega
    rw [(setPayload_fields _ _ _).2.2.2.1, (setupFrame_fields s d frame tt dst tid).2.1, hend]
    simp [h8])
  have h8 : min payload.length 8 = 8 := by omega
  have hpay : ((setupFrame s d frame tt dst tid).setPayload payload payload.length).1.payload_
      = payload.take 8 := by
    rw [(setPayload_fields _ _ _).1, h8]
  obtain ⟨rest, hhead⟩ := hfr.head
  have hmap : (frames.map (loopCall s txd bd)).map (fun c => c.frame.payload_)
      = frames.map (fun x => x.payload_) := by
    rw [List.map_map]; rfl
  rw [hpay, List.take_append_drop] at hj
  rw [hhead] at hdisp hmap
  refine ⟨r, _, _, hrun, by rw [hdisp]; rfl, hpay, ?_⟩
  rw [← List.map_cons, hmap, ← hhead]
  exact hj

/-- C27, at an instance: the ten bytes 0x01..0x0A on a frame of type 1 go out as the frames
`01 02 03 04 05 06 07 08` and `09 0A`. -/
theorem C27_no_crc_bytes_for_other_types_witness :
    (Frame.PayloadCapacity < Scenario.tenBytes.length ∧ Scenario.tenBytes.length < 2 ^ 31 ∧
      Scenario.otherTypeFrame.getFrameType ≠ 0 ∧
      Scenario.otherTypeFrame.end_of_transfer_ = false ∧
      Scenario.dispatcher.passive_mode_ = false ∧
      ∀ k c, 0 ≤ Scenario.dispatcher.send_result_ k c) ∧
    (∃ r first rest, send Scenario.globals Scenario.sender Scenario.dispatcher
        Scenario.otherTypeFrame Scenario.tenBytes 100 100 2 ⟨0⟩ ⟨3⟩ = some r ∧
      r.dispatcher.sent_ = Scenario.dispatcher.sent_ ++ first :: rest ∧
      first.frame.payload_ = Scenario.tenBytes.take 8 ∧
      ((first :: rest).map (fun c => c.frame.payload_)).flatten = Scenario.tenBytes) ∧
    (send Scenario.globals Scenario.sender Scenario.dispatcher
        Scenario.otherTypeFrame Scenario.tenBytes 100 100 2 ⟨0⟩ ⟨3⟩).map
      (fun r => r.dispatcher.sent_.map (fun c => c.frame.payload_))
      = some [[1, 2, 3, 4, 5, 6, 7, 8], [9, 10]] :=
  ⟨⟨by decide, by decide, by decide, rfl, rfl, fun _ _ => (by decide : (0 : Int) ≤ 1)⟩,
    C27_no_crc_bytes_for_other_types Scenario.globals Scenario.sender Scenario.dispatcher
      Scenario.otherTypeFrame Scenario.tenBytes 100 100 2 ⟨0⟩ ⟨3⟩
      (by decide) (by decide) (by decide) rfl rfl (fun _ _ => (by decide : (0 : Int) ≤ 1)),
    by decide⟩

end uavcan

/-! ## Claims on TransferPriority::fromPercent and the quorum size -/

namespace uavcan

/-- The value of `fromPercent` when `NumericallyMax` is an 8-bit value and `Percent <= 100`. -/
theorem TransferPriority.fromPercent_get (s : TransferPriorityStatics)
    (hM : s.NumericallyMax ≤ 255) (P : Nat) (hP : P ≤ 100) :
    (TransferPriority.fromPercent s P).get = (100 - P) * s.NumericallyMax / 100 ∧
    (100 - P) * s.NumericallyMax / 100 ≤ s.NumericallyMax := by
  have hu : usub 100 (P % 256) = 100 - P := by
    rw [Nat.mod_eq_of_lt (by omega), TransferSender.usub_of_le hP (by norm_num)]
  have hle : (100 - P) * s.NumericallyMax ≤ 100 * s.NumericallyMax :=
    Nat.mul_le_mul_right _ (by omega)
  show (((usub 100 (P % 256) * s.NumericallyMax) % 2 ^ 32) / 100) % 256 % 256
    = (100 - P) * s.NumericallyMax / 100 ∧ _
  rw [hu]
  generalize (100 - P) * s.NumericallyMax = x at hle ⊢
  omega

/-- The statics `setBitLen` leaves for a bit length up to 31. -/
theorem TransferPriority.setBitLen_statics {len : Nat} (h : len ≤ 31) :
    (TransferPriority.setBitLen len).BitLen = len ∧
    (TransferPriority.setBitLen len).NumericallyMax = 2 ^ (min len 8) - 1 ∧
    (TransferPriority.setBitLen len).NumericallyMin = 0 ∧
    (1 <<< (TransferPriority.setBitLen len).BitLen) % 2 ^ 32 = 2 ^ len := by
  interval_cases len <;> decide

/-- The properties of `fromPercent` on 0..100 for statics with an 8-bit `NumericallyMax` below
`1U << BitLen` and `NumericallyMin = 0`. -/
theorem TransferPriority.fromPercent_props (s : TransferPriorityStatics)
    (h255 : s.NumericallyMax ≤ 255) (hMin : s.NumericallyMin = 0)
    (hlt : s.NumericallyMax < (1 <<< s.BitLen) % 2 ^ 32)
    (Percent Percent1 Percent2 : Nat) (hP : Percent ≤ 100) (h12 : Percent1 ≤ Percent2)
    (h2 : Percent2 ≤ 100) :
    (TransferPriority.fromPercent s Percent).get = (100 - Percent) * s.NumericallyMax / 100 ∧
    s.NumericallyMin ≤ (TransferPriority.fromPercent s Percent).get ∧
    (TransferPriority.fromPercent s Percent).get ≤ s.NumericallyMax ∧
    (TransferPriority.fromPercent s Percent).isValid s = true ∧
    (TransferPriority.fromPercent s 0).get = s.NumericallyMax ∧
    (TransferPriority.fromPercent s 100).get = 0 ∧
    (TransferPriority.fromPercent s Percent2).get
      ≤ (TransferPriority.fromPercent s Percent1).get := by
  obtain ⟨e, b⟩ := TransferPriority.fromPercent_get s h255 Percent hP
  obtain ⟨e0, -⟩ := TransferPriority.fromPercent_get s h255 0 (by omega)
  obtain ⟨e100, -⟩ := TransferPriority.fromPercent_get s h255 100 (by omega)
  obtain ⟨e1, -⟩ := TransferPriority.fromPercent_get s h255 Percent1 (by omega)
  obtain ⟨e2, -⟩ := TransferPriority.fromPercent_get s h255 Percent2 h2
  have b2 : (TransferPriority.fromPercent s Percent).get ≤ s.NumericallyMax := by
    rw [e]; exact b
  refine ⟨e, by rw [hMin]; exact Nat.zero_le _, b2, ?_, ?_, ?_, ?_⟩
  · show decide ((TransferPriority.fromPercent s Percent).value_ < (1 <<< s.BitLen) % 2 ^ 32)
      = true
    rw [decide_eq_true_eq]
    exact lt_of_le_of_lt b2 hlt
  · rw [e0]
    omega
  · rw [e100]
    simp
  · rw [e1, e2]
    exact Nat.div_le_div_right (Nat.mul_le_mul_right _ (by omega))

/-- C28: for every bit length up to 31 set by `setBitLen` and every `Percent` in 0..100,
`fromPercent(Percent)` holds `((100 - Percent) * NumericallyMax) / 100` (nothing is cut off by the
8-bit result), a value in `[NumericallyMin, NumericallyMax]` for which `isValid()` holds;
`fromPercent(0)` is `NumericallyMax`, `fromPercent(100)` is 0, and `Percent1 <= Percent2`
implies `fromPercent(Percent1).get() >= fromPercent(Percent2).get()`. -/
theorem C28_fromPercent_valid_and_order_reversing (len : Nat) (hlen : len ≤ 31)
    (Percent Percent1 Percent2 : Nat) (hP : Percent ≤ 100) (h12 : Percent1 ≤ Percent2)
    (h2 : Percent2 ≤ 100) :
    (TransferPriority.fromPercent (TransferPriority.setBitLen len) Percent).get
      = (100 - Percent) * (TransferPriority.setBitLen len).NumericallyMax / 100 ∧
    (TransferPriority.setBitLen len).NumericallyMin
      ≤ (TransferPriority.fromPercent (TransferPriority.setBitLen len) Percent).get ∧
    (TransferPriority.fromPercent (TransferPriority.setBitLen len) Percent).get
      ≤ (TransferPriority.setBitLen len).NumericallyMax ∧
    (TransferPriority.fromPercent (TransferPriority.setBitLen len) Percent).isValid
      (TransferPriority.setBitLen len) = true ∧
    (TransferPriority.fromPercent (TransferPriority.setBitLen len) 0).get
      = (TransferPriority.setBitLen len).NumericallyMax ∧
    (TransferPriority.fromPercent (TransferPriority.setBitLen len) 100).get = 0 ∧
    (TransferPriority.fromPercent (TransferPriority.setBitLen len) Percent2).get
      ≤ (TransferPriority.fromPercent (TransferPriority.setBitLen len) Percent1).get := by
  obtain ⟨-, hMax, hMin, hpow⟩ := TransferPriority.setBitLen_statics hlen
  have hlt : (TransferPriority.setBitLen len).NumericallyMax
      < (1 <<< (TransferPriority.setBitLen len).BitLen) % 2 ^ 32 := by
    rw [hMax, hpow]
    have h1 : 2 ^ min len 8 ≤ 2 ^ len := Nat.pow_le_pow_right (by norm_num) (Nat.min_le_left _ _)
    have h2 : 0 < 2 ^ min len 8 := by positivity
    omega
  have h255 : (TransferPriority.setBitLen len).NumericallyMax ≤ 255 := by
    rw [hMax]
    have h1 : 2 ^ min len 8 ≤ 2 ^ 8 := Nat.pow_le_pow_right (by norm_num) (Nat.min_le_right _ _)
    omega
  exact TransferPriority.fromPercent_props (TransferPriority.setBitLen len) h255 hMin hlt
    Percent Percent1 Percent2 hP h12 h2

/-- C28 at the bit length 5: `fromPercent(50)` is 15, `fromPercent(0)` is 31, `fromPercent(100)`
is 0, and `fromPercent(75)` is 7, below `fromPercent(25)`, which is 23. -/
theorem C28_fromPercent_valid_and_order_reversing_witness :
    (5 ≤ 31 ∧ 50 ≤ 100 ∧ 25 ≤ 75 ∧ 75 ≤ 100) ∧
    (TransferPriority.fromPercent (TransferPriority.setBitLen 5) 50).get = 15 ∧
    (TransferPriority.fromPercent (TransferPriority.setBitLen 5) 25).get = 23 ∧
    (TransferPriority.fromPercent (TransferPriority.setBitLen 5) 75).get = 7 ∧
    (TransferPriority.fromPercent (TransferPriority.setBitLen 5) 75).get
      ≤ (TransferPriority.fromPercent (TransferPriority.setBitLen 5) 25).get ∧
    TransferPriority.setBitLen 5 = TransferPriority.defaultStatics :=
  ⟨⟨by decide, by decide, by decide, by decide⟩, by decide, by decide, by decide,
    (C28_fromPercent_valid_and_order_reversing 5 (by decide) 50 25 75 (by decide) (by decide)
      (by decide)).2.2.2.2.2.2, by decide⟩

end uavcan

namespace uavcan

/-- For an 8-bit cluster size the quorum size is `cluster_size_ / 2 + 1`. -/
theorem ClusterManager.getQuorumSize_eq (c : ClusterManager) (h : c.cluster_size_ < 256) :
    c.getQuorumSize = c.cluster_size_ / 2 + 1 := by
  show ((c.cluster_size_ / 2 + 1) % 2 ^ 32) % 256 = c.cluster_size_ / 2 + 1
  omega

/-- C29: for every 8-bit cluster size `n >= 1`, `q = getQuorumSize()` satisfies `1 <= q <= n` and
`2 * q > n`; any two sets of `q` servers out of the `n` share a server; and for every `q' < q`
there are two disjoint sets of `q'` servers out of the `n`. -/
theorem C29_quorums_intersect (c : ClusterManager) (h1 : 1 ≤ c.cluster_size_)
    (h256 : c.cluster_size_ < 256) :
    1 ≤ c.getQuorumSize ∧ c.getQuorumSize ≤ c.cluster_size_ ∧
    c.cluster_size_ < 2 * c.getQuorumSize ∧
    (∀ A B : Finset Nat, A ⊆ Finset.range c.cluster_size_ → B ⊆ Finset.range c.cluster_size_ →
      A.card = c.getQuorumSize → B.card = c.getQuorumSize → (A ∩ B).Nonempty) ∧
    (∀ q : Nat, q < c.getQuorumSize →
      ∃ A B : Finset Nat, A ⊆ Finset.range c.cluster_size_ ∧ B ⊆ Finset.range c.cluster_size_ ∧
        A.card = q ∧ B.card = q ∧ Disjoint A B) := by
  have hq := ClusterManager.getQuorumSize_eq c h256
  refine ⟨by omega, by omega, by omega, ?_, ?_⟩
  · intro A B hA hB cA cB
    have hU : (A ∪ B).card ≤ c.cluster_size_ := by
      have := Finset.card_le_card (Finset.union_subset hA hB)
      rwa [Finset.card_range] at this
    have hsum := Finset.card_union_add_card_inter A B
    rw [cA, cB] at hsum
    apply Finset.card_pos.mp
    omega
  · intro q hlt
    refine ⟨Finset.range q, Finset.Ico q (2 * q), ?_, ?_, Finset.card_range q, ?_, ?_⟩
    · intro x hx
      rw [Finset.mem_range] at hx ⊢
      omega
    · intro x hx
      rw [Finset.mem_Ico] at hx
      rw [Finset.mem_range]
      omega
    · rw [Nat.card_Ico]
      omega
    · rw [Finset.disjoint_left]
      intro x hx hx2
      rw [Finset.mem_range] at hx
      rw [Finset.mem_Ico] at hx2
      omega

/-- C29 at a cluster of 5 servers: the quorum size is 3, and the quorums {0, 1, 2} and
{2, 3, 4} share a server. -/
theorem C29_quorums_intersect_witness :
    (1 ≤ (⟨5, 0⟩ : ClusterManager).cluster_size_ ∧ (⟨5, 0⟩ : ClusterManager).cluster_size_ < 256) ∧
    (⟨5, 0⟩ : ClusterManager).getQuorumSize = 3 ∧
    (({0, 1, 2} : Finset Nat) ∩ {2, 3, 4}).Nonempty :=
  ⟨⟨by decide, by decide⟩, by decide,
    (C29_quorums_intersect ⟨5, 0⟩ (by decide) (by decide)).2.2.2.1 {0, 1, 2} {2, 3, 4}
      (by decide) (by decide) (by decide) (by decide)⟩

end uavcan

/-! ## Claims on transfer IDs, for every bit length -/

namespace uavcan

/-- The statics `setBitLen` leaves for a bit length up to 31: `Max` is `2^BitLen - 1` cut to the
eight bits of a `uint8_t`. -/
theorem TransferID.setBitLen_le_31 {len : Nat} (h : len ≤ 31) :
    (TransferID.setBitLen len).BitLen = len ∧
    (TransferID.setBitLen len).Max = 2 ^ (min len 8) - 1 := by
  interval_cases len <;> decide

/-- With `Max = 2^m - 1` for an `m` up to 8, `k` calls of `increment()` add `k` modulo `2^m`. -/
theorem TransferID.increment_iterate_of_Max (s : TransferIDStatics) (m : Nat) (hm : m ≤ 8)
    (hM : s.Max = 2 ^ m - 1) (t : TransferID) (ht : t.value_ ≤ s.Max) (k : Nat) :
    (TransferID.increment s)^[k] t = ⟨(t.value_ + k) % 2 ^ m⟩ := by
  rw [hM] at ht
  have hpos : 0 < 2 ^ m := by positivity
  have h256 : 2 ^ m ≤ 256 := by
    calc 2 ^ m ≤ 2 ^ 8 := Nat.pow_le_pow_right (by norm_num) hm
      _ = 256 := by norm_num
  induction k with
  | zero =>
    obtain ⟨v⟩ := t
    have hv : v ≤ 2 ^ m - 1 := ht
    show TransferID.mk v = TransferID.mk ((v + 0) % 2 ^ m)
    rw [Nat.add_zero, Nat.mod_eq_of_lt (by omega)]
  | succ k ih =>
    rw [Function.iterate_succ_apply', ih]
    show TransferID.mk ((((t.value_ + k) % 2 ^ m + 1) &&& s.Max) % 256)
      = TransferID.mk ((t.value_ + (k + 1)) % 2 ^ m)
    rw [hM, Nat.and_pow_two_sub_one_eq_mod]
    have h1 : ((t.value_ + k) % 2 ^ m + 1) % 2 ^ m = (t.value_ + (k + 1)) % 2 ^ m := by
      rw [← Nat.add_assoc, Nat.add_mod (t.value_ + k) 1, Nat.add_mod ((t.value_ + k) % 2 ^ m) 1,
        Nat.mod_mod]
    rw [h1]
    exact congrArg TransferID.mk
      (Nat.mod_eq_of_lt (lt_of_lt_of_le (Nat.mod_lt _ hpos) h256))

/-- With `BitLen = len` up to 30 and `Max = 2^m - 1` for an `m` up to 8 and up to `len`, the
forward distance from `a` to `b` is not negative, and that many `increment()` calls lead from
`a` to `b`. -/
theorem TransferID.forwardDistance_reaches (s : TransferIDStatics) (len m : Nat)
    (hB : s.BitLen = len) (hlen : len ≤ 30) (hm : m ≤ 8) (hml : m ≤ len)
    (hM : s.Max = 2 ^ m - 1) (a b : TransferID) (ha : a.value_ ≤ s.Max)
    (hb : b.value_ ≤ s.Max) :
    0 ≤ TransferID.computeForwardDistance s a b ∧
    (TransferID.increment s)^[(TransferID.computeForwardDistance s a b).toNat] a = b := by
  have hit := TransferID.increment_iterate_of_Max s m hm hM a ha
  rw [hM] at ha hb
  have hpos : 0 < 2 ^ m := by positivity
  have h31 : (2 : Nat) ^ len < 2 ^ 31 := Nat.pow_lt_pow_right (by norm_num) (by omega)
  have hPQ : 2 ^ len = 2 ^ m * 2 ^ (len - m) := by
    rw [← pow_add, Nat.add_sub_cancel' hml]
  have hd : TransferID.computeForwardDistance s a b
      = if (b.value_ : Int) - (a.value_ : Int) < 0 then
          (b.value_ : Int) - (a.value_ : Int) + ((2 ^ len : Nat) : Int)
        else (b.value_ : Int) - (a.value_ : Int) := by
    show (if (b.value_ : Int) - (a.value_ : Int) < 0 then
        (b.value_ : Int) - (a.value_ : Int) + toInt (1 <<< s.BitLen)
      else (b.value_ : Int) - (a.value_ : Int)) = _
    rw [hB, Nat.shiftLeft_eq, one_mul, toInt_of_lt h31]
  have hQP : 2 ^ m ≤ 2 ^ len := Nat.pow_le_pow_right (by norm_num) hml
  rw [hd]
  obtain ⟨bv⟩ := b
  have hbv : bv ≤ 2 ^ m - 1 := hb
  show 0 ≤ (if (bv : Int) - (a.value_ : Int) < 0 then
        (bv : Int) - (a.value_ : Int) + ((2 ^ len : Nat) : Int)
      else (bv : Int) - (a.value_ : Int)) ∧
    (TransferID.increment s)^[(if (bv : Int) - (a.value_ : Int) < 0 then
        (bv : Int) - (a.value_ : Int) + ((2 ^ len : Nat) : Int)
      else (bv : Int) - (a.value_ : Int)).toNat] a = TransferID.mk bv
  by_cases hlt : (bv : Int) - (a.value_ : Int) < 0
  · rw [if_pos hlt]
    have e : ((bv : Int) - (a.value_ : Int) + ((2 ^ len : Nat) : Int)).toNat
        = bv + 2 ^ len - a.value_ := by omega
    refine ⟨by omega, ?_⟩
    rw [e, hit]
    apply congrArg TransferID.mk
    have e2 : a.value_ + (bv + 2 ^ len - a.value_) = bv + 2 ^ m * 2 ^ (len - m) := by
      rw [← hPQ]; omega
    rw [e2, Nat.add_mul_mod_self_left]
    exact Nat.mod_eq_of_lt (by omega)
  · rw [if_neg hlt]
    have e : ((bv : Int) - (a.value_ : Int)).toNat = bv - a.value_ := by omega
    refine ⟨by omega, ?_⟩
    rw [e, hit]
    apply congrArg TransferID.mk
    have e2 : a.value_ + (bv - a.value_) = bv := by omega
    rw [e2]
    exact Nat.mod_eq_of_lt (by omega)

/-- C15, refuted as stated: with the statics of `setBitLen(9)` (`BitLen = 9`, `Max = 255`) the
forward distance from 5 to 3 is 510, but 254 `increment()` calls already lead from 5 to 3: a
smaller number of calls than the distance does yield `b`. -/
theorem C15_counterexample :
    (TransferID.setBitLen 9).BitLen = 9 ∧ (TransferID.setBitLen 9).Max = 255 ∧
    TransferID.computeForwardDistance (TransferID.setBitLen 9) ⟨5⟩ ⟨3⟩ = 510 ∧
    (TransferID.increment (TransferID.setBitLen 9))^[254] ⟨5⟩ = ⟨3⟩ ∧
    ¬ (∀ m, m < (TransferID.computeForwardDistance (TransferID.setBitLen 9) ⟨5⟩ ⟨3⟩).toNat →
      (TransferID.increment (TransferID.setBitLen 9))^[m] ⟨5⟩ ≠ ⟨3⟩) := by
  refine ⟨by decide, by decide, by decide, by decide, ?_⟩
  intro h
  exact h 254 (by decide) (by decide)

/-- C15, amended: for every bit length up to 30 set by `setBitLen` and all `TransferID`s `a`, `b`
within `Max`, applying `increment()` `a.computeForwardDistance(b)` times to `a` yields `b`; and
when the bit length is at most 8 (so that `Max = 2^BitLen - 1`), no smaller number of
`increment()` calls does. -/
theorem C15_forward_distance_counts_increments (len : Nat) (hlen : len ≤ 30) (a b : TransferID)
    (ha : a.value_ ≤ (TransferID.setBitLen len).Max)
    (hb : b.value_ ≤ (TransferID.setBitLen len).Max) :
    0 ≤ TransferID.computeForwardDistance (TransferID.setBitLen len) a b ∧
    (TransferID.increment (TransferID.setBitLen len))^[
      (TransferID.computeForwardDistance (TransferID.setBitLen len) a b).toNat] a = b ∧
    (len ≤ 8 →
      ∀ m, m < (TransferID.computeForwardDistance (TransferID.setBitLen len) a b).toNat →
        (TransferID.increment (TransferID.setBitLen len))^[m] a ≠ b) := by
  obtain ⟨hB, hM⟩ := TransferID.setBitLen_le_31 (by omega : len ≤ 31)
  obtain ⟨h1, h2⟩ := TransferID.forwardDistance_reaches (TransferID.setBitLen len) len
    (min len 8) hB hlen (Nat.min_le_right _ _) (Nat.min_le_left _ _) hM a b ha hb
  exact ⟨h1, h2, fun h8 => (TransferID.forwardDistance_least_of_le_8 len h8 a b ha hb).2.2⟩

/-- C15, amended, at instances: with the default bit length 5, four increments lead from 30 to
2, and fewer do not; with the bit length 9, the 510 increments of the distance lead from 5 to
3. -/
theorem C15_forward_distance_counts_increments_witness :
    ((5 : Nat) ≤ 30 ∧ (⟨30⟩ : TransferID).value_ ≤ (TransferID.setBitLen 5).Max ∧
      (⟨2⟩ : TransferID).value_ ≤ (TransferID.setBitLen 5).Max ∧ (5 : Nat) ≤ 8) ∧
    (TransferID.computeForwardDistance (TransferID.setBitLen 5) ⟨30⟩ ⟨2⟩).toNat = 4 ∧
    (0 ≤ TransferID.computeForwardDistance (TransferID.setBitLen 5) ⟨30⟩ ⟨2⟩ ∧
    (TransferID.increment (TransferID.setBitLen 5))^[
      (TransferID.computeForwardDistance (TransferID.setBitLen 5) ⟨30⟩ ⟨2⟩).toNat] ⟨30⟩ = ⟨2⟩ ∧
    ((5 : Nat) ≤ 8 →
      ∀ m, m < (TransferID.computeForwardDistance (TransferID.setBitLen 5) ⟨30⟩ ⟨2⟩).toNat →
        (TransferID.increment (TransferID.setBitLen 5))^[m] ⟨30⟩ ≠ ⟨2⟩)) ∧
    (TransferID.increment (TransferID.setBitLen 9))^[
      (TransferID.computeForwardDistance (TransferID.setBitLen 9) ⟨5⟩ ⟨3⟩).toNat] ⟨5⟩ = ⟨3⟩ :=
  ⟨⟨by decide, by decide, by decide, by decide⟩, by decide,
    C15_forward_distance_counts_increments 5 (by decide) ⟨30⟩ ⟨2⟩ (by decide) (by decide),
    by decide⟩

/-- C26, refuted as stated: `setBitLen(9)` leaves `BitLen = 9` and `Max = 255`, not
`2^9 - 1 = 511`; the constructor accepts 255, and `increment()` maps it to 0, not to
`(255 + 1) mod 2^9 = 256`. -/
theorem C26_counterexample :
    (TransferID.setBitLen 9).BitLen = 9 ∧ (TransferID.setBitLen 9).Max = 255 ∧
    (TransferID.setBitLen 9).Max ≠ 2 ^ 9 - 1 ∧
    (TransferID.ofValue (TransferID.setBitLen 9) 255).get = 255 ∧
    ((TransferID.ofValue (TransferID.setBitLen 9) 255).increment (TransferID.setBitLen 9)).get
      = 0 ∧
    ((TransferID.ofValue (TransferID.setBitLen 9) 255).increment (TransferID.setBitLen 9)).get
      ≠ ((TransferID.ofValue (TransferID.setBitLen 9) 255).get + 1) % 2 ^ 9 := by
  refine ⟨by decide, by decide, by decide, by decide, by decide, by decide⟩

/-- C26, amended: for every bit length up to 31 set by `setBitLen`, `Max = 2^min(BitLen, 8) - 1`
(which is `2^BitLen - 1` when the bit length is at most 8); a `TransferID` built by the
constructor, and the one `increment()` produces from any `TransferID`, hold a value within `Max`
(the condition of the assertion in `get()`); `increment()` maps `v` to
`(v + 1) mod 2^min(BitLen, 8)`; and `2^min(BitLen, 8)` successive `increment()` calls, as well
as `2^BitLen` of them, return a `TransferID` within `Max` to its original value. -/
theorem C26_transfer_id_modular_counter (len : Nat) (hlen : len ≤ 31) (value : Nat)
    (t : TransferID) :
    (TransferID.setBitLen len).BitLen = len ∧
    (TransferID.setBitLen len).Max = 2 ^ (min len 8) - 1 ∧
    (len ≤ 8 → (TransferID.setBitLen len).Max = 2 ^ len - 1) ∧
    (TransferID.ofValue (TransferID.setBitLen len) value).get ≤ (TransferID.setBitLen len).Max ∧
    (t.increment (TransferID.setBitLen len)).get ≤ (TransferID.setBitLen len).Max ∧
    (t.increment (TransferID.setBitLen len)).get = (t.get + 1) % 2 ^ (min len 8) ∧
    (t.get ≤ (TransferID.setBitLen len).Max →
      (TransferID.increment (TransferID.setBitLen len))^[2 ^ (min len 8)] t = t ∧
      (TransferID.increment (TransferID.setBitLen len))^[2 ^ len] t = t) := by
  obtain ⟨hB, hM⟩ := TransferID.setBitLen_le_31 hlen
  have hm8 : min len 8 ≤ 8 := Nat.min_le_right _ _
  have hpos : 0 < 2 ^ (min len 8) := by positivity
  have hinc := TransferID.increment_get (TransferID.setBitLen len) (min len 8) hm8 hM t
  refine ⟨hB, hM, ?_, TransferID.ofValue_le _ (min len 8) hM value, ?_, hinc, ?_⟩
  · intro h8
    rw [hM, Nat.min_eq_left h8]
  · rw [hinc, hM]
    have := Nat.mod_lt (t.get + 1) hpos
    omega
  · intro ht
    have hit := TransferID.increment_iterate_of_Max (TransferID.setBitLen len) (min len 8) hm8
      hM t ht
    have hPQ : 2 ^ len = 2 ^ (min len 8) * 2 ^ (len - min len 8) := by
      rw [← pow_add, Nat.add_sub_cancel' (Nat.min_le_left len 8)]
    rw [hM] at ht
    clear hinc
    obtain ⟨v⟩ := t
    have hv : v ≤ 2 ^ (min len 8) - 1 := ht
    clear ht
    have hmod : v % 2 ^ (min len 8) = v := Nat.mod_eq_of_lt (by omega)
    constructor
    · rw [hit]
      show TransferID.mk ((v + 2 ^ (min len 8)) % 2 ^ (min len 8)) = TransferID.mk v
      rw [Nat.add_mod_right, hmod]
    · rw [hit]
      show TransferID.mk ((v + 2 ^ len) % 2 ^ (min len 8)) = TransferID.mk v
      rw [hPQ, Nat.add_mul_mod_self_left, hmod]

/-- C26, amended, at instances: at the bit length 5 the constructor maps 200 to 8, `increment()`
maps 31 to 0, and 32 calls of `increment()` return 17 to 17; at the bit length 9, 256 calls and
512 calls of `increment()` return 200 to 200. -/
theorem C26_transfer_id_modular_counter_witness :
    (5 ≤ 31 ∧ (⟨17⟩ : TransferID).get ≤ (TransferID.setBitLen 5).Max ∧
      9 ≤ 31 ∧ (⟨200⟩ : TransferID).get ≤ (TransferID.setBitLen 9).Max) ∧
    (TransferID.setBitLen 5).Max = 31 ∧
    (TransferID.ofValue (TransferID.setBitLen 5) 200).get = 8 ∧
    ((⟨31⟩ : TransferID).increment (TransferID.setBitLen 5)).get = 0 ∧
    ((TransferID.increment (TransferID.setBitLen 5))^[2 ^ (min 5 8)] ⟨17⟩ = ⟨17⟩ ∧
      (TransferID.increment (TransferID.setBitLen 5))^[2 ^ 5] ⟨17⟩ = ⟨17⟩) ∧
    ((TransferID.increment (TransferID.setBitLen 9))^[2 ^ (min 9 8)] ⟨200⟩ = ⟨200⟩ ∧
      (TransferID.increment (TransferID.setBitLen 9))^[2 ^ 9] ⟨200⟩ = ⟨200⟩) :=
  ⟨⟨by decide, by decide, by decide, by decide⟩, by decide, by decide, by decide,
    (C26_transfer_id_modular_counter 5 (by decide) 200 ⟨17⟩).2.2.2.2.2.2 (by decide),
    (C26_transfer_id_modular_counter 9 (by decide) 200 ⟨200⟩).2.2.2.2.2.2 (by decide)⟩

end uavcan

namespace uavcan
namespace TransferSender

end TransferSender
end uavcan

namespace uavcan

open TransferSender

/-- C12, refuted as stated: with the statics of `setBitLen(9)` (`BitLen = 9`, `Max = 255`),
thirty bytes on a frame with the auto-increment flag and base 255 go out with the transfer IDs
255, 0, 1, 2, not with `(255 + k) mod 2^9`, which is 255, 256, 257, 258. -/
theorem C12_counterexample :
    Scenario.globals9.transferID.BitLen = 9 ∧ Scenario.globals9.transferID.Max = 255 ∧
    (send Scenario.globals9 Scenario.sender Scenario.dispatcher
        ((Frame.ctor 42 1 ⟨10⟩ ⟨20⟩ ⟨3⟩).setTransferIdAutoInc 1 ⟨255⟩) (List.range 30) 100 100 1
        ⟨20⟩ ⟨3⟩).map (fun r => r.dispatcher.sent_.map (fun c => c.frame.transfer_id_.value_))
      = some [255, 0, 1, 2] ∧
    (List.range 4).map (fun k => (255 + k) % 2 ^ 9) = [255, 256, 257, 258] ∧
    (send Scenario.globals9 Scenario.sender Scenario.dispatcher
        ((Frame.ctor 42 1 ⟨10⟩ ⟨20⟩ ⟨3⟩).setTransferIdAutoInc 1 ⟨255⟩) (List.range 30) 100 100 1
        ⟨20⟩ ⟨3⟩).map (fun r => r.dispatcher.sent_.map (fun c => c.frame.transfer_id_.value_))
      ≠ some ((List.range 4).map (fun k => (255 + k) % 2 ^ 9)) := by
  refine ⟨by decide, by decide, by decide, by decide, by decide⟩

/-- C12, amended: in a multi-frame transfer, for every bit length up to 31 set by `setBitLen`,
when the frame carries the auto-increment flag with recorded base `B` (within `Max`), the `k`-th
dispatched frame (0-based) carries the transfer ID `(B + k) mod 2^min(BitLen, 8)`, which is
`(B + k) mod 2^BitLen` when the bit length is at most 8; when the flag is not set, every
dispatched frame carries `tid`.  The payload length is one an `int` holds. -/
theorem C12_auto_increment_tid (g : Globals) (s : TransferSender) (d : Dispatcher)
    (frame : Frame) (payload : List Nat) (txd bd tt : Nat) (dst : NodeID) (tid : TransferID)
    (len : Nat) (hlen31 : len ≤ 31) (hg : g.transferID = TransferID.setBitLen len)
    (hB : frame.transfer_id_base_.value_ ≤ g.transferID.Max)
    (hlen : Frame.PayloadCapacity < payload.length) (hL : payload.length < 2 ^ 31)
    (hp : d.passive_mode_ = false) (hok : ∀ k c, 0 ≤ d.send_result_ k c) :
    ∃ r calls, send g s d frame payload txd bd tt dst tid = some r ∧
      r.dispatcher.sent_ = d.sent_ ++ calls ∧
      (∀ (k : Nat) (hk : k < calls.length),
        calls[k].frame.transfer_id_ =
          if frame.isTransferIdAutoInc then
            ⟨(frame.transfer_id_base_.value_ + k) % 2 ^ (min len 8)⟩
          else tid) ∧
      (len ≤ 8 → ∀ (k : Nat) (hk : k < calls.length),
        calls[k].frame.transfer_id_ =
          if frame.isTransferIdAutoInc then
            ⟨(frame.transfer_id_base_.value_ + k) % 2 ^ len⟩
          else tid) := by
  have hlen' : 8 < payload.length := hlen
  have hM : g.transferID.Max = 2 ^ (min len 8) - 1 := by
    rw [hg]; exact (TransferID.setBitLen_le_31 hlen31).2
  have key : ∀ (f0 : Frame) (o : Nat), o ≤ payload.length →
      f0.isTransferIdAutoInc = frame.isTransferIdAutoInc →
      ∃ r calls, sendLoop g s payload txd bd (payload.length + 2) d.addTxTransfer f0
          (if frame.isTransferIdAutoInc then frame.getBaseAutoTransferID else tid)
          (o : Int) 0 = some r ∧
        r.dispatcher.sent_ = d.sent_ ++ calls ∧
        ∀ (k : Nat) (hk : k < calls.length),
          calls[k].frame.transfer_id_ =
            if frame.isTransferIdAutoInc then
              ⟨(frame.transfer_id_base_.value_ + k) % 2 ^ (min len 8)⟩
            else tid := by
    intro f0 o ho hf0
    obtain ⟨frames, r, hfr, hrun, -, hdisp, -⟩ :=
      sendLoop_run g s payload txd bd hL (payload.length + 2) d.addTxTransfer f0
        (if frame.isTransferIdAutoInc then frame.getBaseAutoTransferID else tid) o 0 hok ho
        (by split <;> omega)
    refine ⟨r, frames.map (loopCall s txd bd), hrun, by rw [hdisp]; rfl, ?_⟩
    intro k hk
    have hk' : k < frames.length := by simpa using hk
    have h1 := hfr.transfer_ids k hk'
    simp only [List.getElem_map, loopCall, h1, hf0]
    cases hauto : frame.isTransferIdAutoInc
    · simp
    · simp only [if_true]
      exact TransferID.increment_iterate_of_Max g.transferID (min len 8) (Nat.min_le_right _ _)
        hM _ hB k
  have main : ∃ r calls, send g s d frame payload txd bd tt dst tid = some r ∧
      r.dispatcher.sent_ = d.sent_ ++ calls ∧
      ∀ (k : Nat) (hk : k < calls.length),
        calls[k].frame.transfer_id_ =
          if frame.isTransferIdAutoInc then
            ⟨(frame.transfer_id_base_.value_ + k) % 2 ^ (min len 8)⟩
          else tid := by
    rw [send_allowed g s d frame payload txd bd tt dst tid (Or.inl hp), if_neg (by omega)]
    by_cases htype : frame.type_ = 0
    · rw [sendMultiFrame_uavcan g s _ _ payload txd bd tid
        ((setupFrame_fields s d frame tt dst tid).2.2.2.1.trans htype)]
      exact key _ 6 (by omega) rfl
    · rw [sendMultiFrame_other g s _ _ payload txd bd tid hlen' hL
        (fun h => htype ((setupFrame_fields s d frame tt dst tid).2.2.2.1.symm.trans h))]
      exact key _ 8 (by omega) rfl
  obtain ⟨r, calls, h1, h2, h3⟩ := main
  refine ⟨r, calls, h1, h2, h3, ?_⟩
  intro h8 k hk
  have := h3 k hk
  rw [Nat.min_eq_left h8] at this
  exact this

/-- C12, amended, at instances: with the bit length 5, thirty bytes on a frame with the
auto-increment flag and base 30 go out with the transfer IDs 30, 31, 0, 1; without the flag,
with transfer ID 3 on every frame. -/
theorem C12_auto_increment_tid_witness :
    ((5 : Nat) ≤ 31 ∧ Scenario.globals.transferID = TransferID.setBitLen 5 ∧
      ((Frame.ctor 42 1 ⟨10⟩ ⟨20⟩ ⟨3⟩).setTransferIdAutoInc 1 ⟨30⟩).transfer_id_base_.value_
        ≤ Scenario.globals.transferID.Max ∧
      Frame.PayloadCapacity < (List.range 30).length ∧ (List.range 30).length < 2 ^ 31 ∧
      Scenario.dispatcher.passive_mode_ = false ∧
      ∀ k c, 0 ≤ Scenario.dispatcher.send_result_ k c) ∧
    (∃ r calls, send Scenario.globals Scenario.sender Scenario.dispatcher
        ((Frame.ctor 42 1 ⟨10⟩ ⟨20⟩ ⟨3⟩).setTransferIdAutoInc 1 ⟨30⟩) (List.range 30) 100 100 1
        ⟨20⟩ ⟨3⟩ = some r ∧
      r.dispatcher.sent_ = Scenario.dispatcher.sent_ ++ calls ∧
      (∀ (k : Nat) (hk : k < calls.length),
        calls[k].frame.transfer_id_ =
          if ((Frame.ctor 42 1 ⟨10⟩ ⟨20⟩ ⟨3⟩).setTransferIdAutoInc 1 ⟨30⟩).isTransferIdAutoInc
          then
            ⟨(((Frame.ctor 42 1 ⟨10⟩ ⟨20⟩ ⟨3⟩).setTransferIdAutoInc 1
              ⟨30⟩).transfer_id_base_.value_ + k) % 2 ^ (min 5 8)⟩
          else ⟨3⟩) ∧
      ((5 : Nat) ≤ 8 → ∀ (k : Nat) (hk : k < calls.length),
        calls[k].frame.transfer_id_ =
          if ((Frame.ctor 42 1 ⟨10⟩ ⟨20⟩ ⟨3⟩).setTransferIdAutoInc 1 ⟨30⟩).isTransferIdAutoInc
          then
            ⟨(((Frame.ctor 42 1 ⟨10⟩ ⟨20⟩ ⟨3⟩).setTransferIdAutoInc 1
              ⟨30⟩).transfer_id_base_.value_ + k) % 2 ^ 5⟩
          else ⟨3⟩)) ∧
    (send Scenario.globals Scenario.sender Scenario.dispatcher
        ((Frame.ctor 42 1 ⟨10⟩ ⟨20⟩ ⟨3⟩).setTransferIdAutoInc 1 ⟨30⟩) (List.range 30) 100 100 1
        ⟨20⟩ ⟨3⟩).map (fun r => r.dispatcher.sent_.map (fun c => c.frame.transfer_id_.value_))
      = some [30, 31, 0, 1] ∧
    (send Scenario.globals Scenario.sender Scenario.dispatcher
        (Frame.ctor 42 1 ⟨10⟩ ⟨20⟩ ⟨3⟩) (List.range 30) 100 100 1
        ⟨20⟩ ⟨3⟩).map (fun r => r.dispatcher.sent_.map (fun c => c.frame.transfer_id_.value_))
      = some [3, 3, 3, 3] :=
  ⟨⟨by decide, by decide, by decide, by decide, by decide, rfl,
      fun _ _ => (by decide : (0 : Int) ≤ 1)⟩,
    C12_auto_increment_tid Scenario.globals Scenario.sender Scenario.dispatcher
      ((Frame.ctor 42 1 ⟨10⟩ ⟨20⟩ ⟨3⟩).setTransferIdAutoInc 1 ⟨30⟩) (List.range 30) 100 100 1
      ⟨20⟩ ⟨3⟩ 5 (by decide) (by decide) (by decide) (by decide) (by decide) rfl
      (fun _ _ => (by decide : (0 : Int) ≤ 1)),
    by decide, by decide⟩

end uavcan
